import Mathlib

/-!
# A shallow embedding of the CS3 physics engine

The C library (`vector.c`, `polygon.c`, `body.c`, `collision.c`, `forces.c`,
`scene.c`, `list.c`, `color.c`) is embedded function by function.

Numeric model.  A C `double` is an element of a linearly ordered field `K`
(exact arithmetic: no rounding, no overflow).  The three libm functions the
library calls (`sqrt`, `cos`, `sin`) are parameters of the functions that call
them.  Where the source stores the literal `INFINITY` in a `double` (the mass
of a body, the initial projection range, the initial minimum overlap) the model
uses an explicit extended value.  Division by zero follows the convention of
`K`, so every statement that depends on a quotient states that the divisor is
not zero.

Doubles.  Exact arithmetic cannot tell what a comparison of two rounded numbers
gives when they are equal before rounding.  For `find_collision`, where that
decides the result for shapes that only touch, the functions it calls are
embedded a second time with every operation rounded as IEEE 754 binary64
arithmetic rounds it (the definitions whose names end in `_double`).

Memory model.  A `list_t` of heap objects is a Lean `List`; `list_get` and
`list_remove` assert that the index is in range and the embedding returns
`none` when such an assertion fails.  A body owned by a scene is a pair of its
address and its contents.
-/

namespace CS3

/-! ## Definitions -/

section Definitions

variable {K : Type} [LinearOrderedField K]

/-! ### list.c -/

/-- The function `list_get` of `list.c`: `assert(index < list->size)`, then the element. -/
def list_get {α : Type} (list : List α) (index : Nat) : Option α :=
  if index < list.length then list.get? index else none

/-- The function `list_remove` of `list.c`: both assertions, then the removed element and the
list with the later elements moved one place down. -/
def list_remove {α : Type} (list : List α) (index : Nat) : Option (α × List α) :=
  if list.length ≠ 0 ∧ index < list.length then
    match list.get? index with
    | some removed => some (removed, list.eraseIdx index)
    | none => none
  else none

/-- The function `list_add` of `list.c`: the value is stored after the last element. -/
def list_add {α : Type} (list : List α) (value : α) : List α :=
  list ++ [value]

/-! ### vector.c -/

/-- The struct `vector_t` of `vector.h`. -/
@[ext]
structure vector_t (K : Type) where
  x : K
  y : K
deriving DecidableEq

/-- The constant `VEC_ZERO`. -/
def VEC_ZERO : vector_t K := ⟨0, 0⟩

/-- The function `vec_add`. -/
def vec_add (v1 v2 : vector_t K) : vector_t K := ⟨v1.x + v2.x, v1.y + v2.y⟩

/-- The function `vec_subtract`. -/
def vec_subtract (v1 v2 : vector_t K) : vector_t K := ⟨v1.x - v2.x, v1.y - v2.y⟩

/-- The function `vec_multiply`. -/
def vec_multiply (scalar : K) (v : vector_t K) : vector_t K := ⟨scalar * v.x, scalar * v.y⟩

/-- The function `vec_negate`. -/
def vec_negate (v : vector_t K) : vector_t K := vec_multiply (-1) v

/-- The function `vec_dot`. -/
def vec_dot (v1 v2 : vector_t K) : K := v1.x * v2.x + v1.y * v2.y

/-- The function `vec_cross`. -/
def vec_cross (v1 v2 : vector_t K) : K := v1.x * v2.y - v1.y * v2.x

/-- The function `vec_rotate`; `cos` and `sin` are those of libm. -/
def vec_rotate (cos sin : K → K) (v : vector_t K) (angle : K) : vector_t K :=
  ⟨v.x * cos angle - v.y * sin angle, v.x * sin angle + v.y * cos angle⟩

/-- The function `vec_rotate_90`. -/
def vec_rotate_90 (v : vector_t K) (counterclockwise : Bool) : vector_t K :=
  if counterclockwise then ⟨-v.y, v.x⟩ else ⟨v.y, -v.x⟩

/-- The function `vec_norm`; `sqrt` is that of libm. -/
def vec_norm (sqrt : K → K) (v : vector_t K) : K := sqrt (vec_dot v v)

/-- The function `vec_dist`. -/
def vec_dist (sqrt : K → K) (v1 v2 : vector_t K) : K := vec_norm sqrt (vec_subtract v1 v2)

/-- The function `vec_normalize`. -/
def vec_normalize (sqrt : K → K) (v : vector_t K) : vector_t K :=
  if v.x = 0 ∧ v.y = 0 then VEC_ZERO else vec_multiply (1 / vec_norm sqrt v) v

/-- The function `vec_scalar_proj`. -/
def vec_scalar_proj (sqrt : K → K) (axis v : vector_t K) (normalize : Bool) : K :=
  if axis.x = 0 ∧ axis.y = 0 then 0
  else
    let normalized_axis := if normalize then vec_normalize sqrt axis else axis
    vec_dot v normalized_axis

/-- The function `vec_vec_proj`. -/
def vec_vec_proj (axis v : vector_t K) (normalize : Bool) : vector_t K :=
  if axis.x = 0 ∧ axis.y = 0 then VEC_ZERO
  else if normalize then vec_multiply (vec_dot v axis / vec_dot axis axis) axis
  else vec_multiply (vec_dot v axis) axis

/-! ### polygon.c -/

/-- The vertex `*(vector_t *)list_get(polygon, i)` inside a loop of `polygon.c`.  Every such
loop reads index `i < size` or `(i + 1) % size`, which is in range, so the assertion of
`list_get` cannot fail there and the access is total. -/
def vertex (polygon : List (vector_t K)) (i : Nat) : vector_t K :=
  polygon.getD i VEC_ZERO

/-- The function `polygon_area`: the loop adds one determinant for each `i < size`. -/
def polygon_area (polygon : List (vector_t K)) : K :=
  let size := polygon.length
  let det_sum := (List.range size).foldl (fun det_sum i =>
    let j := (i + 1) % size
    det_sum + ((vertex polygon i).x - (vertex polygon j).x) *
      ((vertex polygon i).y + (vertex polygon j).y)) 0
  det_sum * (1 / 2)

/-- The function `polygon_centroid`: two sums over `i < size`, each divided by `6 * area`. -/
def polygon_centroid (polygon : List (vector_t K)) : vector_t K :=
  let area := polygon_area polygon
  let size := polygon.length
  let centroid_x := (List.range size).foldl (fun centroid_x i =>
    let j := (i + 1) % size
    centroid_x + ((vertex polygon i).x + (vertex polygon j).x) *
      ((vertex polygon i).x * (vertex polygon j).y -
        (vertex polygon j).x * (vertex polygon i).y)) 0
  let centroid_y := (List.range size).foldl (fun centroid_y i =>
    let j := (i + 1) % size
    centroid_y + ((vertex polygon i).y + (vertex polygon j).y) *
      ((vertex polygon i).x * (vertex polygon j).y -
        (vertex polygon j).x * (vertex polygon i).y)) 0
  ⟨centroid_x / (6 * area), centroid_y / (6 * area)⟩

/-- The function `polygon_translate`: every vertex is overwritten by itself plus the
translation. -/
def polygon_translate (polygon : List (vector_t K)) (translation : vector_t K) :
    List (vector_t K) :=
  polygon.map (fun v => ⟨v.x + translation.x, v.y + translation.y⟩)

/-- The function `polygon_rotate`: every vertex is moved to the pivot, rotated and moved
back. -/
def polygon_rotate (cos sin : K → K) (polygon : List (vector_t K)) (angle : K)
    (point : vector_t K) : List (vector_t K) :=
  polygon.map (fun v =>
    let temp_vec : vector_t K := ⟨v.x - point.x, v.y - point.y⟩
    let temp_vec := vec_rotate cos sin temp_vec angle
    ⟨temp_vec.x + point.x, temp_vec.y + point.y⟩)

/-! ### body.c -/

/-- The struct `rgb_color_t` of `color.h`. -/
@[ext]
structure rgb_color_t (K : Type) where
  r : K
  g : K
  b : K
deriving DecidableEq

/-- The value of the field `mass`: a finite `double` or the sentinel `INFINITY`. -/
inductive mass_t (K : Type) where
  | finite (m : K)
  | infinity
deriving DecidableEq

/-- The quotient `1.0 / body_get_mass(body)` of `body_tick`.  For the sentinel the quotient
is `1.0 / INFINITY`, which IEEE 754 defines as `0`. -/
def mass_t.one_div : mass_t K → K
  | .finite m => 1 / m
  | .infinity => 0

/-- The struct `body` of `body.c`.  The payload `info` is an address the library never
reads; its destructor `info_freer` is only called when the body is freed and is left out. -/
structure body (K : Type) where
  shape : List (vector_t K)
  mass : mass_t K
  rotation : K
  color : rgb_color_t K
  centroid : vector_t K
  velocity : vector_t K
  force : vector_t K
  impulse : vector_t K
  info : Nat
  is_removed : Bool

/-- The function `body_init_with_info`. -/
def body_init_with_info (shape : List (vector_t K)) (mass : mass_t K) (color : rgb_color_t K)
    (info : Nat) : body K :=
  let centroid := polygon_centroid shape
  let rotation : K := 0
  { shape := shape
    mass := mass
    color := color
    centroid := centroid
    velocity := VEC_ZERO
    force := VEC_ZERO
    impulse := VEC_ZERO
    rotation := rotation
    is_removed := false
    info := info }

/-- The function `body_init`: `body_init_with_info` with a `NULL` payload. -/
def body_init (shape : List (vector_t K)) (mass : mass_t K) (color : rgb_color_t K) : body K :=
  body_init_with_info shape mass color 0

/-- The function `body_get_shape`: a copy of the vertex list. -/
def body_get_shape (b : body K) : List (vector_t K) :=
  (List.range b.shape.length).map (fun i => ⟨(vertex b.shape i).x, (vertex b.shape i).y⟩)

/-- The function `body_get_centroid`. -/
def body_get_centroid (b : body K) : vector_t K := b.centroid

/-- The function `body_get_velocity`. -/
def body_get_velocity (b : body K) : vector_t K := b.velocity

/-- The function `body_get_mass`. -/
def body_get_mass (b : body K) : mass_t K := b.mass

/-- The function `body_get_color`. -/
def body_get_color (b : body K) : rgb_color_t K := b.color

/-- The function `body_get_info`. -/
def body_get_info (b : body K) : Nat := b.info

/-- The function `body_set_centroid`. -/
def body_set_centroid (b : body K) (x : vector_t K) : body K :=
  let displacement := vec_subtract x b.centroid
  { b with shape := polygon_translate b.shape displacement, centroid := x }

/-- The function `body_set_velocity`. -/
def body_set_velocity (b : body K) (v : vector_t K) : body K := { b with velocity := v }

/-- The function `body_set_rotation`. -/
def body_set_rotation (cos sin : K → K) (b : body K) (angle : K) : body K :=
  let relative_angle := angle - b.rotation
  { b with shape := polygon_rotate cos sin b.shape relative_angle b.centroid, rotation := angle }

/-- The function `body_set_color`. -/
def body_set_color (b : body K) (color : rgb_color_t K) : body K := { b with color := color }

/-- The function `body_add_force`. -/
def body_add_force (b : body K) (force : vector_t K) : body K :=
  { b with force := vec_add b.force force }

/-- The function `body_add_impulse`. -/
def body_add_impulse (b : body K) (impulse : vector_t K) : body K :=
  { b with impulse := vec_add b.impulse impulse }

/-- The function `body_tick`. -/
def body_tick (b : body K) (dt : K) : body K :=
  let total_impulse := vec_add b.impulse (vec_multiply dt b.force)
  let dv := vec_multiply (body_get_mass b).one_div total_impulse
  let old_velocity := body_get_velocity b
  let new_velocity := vec_add old_velocity dv
  let avg_velocity := vec_multiply (1 / 2) (vec_add old_velocity new_velocity)
  let displacement := vec_multiply dt avg_velocity
  let new_centroid := vec_add b.centroid displacement
  let b := body_set_centroid b new_centroid
  let b := body_set_velocity b new_velocity
  { b with impulse := VEC_ZERO, force := VEC_ZERO }

/-- The function `body_remove`. -/
def body_remove (b : body K) : body K := { b with is_removed := true }

/-- The function `body_is_removed`. -/
def body_is_removed (b : body K) : Bool := b.is_removed

/-- One call of the mutating interface of `body.h` on a body. -/
inductive body_op (K : Type) where
  | set_centroid (x : vector_t K)
  | set_rotation (angle : K)
  | set_velocity (v : vector_t K)
  | set_color (color : rgb_color_t K)
  | add_force (force : vector_t K)
  | add_impulse (impulse : vector_t K)
  | tick (dt : K)
  | remove

/-- The body after one call of the interface. -/
def body_op.apply (cos sin : K → K) (b : body K) : body_op K → body K
  | .set_centroid x => body_set_centroid b x
  | .set_rotation angle => body_set_rotation cos sin b angle
  | .set_velocity v => body_set_velocity b v
  | .set_color color => body_set_color b color
  | .add_force force => body_add_force b force
  | .add_impulse impulse => body_add_impulse b impulse
  | .tick dt => body_tick b dt
  | .remove => body_remove b

/-- The body after a sequence of calls of the interface, first call first. -/
def body_run (cos sin : K → K) (b : body K) (ops : List (body_op K)) : body K :=
  ops.foldl (body_op.apply cos sin) b

/-- Whether the call is `body_tick`. -/
def body_op.is_tick : body_op K → Bool
  | .tick _ => true
  | _ => false

/-- The sum of the vectors the calls of `body_add_force` in the sequence were given. -/
def forces_added : List (body_op K) → vector_t K
  | [] => VEC_ZERO
  | .add_force f :: ops => vec_add f (forces_added ops)
  | _ :: ops => forces_added ops

/-- The sum of the vectors the calls of `body_add_impulse` in the sequence were given. -/
def impulses_added : List (body_op K) → vector_t K
  | [] => VEC_ZERO
  | .add_impulse j :: ops => vec_add j (impulses_added ops)
  | _ :: ops => impulses_added ops

/-! ### Cyclic sums (the loop bodies of `polygon_area` and `polygon_centroid` as sums) -/

/-- The sum `polygon_area` accumulates, for the coordinate sequences `x` and `y` of `n`
vertices. -/
def cyc_area (x y : Nat → K) (n : Nat) : K :=
  ∑ i ∈ Finset.range n, (x i - x ((i + 1) % n)) * (y i + y ((i + 1) % n))

/-- The sum `polygon_centroid` accumulates in `centroid_x`. -/
def cyc_cx (x y : Nat → K) (n : Nat) : K :=
  ∑ i ∈ Finset.range n,
    (x i + x ((i + 1) % n)) * (x i * y ((i + 1) % n) - x ((i + 1) % n) * y i)

/-- The sum `polygon_centroid` accumulates in `centroid_y`. -/
def cyc_cy (x y : Nat → K) (n : Nat) : K :=
  ∑ i ∈ Finset.range n,
    (y i + y ((i + 1) % n)) * (x i * y ((i + 1) % n) - x ((i + 1) % n) * y i)

/-! ### Extended doubles

`polygon_proj` and `find_collision` store `INFINITY` and `-INFINITY` in a `double`.  Such a
value is one of: NaN, minus infinity, a finite number, plus infinity, compared and
subtracted as IEEE 754 says. -/

/-- A `double` that may be infinite or NaN. -/
inductive xdouble (K : Type) where
  | nan
  | ninf
  | fin (x : K)
  | pinf
deriving DecidableEq

/-- The comparison `a < b` of two doubles. -/
def xdouble.lt : xdouble K → xdouble K → Bool
  | .ninf, .fin _ => true
  | .ninf, .pinf => true
  | .fin a, .fin b => decide (a < b)
  | .fin _, .pinf => true
  | _, _ => false

/-- The comparison `a <= b` of two doubles. -/
def xdouble.le : xdouble K → xdouble K → Bool
  | .ninf, .ninf => true
  | .ninf, .fin _ => true
  | .ninf, .pinf => true
  | .fin a, .fin b => decide (a ≤ b)
  | .fin _, .pinf => true
  | .pinf, .pinf => true
  | _, _ => false

/-- The comparison `a > b` of two doubles. -/
def xdouble.gt (a b : xdouble K) : Bool := xdouble.lt b a

/-- The comparison `a >= b` of two doubles. -/
def xdouble.ge (a b : xdouble K) : Bool := xdouble.le b a

/-- The difference `a - b` of two doubles. -/
def xdouble.sub : xdouble K → xdouble K → xdouble K
  | .fin a, .fin b => .fin (a - b)
  | .fin _, .pinf => .ninf
  | .fin _, .ninf => .pinf
  | .pinf, .fin _ => .pinf
  | .pinf, .ninf => .pinf
  | .ninf, .fin _ => .ninf
  | .ninf, .pinf => .ninf
  | _, _ => .nan

/-- The struct `range_t` of `polygon.h`. -/
structure range_t (K : Type) where
  min : xdouble K
  max : xdouble K
deriving DecidableEq

/-- The function `polygon_proj`: the loop visits the vertices in order. -/
def polygon_proj (sqrt : K → K) (polygon : List (vector_t K)) (axis : vector_t K)
    (normalize : Bool) : range_t K :=
  if axis.x = 0 ∧ axis.y = 0 then ⟨.fin 0, .fin 0⟩
  else
    let axis_normalized := if normalize then vec_normalize sqrt axis else axis
    polygon.foldl (fun proj_range vert =>
      let vert_proj := vec_scalar_proj sqrt axis_normalized vert false
      let proj_range : range_t K :=
        if xdouble.lt (.fin vert_proj) proj_range.min then
          { proj_range with min := .fin vert_proj }
        else proj_range
      if xdouble.gt (.fin vert_proj) proj_range.max then
        { proj_range with max := .fin vert_proj }
      else proj_range) ⟨.pinf, .ninf⟩

/-! ### collision.c -/

/-- The struct `seperation_helper_t`.  The C code leaves `overlap` uninitialised when
`seperated` is true and never reads it then; the model stores NaN there. -/
structure seperation_helper_t (K : Type) where
  seperated : Bool
  overlap : xdouble K
deriving DecidableEq

/-- The struct `collision_info_t` of `collision.h`.  The field `axis` is `none` while the C
code has not written it. -/
structure collision_info_t (K : Type) where
  collided : Bool
  axis : Option (vector_t K)
deriving DecidableEq

/-- The function `get_normalized_proj_axes`: one axis for each `i < num_verts`, in order. -/
def get_normalized_proj_axes (sqrt : K → K) (shape : List (vector_t K)) : List (vector_t K) :=
  let num_verts := shape.length
  (List.range num_verts).map (fun i =>
    let vert1 := vertex shape i
    let vert2 := vertex shape ((i + 1) % shape.length)
    let edge := vec_subtract vert2 vert1
    let edge_normal := vec_rotate_90 edge true
    vec_normalize sqrt edge_normal)

/-- The function `shapes_are_separated`. -/
def shapes_are_separated (sqrt : K → K) (normalized_axis : vector_t K)
    (shape1 shape2 : List (vector_t K)) : seperation_helper_t K :=
  let proj1 := polygon_proj sqrt shape1 normalized_axis false
  let proj2 := polygon_proj sqrt shape2 normalized_axis false
  let seperated := xdouble.lt proj1.max proj2.min || xdouble.lt proj2.max proj1.min
  if seperated = false then
    let overlap :=
      if xdouble.le proj1.min proj2.min then
        if xdouble.le proj1.max proj2.max then xdouble.sub proj1.max proj2.min
        else xdouble.sub proj2.max proj2.min
      else
        if xdouble.ge proj1.max proj2.max then xdouble.sub proj2.max proj1.min
        else xdouble.sub proj1.max proj1.min
    ⟨seperated, overlap⟩
  else ⟨seperated, .nan⟩

/-- The `for` loop of `find_collision`.  The first argument counts the iterations that are
left (`num_axes - i`); the loop variables are `i`, `num_axes1` (which the body overwrites when
it is zero), `min` and `min_axis`.  The result is the final `ret_info.collided` and
`min_axis`, or `none` when the assertion of `list_get` fails. -/
def find_collision_loop (sqrt : K → K) (shape1 shape2 axes1 axes2 : List (vector_t K))
    (num_axes2 : Nat) :
    Nat → Nat → Nat → xdouble K → Option (vector_t K) → Option (Bool × Option (vector_t K))
  | 0, _, _, _, min_axis => some (true, min_axis)
  | left + 1, i, num_axes1, min, min_axis =>
    let axis_group := if i < num_axes1 then axes1 else axes2
    let num_axes1' := if num_axes1 = 0 then num_axes2 else num_axes1
    let axis_group := if num_axes1 = 0 then axes2 else axis_group
    match list_get axis_group (i % num_axes1') with
    | none => none
    | some axis =>
      let seperated_info := shapes_are_separated sqrt axis shape1 shape2
      if seperated_info.seperated = true then some (false, min_axis)
      else if xdouble.gt min seperated_info.overlap then
        find_collision_loop sqrt shape1 shape2 axes1 axes2 num_axes2 left (i + 1) num_axes1'
          seperated_info.overlap (some axis)
      else
        find_collision_loop sqrt shape1 shape2 axes1 axes2 num_axes2 left (i + 1) num_axes1'
          min min_axis

/-- The function `find_collision`. -/
def find_collision (sqrt : K → K) (shape1 shape2 : List (vector_t K)) :
    Option (collision_info_t K) :=
  let axes1 := get_normalized_proj_axes sqrt shape1
  let axes2 := get_normalized_proj_axes sqrt shape2
  let num_axes1 := axes1.length
  let num_axes2 := axes2.length
  let num_axes := num_axes1 + num_axes2
  match find_collision_loop sqrt shape1 shape2 axes1 axes2 num_axes2 num_axes 0 num_axes1
      .pinf none with
  | none => none
  | some (collided, min_axis) =>
    if collided = true then some ⟨collided, min_axis⟩ else some ⟨collided, none⟩

/-- The point is a convex combination of the vertices of the polygon: weights, one for each
vertex, none negative, of sum one. -/
def in_convex_hull (polygon : List (vector_t K)) (pt : vector_t K) : Prop :=
  ∃ w : List K, w.length = polygon.length ∧ (∀ a ∈ w, 0 ≤ a) ∧ w.sum = 1 ∧
    pt.x = (List.zipWith (fun a (v : vector_t K) => a * v.x) w polygon).sum ∧
    pt.y = (List.zipWith (fun a (v : vector_t K) => a * v.y) w polygon).sum

/-- A convex polygon given counter-clockwise: every vertex is on the left of, or on, the line
through every edge, and the boundary turns strictly left at every vertex. -/
def convex_ccw (polygon : List (vector_t K)) : Prop :=
  (∀ i, i < polygon.length → ∀ k, k < polygon.length →
    0 ≤ vec_cross
      (vec_subtract (vertex polygon ((i + 1) % polygon.length)) (vertex polygon i))
      (vec_subtract (vertex polygon k) (vertex polygon i))) ∧
  (∀ i, i < polygon.length →
    0 < vec_cross
      (vec_subtract (vertex polygon ((i + 1) % polygon.length)) (vertex polygon i))
      (vec_subtract (vertex polygon ((i + 2) % polygon.length))
        (vertex polygon ((i + 1) % polygon.length))))

/-- The triangle with vertices `(0,0)`, `(6,0)`, `(0,8)`. -/
def triangle_6_8 : List (vector_t ℝ) := [⟨0, 0⟩, ⟨6, 0⟩, ⟨0, 8⟩]

/-- The quadrilateral with vertices `(2,7)`, `(2,15)`, `(-6,15)`, `(-6,13)`; its last edge
lies on the line `3x + 4y = 34`. -/
def quad_far : List (vector_t ℝ) := [⟨2, 7⟩, ⟨2, 15⟩, ⟨-6, 15⟩, ⟨-6, 13⟩]

/-- The quadrilateral with vertices `(2,6)`, `(2,14)`, `(-6,14)`, `(-6,12)`; its last edge
lies on the line `3x + 4y = 30`. -/
def quad_near : List (vector_t ℝ) := [⟨2, 6⟩, ⟨2, 14⟩, ⟨-6, 14⟩, ⟨-6, 12⟩]

/-- The constant `COLLIDING_PAIR1_VERTS1` of `test_suite_collision.c`. -/
def COLLIDING_PAIR1_VERTS1 : List (vector_t ℝ) := [⟨1, 1⟩, ⟨3, 1⟩, ⟨3, 2⟩, ⟨1, 2⟩]

/-- The constant `COLLIDING_PAIR1_VERTS2` of `test_suite_collision.c`. -/
def COLLIDING_PAIR1_VERTS2 : List (vector_t ℝ) := [⟨2, 1⟩, ⟨4, 1⟩, ⟨4, 2⟩, ⟨2, 2⟩]

/-! ### Bodies in memory

A `body_t *` is the address of a body.  The bodies a scene owns are kept as the list
`scene->bodies` of addresses, each paired with the body stored there; a pointer to a body that
is not in that list (a freed body) cannot be read. -/

/-- The memory `scene->bodies` points to: each address with the body stored there. -/
abbrev bodies_t (K : Type) := List (Nat × body K)

/-- Reading `*body` for a pointer: the body stored at the address, if it is still there. -/
def body_deref (bodies : bodies_t K) (ptr : Nat) : Option (body K) :=
  match bodies.find? (fun e => e.1 == ptr) with
  | some e => some e.2
  | none => none

/-- Writing through a pointer: the body stored at the address is replaced by `f` of it. -/
def body_update (bodies : bodies_t K) (ptr : Nat) (f : body K → body K) : bodies_t K :=
  bodies.map (fun e => if e.1 = ptr then (e.1, f e.2) else e)

/-! ### forces.c: collision effects -/

/-- The struct `const_body_aux_t` of `forces.h`; `extra_var` is the colour list where one is
stored, and the destructor `freer` is left out. -/
structure const_body_aux_t (K : Type) where
  consts : List K
  bodies : List Nat
  extra_var : Option (List (rgb_color_t K))

/-- The type `collision_handler_t` of `forces.h`: called with the two body pointers, the axis
and the auxiliary value, a handler may write to the bodies and to the auxiliary value; `none`
when it fails an assertion or reads a freed body. -/
abbrev collision_handler_t (K : Type) :=
  Nat → Nat → vector_t K → const_body_aux_t K → bodies_t K →
    Option (const_body_aux_t K × bodies_t K)

/-- The struct `force_aux_t` of `forces.c`; the destructor `freer` is left out. -/
structure force_aux_t (K : Type) where
  handler : collision_handler_t K
  const_body_aux : const_body_aux_t K
  already_colliding : Bool

/-- The function `force_aux_init`. -/
def force_aux_init (handler : collision_handler_t K) (aux : const_body_aux_t K) :
    force_aux_t K :=
  { handler := handler
    const_body_aux := aux
    already_colliding := false }

/-- The function `const_body_aux_init`; `extra_var` is not written. -/
def const_body_aux_init (consts : List K) (bodies : List Nat) : const_body_aux_t K :=
  { consts := consts, bodies := bodies, extra_var := none }

/-- The first half of the function `collision`: the two body pointers of the auxiliary value
and what `find_collision` returns for copies of their shapes. -/
def collision_find (sqrt : K → K) (force_aux : force_aux_t K) (bodies : bodies_t K) :
    Option (Nat × Nat × collision_info_t K) :=
  let tpd_aux := force_aux.const_body_aux
  match list_get tpd_aux.bodies 0, list_get tpd_aux.bodies 1 with
  | some body1, some body2 =>
    match body_deref bodies body1, body_deref bodies body2 with
    | some b1, some b2 =>
      let shape1 := body_get_shape b1
      let shape2 := body_get_shape b2
      match find_collision sqrt shape1 shape2 with
      | some bodies_are_colliding => some (body1, body2, bodies_are_colliding)
      | none => none
    | _, _ => none
  | _, _ => none

/-- The function `collision` of `forces.c`: the force creator of every collision effect. -/
def collision (sqrt : K → K) (force_aux : force_aux_t K) (bodies : bodies_t K) :
    Option (force_aux_t K × bodies_t K) :=
  match collision_find sqrt force_aux bodies with
  | none => none
  | some (body1, body2, bodies_are_colliding) =>
    if bodies_are_colliding.collided = true then
      if force_aux.already_colliding = false then
        match bodies_are_colliding.axis with
        | none => none
        | some axis =>
          match force_aux.handler body1 body2 axis force_aux.const_body_aux bodies with
          | none => none
          | some (aux, bodies) =>
            some ({ force_aux with const_body_aux := aux, already_colliding := true }, bodies)
      else some ({ force_aux with already_colliding := true }, bodies)
    else some ({ force_aux with already_colliding := false }, bodies)

/-- What one invocation of a collision effect leaves behind: the result of `find_collision`
it saw, its auxiliary value before and after, and the bodies before and after. -/
structure collision_step (K : Type) where
  info : collision_info_t K
  body1 : Nat
  body2 : Nat
  aux_before : force_aux_t K
  bodies_before : bodies_t K
  aux_after : force_aux_t K
  bodies_after : bodies_t K

/-- A sequence of invocations of one collision effect.  `states` holds the bodies as they are
at the start of each invocation (whatever the rest of the program did to them in between);
the auxiliary value is carried from one invocation to the next.  `none` when an invocation
fails. -/
def collision_run (sqrt : K → K) : force_aux_t K → List (bodies_t K) →
    Option (List (collision_step K))
  | _, [] => some []
  | force_aux, bodies :: states =>
    match collision_find sqrt force_aux bodies, collision sqrt force_aux bodies with
    | some (body1, body2, info), some (aux_after, bodies_after) =>
      match collision_run sqrt aux_after states with
      | some steps =>
        some (⟨info, body1, body2, force_aux, bodies, aux_after, bodies_after⟩ :: steps)
      | none => none
    | _, _ => none

/-! ### scene.c -/

/-- The type `force_creator_t`: called with its auxiliary value, a force creator may write to
that value and to the bodies; `none` when it fails an assertion or reads a freed body. -/
abbrev force_creator_t (K α : Type) := α → bodies_t K → Option (α × bodies_t K)

/-- The struct `force` of `scene.c`; `bodies` holds the addresses of the bodies the force
depends on, and the destructor `freer` is left out. -/
structure force_t (K α : Type) where
  forcer : force_creator_t K α
  aux : α
  bodies : List Nat
  mark_removal : Bool

/-- The function `force_remove`. -/
def force_remove {α : Type} (force : force_t K α) : force_t K α :=
  { force with mark_removal := true }

/-- The function `force_is_removed`. -/
def force_is_removed {α : Type} (force : force_t K α) : Bool := force.mark_removal

/-- The struct `scene` of `scene.c`. -/
structure scene_t (K α : Type) where
  bodies : bodies_t K
  forces : List (force_t K α)

/-- The function `scene_init`. -/
def scene_init {α : Type} : scene_t K α := { bodies := [], forces := [] }

/-- The function `scene_bodies`. -/
def scene_bodies {α : Type} (scene : scene_t K α) : Nat := scene.bodies.length

/-- The function `scene_get_body`: the pointer at the index, after the assertion. -/
def scene_get_body {α : Type} (scene : scene_t K α) (index : Nat) : Option Nat :=
  if index < scene.bodies.length then
    match list_get scene.bodies index with
    | some e => some e.1
    | none => none
  else none

/-- The function `scene_add_body`: the body, allocated at address `ptr`, joins the list. -/
def scene_add_body {α : Type} (scene : scene_t K α) (ptr : Nat) (b : body K) :
    scene_t K α :=
  { scene with bodies := list_add scene.bodies (ptr, b) }

/-- The function `scene_add_bodies_force_creator`; `bodies` is `none` for a `NULL` list. -/
def scene_add_bodies_force_creator {α : Type} (scene : scene_t K α)
    (forcer : force_creator_t K α) (aux : α) (bodies : Option (List Nat)) : scene_t K α :=
  let force : force_t K α :=
    { aux := aux
      bodies := match bodies with
        | none => []
        | some bodies => bodies
      mark_removal := false
      forcer := forcer }
  { scene with forces := list_add scene.forces force }

/-- The function `scene_add_force_creator`. -/
def scene_add_force_creator {α : Type} (scene : scene_t K α) (forcer : force_creator_t K α)
    (aux : α) : scene_t K α :=
  scene_add_bodies_force_creator scene forcer aux none

/-- The first loop of `scene_tick`: every force creator is called once, in order.  The first
argument counts the iterations that are left (`num_forces - i`). -/
def scene_tick_apply {α : Type} :
    Nat → Nat → List (force_t K α) → bodies_t K → Option (List (force_t K α) × bodies_t K)
  | 0, _, forces, bodies => some (forces, bodies)
  | left + 1, i, forces, bodies =>
    match list_get forces i with
    | none => none
    | some force =>
      match force.forcer force.aux bodies with
      | none => none
      | some (aux, bodies) =>
        scene_tick_apply left (i + 1) (forces.set i { force with aux := aux }) bodies

/-- The inner loop of the second loop of `scene_tick`: the force is marked when a body of its
list is flagged removed.  The loop stops the model (`none`) when the pointer it reads is that
of a freed body. -/
def scene_tick_check {α : Type} (bodies : bodies_t K) :
    Nat → Nat → force_t K α → Option (force_t K α)
  | 0, _, force => some force
  | left + 1, j, force =>
    match list_get force.bodies j with
    | none => none
    | some curr_body =>
      match body_deref bodies curr_body with
      | none => none
      | some b =>
        if body_is_removed b = true then
          scene_tick_check bodies left (j + 1) (force_remove force)
        else scene_tick_check bodies left (j + 1) force

/-- The second loop of `scene_tick`. -/
def scene_tick_mark {α : Type} (bodies : bodies_t K) :
    Nat → Nat → List (force_t K α) → Option (List (force_t K α))
  | 0, _, forces => some forces
  | left + 1, i, forces =>
    match list_get forces i with
    | none => none
    | some force =>
      match scene_tick_check bodies force.bodies.length 0 force with
      | none => none
      | some force => scene_tick_mark bodies left (i + 1) (forces.set i force)

/-- The third loop of `scene_tick`, `while (i < list_size(scene->bodies))`: a body flagged
removed is taken out of the list and freed, any other body is ticked.  The first argument
bounds the number of iterations; `none` when it is used up or an assertion fails. -/
def scene_tick_bodies (dt : K) : Nat → Nat → bodies_t K → Option (bodies_t K)
  | 0, i, bodies => if i < bodies.length then none else some bodies
  | fuel + 1, i, bodies =>
    if i < bodies.length then
      match list_get bodies i with
      | none => none
      | some e =>
        if body_is_removed e.2 = true then
          match list_remove bodies i with
          | none => none
          | some (_, bodies) => scene_tick_bodies dt fuel i bodies
        else scene_tick_bodies dt fuel (i + 1) (bodies.set i (e.1, body_tick e.2 dt))
    else some bodies

/-- The fourth loop of `scene_tick`, `while (j < list_size(scene->forces))`: a force marked
for removal is taken out of the list by `scene_remove_force`. -/
def scene_tick_forces {α : Type} : Nat → Nat → List (force_t K α) → Option (List (force_t K α))
  | 0, j, forces => if j < forces.length then none else some forces
  | fuel + 1, j, forces =>
    if j < forces.length then
      match list_get forces j with
      | none => none
      | some force =>
        if force_is_removed force = true then
          match list_remove forces j with
          | none => none
          | some (_, forces) => scene_tick_forces fuel j forces
        else scene_tick_forces fuel (j + 1) forces
    else some forces

/-- The function `scene_tick`.  Each `while` loop is given as many iterations as its list has
elements when it starts. -/
def scene_tick {α : Type} (scene : scene_t K α) (dt : K) : Option (scene_t K α) :=
  let num_forces := scene.forces.length
  match scene_tick_apply num_forces 0 scene.forces scene.bodies with
  | none => none
  | some (forces, bodies) =>
    match scene_tick_mark bodies num_forces 0 forces with
    | none => none
    | some forces =>
      match scene_tick_bodies dt bodies.length 0 bodies with
      | none => none
      | some bodies =>
        match scene_tick_forces forces.length 0 forces with
        | none => none
        | some forces => some { bodies := bodies, forces := forces }

/-- The auxiliary values the library registers with a scene: a `const_body_aux_t` or a
`force_aux_t`. -/
inductive aux_t (K : Type) where
  | const_body (aux : const_body_aux_t K)
  | force (aux : force_aux_t K)

/-- The function `collision` as the force creator `(force_creator_t)collision`, reading its
`void *` argument as a `force_aux_t`. -/
def collision_forcer (sqrt : K → K) : force_creator_t K (aux_t K) :=
  fun aux bodies =>
    match aux with
    | .force force_aux =>
      match collision sqrt force_aux bodies with
      | some (force_aux, bodies) => some (.force force_aux, bodies)
      | none => none
    | .const_body _ => none

/-- The function `create_collision`. -/
def create_collision (sqrt : K → K) (scene : scene_t K (aux_t K)) (body1 body2 : Nat)
    (handler : collision_handler_t K) (aux : const_body_aux_t K) : scene_t K (aux_t K) :=
  let aux_bodies := list_add (list_add [] body1) body2
  let force_aux := force_aux_init handler aux
  scene_add_bodies_force_creator scene (collision_forcer sqrt) (.force force_aux)
    (some aux_bodies)

/-- Calling a function of `body.h` that writes to `*body`: the body at the address is
replaced; `none` when the pointer is that of a freed body. -/
def body_write (bodies : bodies_t K) (ptr : Nat) (f : body K → body K) : Option (bodies_t K) :=
  match body_deref bodies ptr with
  | some _ => some (body_update bodies ptr f)
  | none => none

/-- The function `apply_destructive_collision`. -/
def apply_destructive_collision : collision_handler_t K :=
  fun body1 body2 _axis aux bodies =>
    match body_write bodies body1 body_remove with
    | none => none
    | some bodies =>
      match body_write bodies body2 body_remove with
      | none => none
      | some bodies => some (aux, bodies)

/-- The function `create_destructive_collision`. -/
def create_destructive_collision (sqrt : K → K) (scene : scene_t K (aux_t K))
    (body1 body2 : Nat) : scene_t K (aux_t K) :=
  let aux_bodies := list_add (list_add [] body1) body2
  let aux := const_body_aux_init [] aux_bodies
  create_collision sqrt scene body1 body2 apply_destructive_collision aux

/-- The invocation called the handler: the axis was there, and the auxiliary value and the
bodies the invocation left are those the handler returned for the arguments `collision`
passes. -/
def collision_step.handler_called (step : collision_step K) : Prop :=
  ∃ axis, step.info.axis = some axis ∧
    step.aux_before.handler step.body1 step.body2 axis step.aux_before.const_body_aux
      step.bodies_before = some (step.aux_after.const_body_aux, step.bodies_after)

/-- The invocation did not call the handler: the auxiliary value of the handler and the
bodies are as they were. -/
def collision_step.handler_skipped (step : collision_step K) : Prop :=
  step.aux_after.const_body_aux = step.aux_before.const_body_aux ∧
    step.bodies_after = step.bodies_before

/-! ### forces.c: the force creators and the other collision handlers

A force creator or handler returns `none` when an assertion of `list_get` fails, when it
reads or writes a freed body, or when a value it has to store is not a finite double (a
product with the mass `INFINITY`), for which the model has no number. -/

/-- The constant `GRAVITY_MIN_DIST`. -/
def GRAVITY_MIN_DIST : K := 5

/-- The function `apply_newtonian`; its `void *` argument is read as a `const_body_aux_t`. -/
def apply_newtonian (sqrt : K → K) : force_creator_t K (aux_t K) :=
  fun aux bodies =>
    match aux with
    | .force _ => none
    | .const_body tpd_aux =>
      match list_get tpd_aux.bodies 0, list_get tpd_aux.bodies 1, list_get tpd_aux.consts 0 with
      | some body1, some body2, some big_g =>
        match body_deref bodies body1, body_deref bodies body2 with
        | some b1, some b2 =>
          let centroid1 := body_get_centroid b1
          let centroid2 := body_get_centroid b2
          let dist := vec_dist sqrt centroid1 centroid2
          if dist < GRAVITY_MIN_DIST then some (aux, bodies)
          else
            let dir_1_to_2 := vec_multiply (1 / dist) (vec_subtract centroid2 centroid1)
            let dir_2_to_1 := vec_negate dir_1_to_2
            match body_get_mass b1, body_get_mass b2 with
            | .finite m1, .finite m2 =>
              let force_mag := big_g * m1 * m2 / (dist * dist)
              match body_write bodies body1
                  (fun b => body_add_force b (vec_multiply force_mag dir_1_to_2)) with
              | none => none
              | some bodies =>
                match body_write bodies body2
                    (fun b => body_add_force b (vec_multiply force_mag dir_2_to_1)) with
                | none => none
                | some bodies => some (aux, bodies)
            | _, _ => none
        | _, _ => none
      | _, _, _ => none

/-- The function `apply_drag`; its `void *` argument is read as a `const_body_aux_t`. -/
def apply_drag : force_creator_t K (aux_t K) :=
  fun aux bodies =>
    match aux with
    | .force _ => none
    | .const_body tpd_aux =>
      match list_get tpd_aux.bodies 0, list_get tpd_aux.consts 0 with
      | some body, some gamma =>
        match body_deref bodies body with
        | some b =>
          let force := vec_multiply (-gamma) (body_get_velocity b)
          match body_write bodies body (fun b => body_add_force b force) with
          | none => none
          | some bodies => some (aux, bodies)
        | none => none
      | _, _ => none

/-- The function `apply_physics_collision`. -/
def apply_physics_collision : collision_handler_t K :=
  fun body1 body2 axis aux bodies =>
    match list_get aux.consts 0 with
    | none => none
    | some elasticity =>
      match body_deref bodies body1, body_deref bodies body2 with
      | some b1, some b2 =>
        match body_get_mass b1, body_get_mass b2 with
        | .infinity, .finite m =>
          let body2_speed := body_get_velocity b2
          let impulse := vec_dot axis body2_speed
          let impulse := impulse * m * (1 + elasticity)
          match body_write bodies body2
              (fun b => body_add_impulse b (vec_multiply impulse axis)) with
          | none => none
          | some bodies => some (aux, bodies)
        | .infinity, .infinity => none
        | .finite m, .infinity =>
          let body1_speed := body_get_velocity b1
          let impulse := vec_dot axis body1_speed
          let impulse := impulse * m * (1 + elasticity)
          match body_write bodies body1
              (fun b => body_add_impulse b (vec_multiply (-1 * impulse) axis)) with
          | none => none
          | some bodies => some (aux, bodies)
        | .finite m_1, .finite m_2 =>
          let u1 := vec_dot (body_get_velocity b1) axis
          let u2 := vec_dot (body_get_velocity b2) axis
          let reduced_mass := (m_1 * m_2) / (m_1 + m_2)
          let impulse := reduced_mass * (1 + elasticity) * (u2 - u1)
          let impulse_vec := vec_multiply impulse axis
          match body_write bodies body1 (fun b => body_add_impulse b impulse_vec) with
          | none => none
          | some bodies =>
            match body_write bodies body2
                (fun b => body_add_impulse b (vec_multiply (-1) impulse_vec)) with
            | none => none
            | some bodies => some (aux, bodies)
      | _, _ => none

/-- The function `apply_speed_boost_collision`. -/
def apply_speed_boost_collision : collision_handler_t K :=
  fun body1 _body2 _axis const_body_aux bodies =>
    match body_write bodies body1 body_remove with
    | none => none
    | some bodies =>
      match list_get const_body_aux.consts 0, list_get const_body_aux.bodies 2 with
      | some boost_factor, some body3 =>
        match body_deref bodies body3 with
        | none => none
        | some b3 =>
          let curr_vel := body_get_velocity b3
          let new_vel := vec_multiply boost_factor curr_vel
          match body_write bodies body3 (fun b => body_set_velocity b new_vel) with
          | none => none
          | some bodies => some (const_body_aux, bodies)
      | _, _ => none

/-- The function `create_newtonian_gravity`. -/
def create_newtonian_gravity (sqrt : K → K) (scene : scene_t K (aux_t K)) (big_g : K)
    (body1 body2 : Nat) : scene_t K (aux_t K) :=
  let aux_bodies := list_add (list_add [] body1) body2
  let consts := list_add [] big_g
  let aux := const_body_aux_init consts aux_bodies
  let scene_bodies := list_add (list_add [] body1) body2
  scene_add_bodies_force_creator scene (apply_newtonian sqrt) (.const_body aux)
    (some scene_bodies)

/-- The function `create_drag`. -/
def create_drag (scene : scene_t K (aux_t K)) (gamma : K) (body : Nat) :
    scene_t K (aux_t K) :=
  let aux_bodies := list_add [] body
  let consts := list_add [] gamma
  let aux := const_body_aux_init consts aux_bodies
  let scene_bodies := list_add [] body
  scene_add_bodies_force_creator scene apply_drag (.const_body aux) (some scene_bodies)

/-- The function `create_physics_collision`. -/
def create_physics_collision (sqrt : K → K) (scene : scene_t K (aux_t K)) (elasticity : K)
    (body1 body2 : Nat) : scene_t K (aux_t K) :=
  let aux_bodies := list_add (list_add [] body1) body2
  let consts := list_add [] elasticity
  let aux := const_body_aux_init consts aux_bodies
  create_collision sqrt scene body1 body2 apply_physics_collision aux

/-- The function `create_speed_boost_collision`. -/
def create_speed_boost_collision (sqrt : K → K) (scene : scene_t K (aux_t K))
    (boost_factor : K) (body1 body2 body3 : Nat) : scene_t K (aux_t K) :=
  let aux_bodies := list_add (list_add (list_add [] body1) body2) body3
  let consts := list_add [] boost_factor
  let aux := const_body_aux_init consts aux_bodies
  create_collision sqrt scene body1 body2 apply_speed_boost_collision aux

/-- The function `scene_remove_body`. -/
def scene_remove_body {α : Type} (scene : scene_t K α) (index : Nat) : Option (scene_t K α) :=
  if index < scene.bodies.length then
    match list_get scene.bodies index with
    | some e => some { scene with bodies := scene.bodies.set index (e.1, body_remove e.2) }
    | none => none
  else none

/-- The square of side 2 with centre `c`, counter-clockwise from its lower left corner. -/
def square_at (c : vector_t K) : List (vector_t K) :=
  [⟨c.x - 1, c.y - 1⟩, ⟨c.x + 1, c.y - 1⟩, ⟨c.x + 1, c.y + 1⟩, ⟨c.x - 1, c.y + 1⟩]

/-- A body made by `body_init` from the square of side 2 with centre `c`, then given a
velocity by `body_set_velocity`. -/
def square_body (c : vector_t K) (mass : mass_t K) (velocity : vector_t K) : body K :=
  body_set_velocity (body_init (square_at c) mass ⟨1, 0, 0⟩) velocity

/-! ### forces.c: the spring and the colour increment -/

/-- The function `apply_spring`; its `void *` argument is read as a `const_body_aux_t`. -/
def apply_spring : force_creator_t K (aux_t K) :=
  fun aux bodies =>
    match aux with
    | .force _ => none
    | .const_body tpd_aux =>
      match list_get tpd_aux.bodies 0, list_get tpd_aux.bodies 1, list_get tpd_aux.consts 0 with
      | some body1, some body2, some k =>
        match body_deref bodies body1, body_deref bodies body2 with
        | some b1, some b2 =>
          let centroid1 := body_get_centroid b1
          let centroid2 := body_get_centroid b2
          let disp_1_to_2 := vec_subtract centroid2 centroid1
          let disp_2_to_1 := vec_negate disp_1_to_2
          match body_write bodies body1
              (fun b => body_add_force b (vec_multiply k disp_1_to_2)) with
          | none => none
          | some bodies =>
            match body_write bodies body2
                (fun b => body_add_force b (vec_multiply k disp_2_to_1)) with
            | none => none
            | some bodies => some (aux, bodies)
        | _, _ => none
      | _, _, _ => none

/-- The function `create_spring`. -/
def create_spring (scene : scene_t K (aux_t K)) (k : K) (body1 body2 : Nat) :
    scene_t K (aux_t K) :=
  let aux_bodies := list_add (list_add [] body1) body2
  let consts := list_add [] k
  let aux := const_body_aux_init consts aux_bodies
  let scene_bodies := list_add (list_add [] body1) body2
  scene_add_bodies_force_creator scene apply_spring (.const_body aux) (some scene_bodies)

/-- The `for` loop of `apply_color_increment_collision`.  The first argument counts the
iterations that are left (`list_size(color_list) - i`); the loop variables are `i` and
`counter`, and `curr_color` is the colour of body2 read before the loop. -/
def apply_color_increment_loop (color_list : List (rgb_color_t K)) (curr_color : rgb_color_t K)
    (body2 : Nat) : Nat → Nat → Nat → bodies_t K → Option (Nat × bodies_t K)
  | 0, _, counter, bodies => some (counter, bodies)
  | left + 1, i, counter, bodies =>
    match list_get color_list i with
    | none => none
    | some curr =>
      if curr_color.b = curr.b ∧ curr_color.g = curr.g ∧ curr_color.r = curr.r then
        if i < color_list.length - 1 then
          match list_get color_list (i + 1) with
          | none => none
          | some next_color =>
            match body_write bodies body2 (fun b => body_set_color b next_color) with
            | none => none
            | some bodies =>
              apply_color_increment_loop color_list curr_color body2 left (i + 1) (counter + 1)
                bodies
        else
          match body_write bodies body2 body_remove with
          | none => none
          | some bodies =>
            apply_color_increment_loop color_list curr_color body2 left (i + 1) (counter + 1)
              bodies
      else apply_color_increment_loop color_list curr_color body2 left (i + 1) counter bodies

/-- The function `apply_color_increment_collision`.  Its last statement hands the colour list
to its destructor, so the auxiliary value it leaves has no colour list to read. -/
def apply_color_increment_collision : collision_handler_t K :=
  fun body1 body2 _axis const_body_aux bodies =>
    match body_write bodies body1 body_remove with
    | none => none
    | some bodies =>
      match const_body_aux.extra_var with
      | none => none
      | some color_list =>
        match body_deref bodies body2 with
        | none => none
        | some b2 =>
          let curr_color := body_get_color b2
          match apply_color_increment_loop color_list curr_color body2 color_list.length 0 0
              bodies with
          | none => none
          | some (counter, bodies) =>
            if counter = 0 then
              match body_write bodies body2 body_remove with
              | none => none
              | some bodies => some ({ const_body_aux with extra_var := none }, bodies)
            else some ({ const_body_aux with extra_var := none }, bodies)

/-- The function `create_color_increment_collision`. -/
def create_color_increment_collision (sqrt : K → K) (scene : scene_t K (aux_t K))
    (body1 body2 : Nat) (color_list : List (rgb_color_t K)) : scene_t K (aux_t K) :=
  let aux_bodies := list_add (list_add [] body1) body2
  let consts : List K := []
  let aux := const_body_aux_init consts aux_bodies
  let aux := { aux with extra_var := some color_list }
  create_collision sqrt scene body1 body2 apply_color_increment_collision aux

/-- The shoelace sum as the spec writes it: half the sum, taken cyclically over the
vertices, of `x_i * y_(i+1) - x_(i+1) * y_i`. -/
def shoelace_area (polygon : List (vector_t K)) : K :=
  1 / 2 * ∑ i ∈ Finset.range polygon.length,
    ((vertex polygon i).x * (vertex polygon ((i + 1) % polygon.length)).y -
      (vertex polygon ((i + 1) % polygon.length)).x * (vertex polygon i).y)

/-- The function `color_val`. -/
def color_val (c : rgb_color_t K) : K :=
  if c.r > c.g ∧ c.r > c.b then c.r
  else if c.b > c.g ∧ c.b > c.r then c.b
  else c.g

/-- The function `color_hue`; `fminf` is the minimum. -/
def color_hue (pi : K) (c : rgb_color_t K) : K :=
  let max := color_val c
  let hue : K := 0
  let min := Min.min c.r c.g
  let min := Min.min min c.b
  let delta := max - min
  if delta = 0 then 0
  else
    let hue :=
      if max = c.r then pi / 3 * (c.g - c.b) / delta
      else if max = c.g then pi / 3 * ((c.b - c.r) / delta + 2)
      else if max = c.b then pi / 3 * ((c.r - c.g) / delta + 4)
      else hue
    if hue < 0 then hue + 2 * pi else hue

/-- The function `color_sat`. -/
def color_sat (c : rgb_color_t K) : K :=
  let max := color_val c
  if max = 0 then 0
  else
    let min := Min.min c.r c.g
    let min := Min.min min c.b
    let delta := max - min
    delta / max

/-- The loop `while (H > 2) H -= 2` of `color_from_hsv`.  The first argument bounds the
number of iterations; `none` when it is used up. -/
def color_from_hsv_loop : Nat → K → Option K
  | 0, H => if H > 2 then none else some H
  | fuel + 1, H => if H > 2 then color_from_hsv_loop fuel (H - 2) else some H

/-- The function `color_from_hsv`; `fabs` is the absolute value, and `fuel` bounds the
iterations of its loop. -/
def color_from_hsv (fuel : Nat) (pi : K) (h s v : K) : Option (rgb_color_t K) :=
  let hue_degrees := h * (180 / pi)
  let c := v * s
  let H := hue_degrees / 60
  match color_from_hsv_loop fuel H with
  | none => none
  | some H =>
    let x := c * (1 - |H - 1|)
    let m := v - c
    let prime : K × K × K :=
      if hue_degrees ≥ 0 ∧ hue_degrees < 60 then (c, x, 0)
      else if hue_degrees < 120 then (x, c, 0)
      else if hue_degrees < 180 then (0, c, x)
      else if hue_degrees < 240 then (0, x, c)
      else if hue_degrees < 300 then (x, 0, c)
      else if hue_degrees < 360 then (c, 0, x)
      else (0, 0, 0)
    some ⟨prime.1 + m, prime.2.1 + m, prime.2.2 + m⟩


/-! ### Doubles

The functions of `vector.c`, `polygon.c` and `collision.c` that `find_collision` calls, with
the arithmetic of the type `double`: IEEE 754 binary64, every operation rounded to the nearest
double, ties to the even mantissa, each operation on its own (no fused multiply-add and no
wider intermediate format), and `sqrt` correctly rounded as IEEE 754 requires.  A finite
double is the rational number it stands for.  The exponent is not bounded (overflow,
underflow and subnormal numbers are not modelled; the theorems evaluate the functions far from
those limits) and zero has no sign (the comparisons of these functions do not tell `-0.0`
from `0.0`, and no quotient has a zero divisor where the functions are evaluated). -/

/-- The power `2^e` of two, for an integer `e`. -/
def pow2 (e : ℤ) : ℚ :=
  if 0 ≤ e then ((2 ^ e.toNat : ℕ) : ℚ) else 1 / ((2 ^ (-e).toNat : ℕ) : ℚ)

/-- The loop of `floor_log2`: halves `n` until it is below 2. -/
def floor_log2_loop : ℕ → ℕ → ℕ
  | 0, _ => 0
  | fuel + 1, n => if n < 2 then 0 else floor_log2_loop fuel (n / 2) + 1

/-- The integer part of the binary logarithm of `n`. -/
def floor_log2 (n : ℕ) : ℕ := floor_log2_loop n n

/-- The binary exponent of the positive rational `n / d`: the integer `e` with
`2^e ≤ n / d < 2^(e+1)`.  The difference of the two logarithms is `e` or `e + 1`. -/
def binary_exponent (n d : ℕ) : ℤ :=
  let e : ℤ := (floor_log2 n : ℤ) - (floor_log2 d : ℤ)
  if d * 2 ^ e.toNat ≤ n * 2 ^ (-e).toNat then e else e - 1

/-- The integer nearest to `n / d`, the even one of two that are equally near. -/
def round_half_even (n d : ℕ) : ℕ :=
  let f := n / d
  let r := n % d
  if 2 * r < d then f else if d < 2 * r then f + 1 else if f % 2 = 0 then f else f + 1

/-- Rounding to the nearest double, ties to even: `q` is scaled by the power `2^s` of two that
brings it between `2^52` and `2^53`, rounded to an integer (a mantissa of 53 bits), and scaled
back. -/
def round_double (q : ℚ) : ℚ :=
  if q = 0 then 0
  else
    let n := q.num.natAbs
    let d := q.den
    let s : ℤ := 52 - binary_exponent n d
    let m := round_half_even (n * 2 ^ s.toNat) (d * 2 ^ (-s).toNat)
    if q < 0 then -((m : ℚ) / pow2 s) else (m : ℚ) / pow2 s

/-- The loop of `isqrt`: bisection, with `lo^2 ≤ n < hi^2`. -/
def isqrt_loop : ℕ → ℕ → ℕ → ℕ → ℕ
  | 0, lo, _, _ => lo
  | fuel + 1, lo, hi, n =>
    if hi ≤ lo + 1 then lo
    else
      let mid := (lo + hi) / 2
      if mid * mid ≤ n then isqrt_loop fuel mid hi n else isqrt_loop fuel lo mid n

/-- The integer part of the square root of `n`. -/
def isqrt (n : ℕ) : ℕ :=
  isqrt_loop (floor_log2 n + 2) 0 (2 ^ (floor_log2 n / 2 + 1)) n

/-- The function `sqrt` of libm on doubles: the double nearest to the square root.  The
argument is scaled by the power `4^s` of four that brings its root between `2^52` and `2^53`;
`m` is the integer part of that root, and the result is `m` or `m + 1` according to the side
of `m + 1/2` the root is on. -/
def sqrt_double (q : ℚ) : ℚ :=
  if q ≤ 0 then 0
  else
    let n := q.num.natAbs
    let d := q.den
    let s : ℤ := 52 - binary_exponent n d / 2
    let num := n * 4 ^ s.toNat
    let den := d * 4 ^ (-s).toNat
    let m := isqrt (num / den)
    let m :=
      if (2 * m + 1) ^ 2 * den < 4 * num then m + 1
      else if (2 * m + 1) ^ 2 * den = 4 * num ∧ m % 2 = 1 then m + 1
      else m
    (m : ℚ) / pow2 s

/-- The sum `a + b` of two doubles. -/
def add_double (a b : ℚ) : ℚ := round_double (a + b)

/-- The difference `a - b` of two doubles. -/
def sub_double (a b : ℚ) : ℚ := round_double (a - b)

/-- The product `a * b` of two doubles. -/
def mul_double (a b : ℚ) : ℚ := round_double (a * b)

/-- The quotient `a / b` of two doubles, `b` not zero. -/
def div_double (a b : ℚ) : ℚ := round_double (a / b)

/-- The function `vec_subtract` on doubles. -/
def vec_subtract_double (v1 v2 : vector_t ℚ) : vector_t ℚ :=
  ⟨sub_double v1.x v2.x, sub_double v1.y v2.y⟩

/-- The function `vec_multiply` on doubles. -/
def vec_multiply_double (scalar : ℚ) (v : vector_t ℚ) : vector_t ℚ :=
  ⟨mul_double scalar v.x, mul_double scalar v.y⟩

/-- The function `vec_dot` on doubles: two products, each rounded, and their sum, rounded. -/
def vec_dot_double (v1 v2 : vector_t ℚ) : ℚ :=
  add_double (mul_double v1.x v2.x) (mul_double v1.y v2.y)

/-- The function `vec_norm` on doubles. -/
def vec_norm_double (v : vector_t ℚ) : ℚ := sqrt_double (vec_dot_double v v)

/-- The function `vec_normalize` on doubles. -/
def vec_normalize_double (v : vector_t ℚ) : vector_t ℚ :=
  if v.x = 0 ∧ v.y = 0 then VEC_ZERO
  else vec_multiply_double (div_double 1 (vec_norm_double v)) v

/-- The function `vec_scalar_proj` on doubles. -/
def vec_scalar_proj_double (axis v : vector_t ℚ) (normalize : Bool) : ℚ :=
  if axis.x = 0 ∧ axis.y = 0 then 0
  else
    let normalized_axis := if normalize then vec_normalize_double axis else axis
    vec_dot_double v normalized_axis

/-- The function `polygon_proj` on doubles. -/
def polygon_proj_double (polygon : List (vector_t ℚ)) (axis : vector_t ℚ)
    (normalize : Bool) : range_t ℚ :=
  if axis.x = 0 ∧ axis.y = 0 then ⟨.fin 0, .fin 0⟩
  else
    let axis_normalized := if normalize then vec_normalize_double axis else axis
    polygon.foldl (fun proj_range vert =>
      let vert_proj := vec_scalar_proj_double axis_normalized vert false
      let proj_range : range_t ℚ :=
        if xdouble.lt (.fin vert_proj) proj_range.min then
          { proj_range with min := .fin vert_proj }
        else proj_range
      if xdouble.gt (.fin vert_proj) proj_range.max then
        { proj_range with max := .fin vert_proj }
      else proj_range) ⟨.pinf, .ninf⟩

/-- The difference `a - b` of two doubles that may be infinite or NaN. -/
def xdouble.sub_double : xdouble ℚ → xdouble ℚ → xdouble ℚ
  | .fin a, .fin b => .fin (CS3.sub_double a b)
  | .fin _, .pinf => .ninf
  | .fin _, .ninf => .pinf
  | .pinf, .fin _ => .pinf
  | .pinf, .ninf => .pinf
  | .ninf, .fin _ => .ninf
  | .ninf, .pinf => .ninf
  | _, _ => .nan

/-- The function `get_normalized_proj_axes` on doubles. -/
def get_normalized_proj_axes_double (shape : List (vector_t ℚ)) : List (vector_t ℚ) :=
  let num_verts := shape.length
  (List.range num_verts).map (fun i =>
    let vert1 := vertex shape i
    let vert2 := vertex shape ((i + 1) % shape.length)
    let edge := vec_subtract_double vert2 vert1
    let edge_normal := vec_rotate_90 edge true
    vec_normalize_double edge_normal)

/-- The function `shapes_are_separated` on doubles. -/
def shapes_are_separated_double (normalized_axis : vector_t ℚ)
    (shape1 shape2 : List (vector_t ℚ)) : seperation_helper_t ℚ :=
  let proj1 := polygon_proj_double shape1 normalized_axis false
  let proj2 := polygon_proj_double shape2 normalized_axis false
  let seperated := xdouble.lt proj1.max proj2.min || xdouble.lt proj2.max proj1.min
  if seperated = false then
    let overlap :=
      if xdouble.le proj1.min proj2.min then
        if xdouble.le proj1.max proj2.max then xdouble.sub_double proj1.max proj2.min
        else xdouble.sub_double proj2.max proj2.min
      else
        if xdouble.ge proj1.max proj2.max then xdouble.sub_double proj2.max proj1.min
        else xdouble.sub_double proj1.max proj1.min
    ⟨seperated, overlap⟩
  else ⟨seperated, .nan⟩

/-- The `for` loop of `find_collision` on doubles; the arguments are those of
`find_collision_loop`. -/
def find_collision_loop_double (shape1 shape2 axes1 axes2 : List (vector_t ℚ))
    (num_axes2 : Nat) :
    Nat → Nat → Nat → xdouble ℚ → Option (vector_t ℚ) → Option (Bool × Option (vector_t ℚ))
  | 0, _, _, _, min_axis => some (true, min_axis)
  | left + 1, i, num_axes1, min, min_axis =>
    let axis_group := if i < num_axes1 then axes1 else axes2
    let num_axes1' := if num_axes1 = 0 then num_axes2 else num_axes1
    let axis_group := if num_axes1 = 0 then axes2 else axis_group
    match list_get axis_group (i % num_axes1') with
    | none => none
    | some axis =>
      let seperated_info := shapes_are_separated_double axis shape1 shape2
      if seperated_info.seperated = true then some (false, min_axis)
      else if xdouble.gt min seperated_info.overlap then
        find_collision_loop_double shape1 shape2 axes1 axes2 num_axes2 left (i + 1) num_axes1'
          seperated_info.overlap (some axis)
      else
        find_collision_loop_double shape1 shape2 axes1 axes2 num_axes2 left (i + 1) num_axes1'
          min min_axis

/-- The function `find_collision` on doubles. -/
def find_collision_double (shape1 shape2 : List (vector_t ℚ)) :
    Option (collision_info_t ℚ) :=
  let axes1 := get_normalized_proj_axes_double shape1
  let axes2 := get_normalized_proj_axes_double shape2
  let num_axes1 := axes1.length
  let num_axes2 := axes2.length
  let num_axes := num_axes1 + num_axes2
  match find_collision_loop_double shape1 shape2 axes1 axes2 num_axes2 num_axes 0 num_axes1
      .pinf none with
  | none => none
  | some (collided, min_axis) =>
    if collided = true then some ⟨collided, min_axis⟩ else some ⟨collided, none⟩

/-- The triangle with the vertices `(-3, 3)`, `(1, -4)`, `(5, -3)`. -/
def touching_triangle1 : List (vector_t ℚ) := [⟨-3, 3⟩, ⟨1, -4⟩, ⟨5, -3⟩]

/-- The triangle with the vertices `(-1, -1/2)`, `(-7, -5)`, `(0, -7)`; the first vertex is
the middle of the edge from `(-3, 3)` to `(1, -4)` of `touching_triangle1`, and the two
triangles have no other point in common. -/
def touching_triangle2 : List (vector_t ℚ) := [⟨-1, -1 / 2⟩, ⟨-7, -5⟩, ⟨0, -7⟩]

/-! ### vector.c with checked quotients

In `K` a quotient by zero is a number like any other, so the functions of `vector.c` as
embedded above cannot show whether the program divides by zero.  The functions below are the
same three functions with every quotient checked: the result is `none` when a quotient
whose divisor is zero is evaluated. -/

/-- The quotient `a / b` with a division by zero made visible: `none` when the divisor is
zero, the quotient otherwise. -/
def checked_div (a b : K) : Option K := if b = 0 then none else some (a / b)

/-- The function `vec_normalize`, with its quotient `1.0 / vec_norm(v)` checked. -/
def vec_normalize_checked (sqrt : K → K) (v : vector_t K) : Option (vector_t K) :=
  if v.x = 0 ∧ v.y = 0 then some VEC_ZERO
  else
    match checked_div 1 (vec_norm sqrt v) with
    | none => none
    | some q => some (vec_multiply q v)

/-- The function `vec_scalar_proj`, with the quotient of the `vec_normalize` it calls
checked. -/
def vec_scalar_proj_checked (sqrt : K → K) (axis v : vector_t K) (normalize : Bool) :
    Option K :=
  if axis.x = 0 ∧ axis.y = 0 then some 0
  else
    match (if normalize then vec_normalize_checked sqrt axis else some axis) with
    | none => none
    | some normalized_axis => some (vec_dot v normalized_axis)

/-- The function `vec_vec_proj`, with its quotient `vec_dot(v, axis) / vec_dot(axis, axis)`
checked. -/
def vec_vec_proj_checked (axis v : vector_t K) (normalize : Bool) : Option (vector_t K) :=
  if axis.x = 0 ∧ axis.y = 0 then some VEC_ZERO
  else if normalize then
    match checked_div (vec_dot v axis) (vec_dot axis axis) with
    | none => none
    | some q => some (vec_multiply q axis)
  else some (vec_multiply (vec_dot v axis) axis)

end Definitions

/-! ## Theorems -/

section Theorems

variable {K : Type} [LinearOrderedField K]

/-! ### body.c: the accumulators and `body_tick` -/

theorem body_get_shape_eq (b : body K) : body_get_shape b = b.shape := by
  unfold body_get_shape vertex
  apply List.ext_get
  · simp
  · intro n h1 h2
    simp only [List.length_map, List.length_range] at h1
    simp [List.getD_eq_getElem, h1]

theorem body_init_accumulators (shape : List (vector_t K)) (mass : mass_t K)
    (color : rgb_color_t K) (info : Nat) :
    (body_init_with_info shape mass color info).force = VEC_ZERO ∧
      (body_init_with_info shape mass color info).impulse = VEC_ZERO := by
  simp [body_init_with_info]

theorem body_tick_accumulators (b : body K) (dt : K) :
    (body_tick b dt).force = VEC_ZERO ∧ (body_tick b dt).impulse = VEC_ZERO := by
  simp [body_tick, body_set_velocity, body_set_centroid]

theorem body_tick_mass (b : body K) (dt : K) : (body_tick b dt).mass = b.mass := by
  simp [body_tick, body_set_velocity, body_set_centroid]

/-- The accumulators and the mass after a sequence of calls without `body_tick`. -/
theorem body_run_accumulators (cos sin : K → K) (ops : List (body_op K)) :
    ∀ b : body K, (∀ op ∈ ops, op.is_tick = false) →
      (body_run cos sin b ops).force = vec_add b.force (forces_added ops) ∧
      (body_run cos sin b ops).impulse = vec_add b.impulse (impulses_added ops) ∧
      (body_run cos sin b ops).mass = b.mass := by
  induction ops with
  | nil =>
    intro b _
    refine ⟨?_, ?_, rfl⟩ <;> ext <;> simp [body_run, forces_added, impulses_added, vec_add, VEC_ZERO]
  | cons op ops ih =>
    intro b h
    have hop : op.is_tick = false := h op (List.mem_cons_self _ _)
    have hrest : ∀ o ∈ ops, o.is_tick = false := fun o ho => h o (List.mem_cons_of_mem _ ho)
    have hrun : body_run cos sin b (op :: ops) = body_run cos sin (body_op.apply cos sin b op) ops := rfl
    obtain ⟨h1, h2, h3⟩ := ih (body_op.apply cos sin b op) hrest
    rw [hrun, h1, h2, h3]
    cases op with
    | tick dt => simp [body_op.is_tick] at hop
    | add_force f =>
      refine ⟨?_, ?_, rfl⟩ <;> ext <;>
        simp [body_op.apply, body_add_force, forces_added, impulses_added, vec_add, add_assoc]
    | add_impulse j =>
      refine ⟨?_, ?_, rfl⟩ <;> ext <;>
        simp [body_op.apply, body_add_impulse, forces_added, impulses_added, vec_add, add_assoc]
    | set_centroid x =>
      refine ⟨?_, ?_, rfl⟩ <;>
        simp [body_op.apply, body_set_centroid, forces_added, impulses_added]
    | set_rotation a =>
      refine ⟨?_, ?_, rfl⟩ <;>
        simp [body_op.apply, body_set_rotation, forces_added, impulses_added]
    | set_velocity v =>
      refine ⟨?_, ?_, rfl⟩ <;>
        simp [body_op.apply, body_set_velocity, forces_added, impulses_added]
    | set_color c =>
      refine ⟨?_, ?_, rfl⟩ <;>
        simp [body_op.apply, body_set_color, forces_added, impulses_added]
    | remove =>
      refine ⟨?_, ?_, rfl⟩ <;>
        simp [body_op.apply, body_remove, forces_added, impulses_added]

/-- The velocity `body_tick` stores, in terms of the fields it reads. -/
theorem body_tick_velocity_eq (b : body K) (dt : K) :
    (body_tick b dt).velocity =
      vec_add b.velocity
        (vec_multiply b.mass.one_div (vec_add b.impulse (vec_multiply dt b.force))) := by
  simp [body_tick, body_set_velocity, body_set_centroid, body_get_velocity, body_get_mass]

/-- C7: for a body of finite non-zero mass `m` that was just created or just ticked, after any
calls of the interface other than `body_tick`, the next `body_tick(dt)` sets the velocity to
the old velocity plus `(impulse + dt * force) / m`, where `force` and `impulse` are the sums
of the vectors given to `body_add_force` and `body_add_impulse` in between. -/
theorem body_tick_velocity (cos sin : K → K) (b0 : body K)
    (hb0 : (∃ shape mass color info, b0 = body_init_with_info shape mass color info) ∨
      (∃ b1 dt1, b0 = body_tick b1 dt1))
    (ops : List (body_op K)) (hops : ∀ op ∈ ops, op.is_tick = false)
    (m : K) (hm : m ≠ 0) (hmass : body_get_mass b0 = mass_t.finite m) (dt : K) :
    body_get_velocity (body_tick (body_run cos sin b0 ops) dt) =
      ⟨(body_get_velocity (body_run cos sin b0 ops)).x +
          ((impulses_added ops).x + dt * (forces_added ops).x) / m,
        (body_get_velocity (body_run cos sin b0 ops)).y +
          ((impulses_added ops).y + dt * (forces_added ops).y) / m⟩ := by
  have hzero : b0.force = VEC_ZERO ∧ b0.impulse = VEC_ZERO := by
    rcases hb0 with ⟨shape, mass, color, info, rfl⟩ | ⟨b1, dt1, rfl⟩
    · exact body_init_accumulators shape mass color info
    · exact body_tick_accumulators b1 dt1
  obtain ⟨h1, h2, h3⟩ := body_run_accumulators cos sin ops b0 hops
  have hmass1 : b0.mass = mass_t.finite m := hmass
  unfold body_get_velocity
  rw [body_tick_velocity_eq, h1, h2, h3, hzero.1, hzero.2, hmass1]
  ext <;> simp [vec_add, vec_multiply, VEC_ZERO, mass_t.one_div] <;> field_simp

/-- A body of mass 2 created from the unit square, given the force `(4, 0)` and the impulse
`(0, 6)`, then ticked with `dt = 1`. -/
theorem body_tick_velocity_witness :
    (∀ op ∈ [body_op.add_force (⟨4, 0⟩ : vector_t ℝ), body_op.add_impulse ⟨0, 6⟩],
        op.is_tick = false) ∧ (2 : ℝ) ≠ 0 ∧
      body_get_velocity (body_tick (body_run Real.cos Real.sin
          (body_init_with_info [⟨0, 0⟩, ⟨1, 0⟩, ⟨1, 1⟩, ⟨0, 1⟩] (mass_t.finite (2 : ℝ)) ⟨1, 0, 0⟩ 0)
          [body_op.add_force ⟨4, 0⟩, body_op.add_impulse ⟨0, 6⟩]) 1) = ⟨2, 3⟩ := by
  have hops : ∀ op ∈ [body_op.add_force (⟨4, 0⟩ : vector_t ℝ), body_op.add_impulse ⟨0, 6⟩],
      op.is_tick = false := by
    intro op hop
    simp only [List.mem_cons, List.mem_singleton, List.not_mem_nil, or_false] at hop
    rcases hop with rfl | rfl <;> rfl
  refine ⟨hops, by norm_num, ?_⟩
  rw [body_tick_velocity Real.cos Real.sin _ (Or.inl ⟨_, _, _, _, rfl⟩) _ hops 2
    (by norm_num) rfl 1]
  ext <;> norm_num [body_run, body_op.apply, body_add_force, body_add_impulse,
    body_init_with_info, body_get_velocity, impulses_added, forces_added, vec_add, VEC_ZERO]

/-- C8: `body_tick(dt)` moves the centroid by `dt * (v_old + v_new) / 2`, where `v_old` and
`v_new` are the velocity before and after the tick, and replaces every vertex of the shape,
in place and in order, by itself plus that displacement. -/
theorem body_tick_displacement (b : body K) (dt : K) :
    body_get_centroid (body_tick b dt) =
        vec_add (body_get_centroid b)
          ⟨dt * (((body_get_velocity b).x + (body_get_velocity (body_tick b dt)).x) / 2),
            dt * (((body_get_velocity b).y + (body_get_velocity (body_tick b dt)).y) / 2)⟩ ∧
      body_get_shape (body_tick b dt) =
        (body_get_shape b).map (fun v => vec_add v
          ⟨dt * (((body_get_velocity b).x + (body_get_velocity (body_tick b dt)).x) / 2),
            dt * (((body_get_velocity b).y + (body_get_velocity (body_tick b dt)).y) / 2)⟩) ∧
      (body_get_shape (body_tick b dt)).length = (body_get_shape b).length := by
  rw [body_get_shape_eq, body_get_shape_eq]
  refine ⟨?_, ?_, ?_⟩
  · ext <;>
      simp only [body_tick, body_set_velocity, body_set_centroid, body_get_velocity,
        body_get_centroid, body_get_mass, vec_add, vec_multiply] <;> ring
  · simp only [body_tick, body_set_velocity, body_set_centroid, body_get_velocity,
      body_get_mass, polygon_translate]
    apply List.map_congr_left
    intro v _
    ext <;> simp only [vec_add, vec_multiply, vec_subtract] <;> ring
  · simp [body_tick, body_set_velocity, body_set_centroid, polygon_translate]

/-- Two bodies with the same accumulators and mass keep the same accumulators and mass under
the same calls. -/
theorem body_run_accumulators_congr (cos sin : K → K) (ops : List (body_op K)) :
    ∀ b1 b2 : body K, b1.force = b2.force → b1.impulse = b2.impulse → b1.mass = b2.mass →
      (body_run cos sin b1 ops).force = (body_run cos sin b2 ops).force ∧
      (body_run cos sin b1 ops).impulse = (body_run cos sin b2 ops).impulse ∧
      (body_run cos sin b1 ops).mass = (body_run cos sin b2 ops).mass := by
  induction ops with
  | nil => intro b1 b2 h1 h2 h3; exact ⟨h1, h2, h3⟩
  | cons op ops ih =>
    intro b1 b2 h1 h2 h3
    have hrun : ∀ b : body K,
        body_run cos sin b (op :: ops) = body_run cos sin (body_op.apply cos sin b op) ops :=
      fun _ => rfl
    rw [hrun, hrun]
    apply ih
    · cases op <;>
        simp [body_op.apply, body_set_centroid, body_set_rotation, body_set_velocity,
          body_set_color, body_add_force, body_add_impulse, body_tick, body_remove, h1]
    · cases op <;>
        simp [body_op.apply, body_set_centroid, body_set_rotation, body_set_velocity,
          body_set_color, body_add_force, body_add_impulse, body_tick, body_remove, h2]
    · cases op <;>
        simp [body_op.apply, body_set_centroid, body_set_rotation, body_set_velocity,
          body_set_color, body_add_force, body_add_impulse, body_tick, body_remove, h3]

/-- C9: after `body_tick(dt)` both accumulators are the zero vector, whatever they held and
whatever `dt` and the mass are; and a force added before that tick does not change the
velocity change of the next tick, whatever is called on the body in between. -/
theorem body_tick_resets_accumulators (cos sin : K → K) (b : body K) (dt : K) :
    (body_tick b dt).force = VEC_ZERO ∧ (body_tick b dt).impulse = VEC_ZERO ∧
      ∀ (f : vector_t K) (ops : List (body_op K)) (dt2 : K),
        vec_subtract
            (body_get_velocity
              (body_tick (body_run cos sin (body_tick (body_add_force b f) dt) ops) dt2))
            (body_get_velocity (body_run cos sin (body_tick (body_add_force b f) dt) ops)) =
          vec_subtract
            (body_get_velocity (body_tick (body_run cos sin (body_tick b dt) ops) dt2))
            (body_get_velocity (body_run cos sin (body_tick b dt) ops)) := by
  refine ⟨(body_tick_accumulators b dt).1, (body_tick_accumulators b dt).2, ?_⟩
  intro f ops dt2
  obtain ⟨h1, h2, h3⟩ := body_run_accumulators_congr cos sin ops
    (body_tick (body_add_force b f) dt) (body_tick b dt)
    (by rw [(body_tick_accumulators _ _).1, (body_tick_accumulators _ _).1])
    (by rw [(body_tick_accumulators _ _).2, (body_tick_accumulators _ _).2])
    (by rw [body_tick_mass, body_tick_mass]; rfl)
  unfold body_get_velocity
  rw [body_tick_velocity_eq, body_tick_velocity_eq, h1, h2, h3]
  ext <;> simp [vec_subtract, vec_add]

theorem foldl_range_add (g : Nat → K) (n : Nat) (a : K) :
    (List.range n).foldl (fun acc i => acc + g i) a = a + ∑ i ∈ Finset.range n, g i := by
  induction n with
  | zero => simp
  | succ n ih =>
    rw [List.range_succ, List.foldl_append, ih, Finset.sum_range_succ]
    simp [add_assoc]

theorem sum_cyc_shift (g : Nat → K) (n : Nat) :
    ∑ i ∈ Finset.range n, g ((i + 1) % n) = ∑ i ∈ Finset.range n, g i := by
  cases n with
  | zero => simp
  | succ m =>
    rw [Finset.sum_range_succ, Finset.sum_range_succ' g m, Nat.mod_self]
    congr 1
    apply Finset.sum_congr rfl
    intro i hi
    rw [Nat.mod_eq_of_lt (by have := Finset.mem_range.mp hi; omega)]

theorem sum_cyc_telescope (g : Nat → K) (n : Nat) :
    ∑ i ∈ Finset.range n, (g ((i + 1) % n) - g i) = 0 := by
  rw [Finset.sum_sub_distrib, sum_cyc_shift, sub_self]

theorem polygon_area_eq (p : List (vector_t K)) :
    polygon_area p =
      cyc_area (fun i => (vertex p i).x) (fun i => (vertex p i).y) p.length * (1 / 2) := by
  unfold polygon_area cyc_area
  simp only []
  rw [foldl_range_add
    (fun i => ((vertex p i).x - (vertex p ((i + 1) % p.length)).x) *
      ((vertex p i).y + (vertex p ((i + 1) % p.length)).y))]
  simp

theorem polygon_centroid_eq (p : List (vector_t K)) :
    polygon_centroid p =
      ⟨cyc_cx (fun i => (vertex p i).x) (fun i => (vertex p i).y) p.length /
          (6 * polygon_area p),
        cyc_cy (fun i => (vertex p i).x) (fun i => (vertex p i).y) p.length /
          (6 * polygon_area p)⟩ := by
  unfold polygon_centroid cyc_cx cyc_cy
  simp only []
  rw [foldl_range_add
      (fun i => ((vertex p i).x + (vertex p ((i + 1) % p.length)).x) *
        ((vertex p i).x * (vertex p ((i + 1) % p.length)).y -
          (vertex p ((i + 1) % p.length)).x * (vertex p i).y)),
    foldl_range_add
      (fun i => ((vertex p i).y + (vertex p ((i + 1) % p.length)).y) *
        ((vertex p i).x * (vertex p ((i + 1) % p.length)).y -
          (vertex p ((i + 1) % p.length)).x * (vertex p i).y))]
  simp

/-- The three sums only read the sequences at indices below `n`. -/
theorem cyc_congr (x y x2 y2 : Nat → K) (n : Nat)
    (hx : ∀ i, i < n → x i = x2 i) (hy : ∀ i, i < n → y i = y2 i) :
    cyc_area x y n = cyc_area x2 y2 n ∧ cyc_cx x y n = cyc_cx x2 y2 n ∧
      cyc_cy x y n = cyc_cy x2 y2 n := by
  have hs : ∀ i ∈ Finset.range n, (i + 1) % n < n := by
    intro i hi
    exact Nat.mod_lt _ (by have := Finset.mem_range.mp hi; omega)
  refine ⟨?_, ?_, ?_⟩ <;>
  · apply Finset.sum_congr rfl
    intro i hi
    rw [hx i (Finset.mem_range.mp hi), hy i (Finset.mem_range.mp hi), hx _ (hs i hi),
      hy _ (hs i hi)]

theorem cyc_area_translate (x y : Nat → K) (n : Nat) (a b : K) :
    cyc_area (fun i => x i + a) (fun i => y i + b) n = cyc_area x y n := by
  unfold cyc_area
  have h := sum_cyc_telescope (fun j => -2 * b * x j) n
  rw [← add_zero (∑ i ∈ Finset.range n, (x i - x ((i + 1) % n)) * (y i + y ((i + 1) % n))),
    ← h, ← Finset.sum_add_distrib]
  apply Finset.sum_congr rfl
  intro i _
  ring

theorem cyc_cx_translate (x y : Nat → K) (n : Nat) (a b : K) :
    cyc_cx (fun i => x i + a) (fun i => y i + b) n =
      cyc_cx x y n + 3 * a * cyc_area x y n := by
  unfold cyc_cx cyc_area
  have h := sum_cyc_telescope
    (fun j => -b * x j ^ 2 + 4 * a * (x j * y j) - 2 * a * b * x j + 2 * a ^ 2 * y j) n
  rw [← add_zero (_ + 3 * a * _), ← h, Finset.mul_sum, ← Finset.sum_add_distrib,
    ← Finset.sum_add_distrib]
  apply Finset.sum_congr rfl
  intro i _
  ring

theorem cyc_cy_translate (x y : Nat → K) (n : Nat) (a b : K) :
    cyc_cy (fun i => x i + a) (fun i => y i + b) n =
      cyc_cy x y n + 3 * b * cyc_area x y n := by
  unfold cyc_cy cyc_area
  have h := sum_cyc_telescope
    (fun j => a * y j ^ 2 + 2 * b * (x j * y j) - 2 * b ^ 2 * x j + 2 * a * b * y j) n
  rw [← add_zero (_ + 3 * b * _), ← h, Finset.mul_sum, ← Finset.sum_add_distrib,
    ← Finset.sum_add_distrib]
  apply Finset.sum_congr rfl
  intro i _
  ring

theorem cyc_area_rotate (x y : Nat → K) (n : Nat) (c s : K) (hcs : c ^ 2 + s ^ 2 = 1) :
    cyc_area (fun i => x i * c - y i * s) (fun i => x i * s + y i * c) n = cyc_area x y n := by
  unfold cyc_area
  have h := sum_cyc_telescope
    (fun j => (c ^ 2 + s ^ 2) * (x j * y j) - (x j * c - y j * s) * (x j * s + y j * c)) n
  have e : ∑ i ∈ Finset.range n, (x i - x ((i + 1) % n)) * (y i + y ((i + 1) % n)) =
      (c ^ 2 + s ^ 2) *
        ∑ i ∈ Finset.range n, (x i - x ((i + 1) % n)) * (y i + y ((i + 1) % n)) := by
    rw [hcs, one_mul]
  rw [e, ← add_zero (_ * _), ← h, Finset.mul_sum, ← Finset.sum_add_distrib]
  apply Finset.sum_congr rfl
  intro i _
  ring

theorem cyc_cx_rotate (x y : Nat → K) (n : Nat) (c s : K) (hcs : c ^ 2 + s ^ 2 = 1) :
    cyc_cx (fun i => x i * c - y i * s) (fun i => x i * s + y i * c) n =
      cyc_cx x y n * c - cyc_cy x y n * s := by
  unfold cyc_cx cyc_cy
  have e : ∑ i ∈ Finset.range n,
        (x i + x ((i + 1) % n)) * (x i * y ((i + 1) % n) - x ((i + 1) % n) * y i) * c -
      ∑ i ∈ Finset.range n,
        (y i + y ((i + 1) % n)) * (x i * y ((i + 1) % n) - x ((i + 1) % n) * y i) * s =
      (c ^ 2 + s ^ 2) * ∑ i ∈ Finset.range n,
        ((x i + x ((i + 1) % n)) * (x i * y ((i + 1) % n) - x ((i + 1) % n) * y i) * c -
          (y i + y ((i + 1) % n)) * (x i * y ((i + 1) % n) - x ((i + 1) % n) * y i) * s) := by
    rw [hcs, one_mul, Finset.sum_sub_distrib]
  rw [Finset.sum_mul, Finset.sum_mul, e, Finset.mul_sum]
  apply Finset.sum_congr rfl
  intro i _
  ring

theorem cyc_cy_rotate (x y : Nat → K) (n : Nat) (c s : K) (hcs : c ^ 2 + s ^ 2 = 1) :
    cyc_cy (fun i => x i * c - y i * s) (fun i => x i * s + y i * c) n =
      cyc_cx x y n * s + cyc_cy x y n * c := by
  unfold cyc_cx cyc_cy
  have e : ∑ i ∈ Finset.range n,
        (x i + x ((i + 1) % n)) * (x i * y ((i + 1) % n) - x ((i + 1) % n) * y i) * s +
      ∑ i ∈ Finset.range n,
        (y i + y ((i + 1) % n)) * (x i * y ((i + 1) % n) - x ((i + 1) % n) * y i) * c =
      (c ^ 2 + s ^ 2) * ∑ i ∈ Finset.range n,
        ((x i + x ((i + 1) % n)) * (x i * y ((i + 1) % n) - x ((i + 1) % n) * y i) * s +
          (y i + y ((i + 1) % n)) * (x i * y ((i + 1) % n) - x ((i + 1) % n) * y i) * c) := by
    rw [hcs, one_mul, Finset.sum_add_distrib]
  rw [Finset.sum_mul, Finset.sum_mul, e, Finset.mul_sum]
  apply Finset.sum_congr rfl
  intro i _
  ring

theorem vertex_map (p : List (vector_t K)) (f : vector_t K → vector_t K) (i : Nat)
    (hi : i < p.length) : vertex (p.map f) i = f (vertex p i) := by
  unfold vertex
  rw [List.getD_eq_getElem _ _ (by simpa using hi), List.getD_eq_getElem _ _ hi]
  simp

theorem polygon_translate_sums (p : List (vector_t K)) (t : vector_t K) :
    cyc_area (fun i => (vertex (polygon_translate p t) i).x)
        (fun i => (vertex (polygon_translate p t) i).y) (polygon_translate p t).length =
        cyc_area (fun i => (vertex p i).x) (fun i => (vertex p i).y) p.length ∧
      cyc_cx (fun i => (vertex (polygon_translate p t) i).x)
        (fun i => (vertex (polygon_translate p t) i).y) (polygon_translate p t).length =
        cyc_cx (fun i => (vertex p i).x) (fun i => (vertex p i).y) p.length +
          3 * t.x * cyc_area (fun i => (vertex p i).x) (fun i => (vertex p i).y) p.length ∧
      cyc_cy (fun i => (vertex (polygon_translate p t) i).x)
        (fun i => (vertex (polygon_translate p t) i).y) (polygon_translate p t).length =
        cyc_cy (fun i => (vertex p i).x) (fun i => (vertex p i).y) p.length +
          3 * t.y * cyc_area (fun i => (vertex p i).x) (fun i => (vertex p i).y) p.length := by
  have hlen : (polygon_translate p t).length = p.length := by simp [polygon_translate]
  rw [hlen]
  obtain ⟨h1, h2, h3⟩ := cyc_congr (fun i => (vertex (polygon_translate p t) i).x)
    (fun i => (vertex (polygon_translate p t) i).y)
    (fun i => (vertex p i).x + t.x) (fun i => (vertex p i).y + t.y) p.length
    (fun i hi => by simp only [polygon_translate]; rw [vertex_map _ _ _ hi])
    (fun i hi => by simp only [polygon_translate]; rw [vertex_map _ _ _ hi])
  rw [h1, h2, h3]
  exact ⟨cyc_area_translate _ _ _ _ _, cyc_cx_translate _ _ _ _ _, cyc_cy_translate _ _ _ _ _⟩

theorem polygon_area_translate (p : List (vector_t K)) (t : vector_t K) :
    polygon_area (polygon_translate p t) = polygon_area p := by
  rw [polygon_area_eq, polygon_area_eq, (polygon_translate_sums p t).1]

theorem polygon_centroid_translate (p : List (vector_t K)) (t : vector_t K)
    (harea : polygon_area p ≠ 0) :
    polygon_centroid (polygon_translate p t) = vec_add (polygon_centroid p) t := by
  rw [polygon_centroid_eq, polygon_centroid_eq, polygon_area_translate,
    (polygon_translate_sums p t).2.1, (polygon_translate_sums p t).2.2]
  have h2 : cyc_area (fun i => (vertex p i).x) (fun i => (vertex p i).y) p.length =
      2 * polygon_area p := by
    rw [polygon_area_eq]; ring
  rw [h2]
  ext <;> simp only [vec_add] <;> field_simp <;> ring

theorem polygon_rotate_sums (cos sin : K → K) (p : List (vector_t K)) (angle : K)
    (pt : vector_t K) (hcs : cos angle ^ 2 + sin angle ^ 2 = 1) :
    cyc_area (fun i => (vertex (polygon_rotate cos sin p angle pt) i).x)
        (fun i => (vertex (polygon_rotate cos sin p angle pt) i).y)
        (polygon_rotate cos sin p angle pt).length =
        cyc_area (fun i => (vertex p i).x) (fun i => (vertex p i).y) p.length ∧
      cyc_cx (fun i => (vertex (polygon_rotate cos sin p angle pt) i).x)
        (fun i => (vertex (polygon_rotate cos sin p angle pt) i).y)
        (polygon_rotate cos sin p angle pt).length =
        (cyc_cx (fun i => (vertex p i).x) (fun i => (vertex p i).y) p.length -
            3 * pt.x * cyc_area (fun i => (vertex p i).x) (fun i => (vertex p i).y) p.length) *
            cos angle -
          (cyc_cy (fun i => (vertex p i).x) (fun i => (vertex p i).y) p.length -
            3 * pt.y * cyc_area (fun i => (vertex p i).x) (fun i => (vertex p i).y) p.length) *
            sin angle +
          3 * pt.x * cyc_area (fun i => (vertex p i).x) (fun i => (vertex p i).y) p.length ∧
      cyc_cy (fun i => (vertex (polygon_rotate cos sin p angle pt) i).x)
        (fun i => (vertex (polygon_rotate cos sin p angle pt) i).y)
        (polygon_rotate cos sin p angle pt).length =
        (cyc_cx (fun i => (vertex p i).x) (fun i => (vertex p i).y) p.length -
            3 * pt.x * cyc_area (fun i => (vertex p i).x) (fun i => (vertex p i).y) p.length) *
            sin angle +
          (cyc_cy (fun i => (vertex p i).x) (fun i => (vertex p i).y) p.length -
            3 * pt.y * cyc_area (fun i => (vertex p i).x) (fun i => (vertex p i).y) p.length) *
            cos angle +
          3 * pt.y * cyc_area (fun i => (vertex p i).x) (fun i => (vertex p i).y) p.length := by
  have hlen : (polygon_rotate cos sin p angle pt).length = p.length := by
    simp [polygon_rotate]
  rw [hlen]
  obtain ⟨h1, h2, h3⟩ := cyc_congr
    (fun i => (vertex (polygon_rotate cos sin p angle pt) i).x)
    (fun i => (vertex (polygon_rotate cos sin p angle pt) i).y)
    (fun i => (((vertex p i).x + -pt.x) * cos angle - ((vertex p i).y + -pt.y) * sin angle) + pt.x)
    (fun i => (((vertex p i).x + -pt.x) * sin angle + ((vertex p i).y + -pt.y) * cos angle) + pt.y)
    p.length
    (fun i hi => by
      simp only [polygon_rotate]; rw [vertex_map _ _ _ hi]; simp only [vec_rotate]; ring)
    (fun i hi => by
      simp only [polygon_rotate]; rw [vertex_map _ _ _ hi]; simp only [vec_rotate]; ring)
  rw [h1, h2, h3]
  have ta := cyc_area_translate
    (fun i => ((vertex p i).x + -pt.x) * cos angle - ((vertex p i).y + -pt.y) * sin angle)
    (fun i => ((vertex p i).x + -pt.x) * sin angle + ((vertex p i).y + -pt.y) * cos angle)
    p.length pt.x pt.y
  have tx := cyc_cx_translate
    (fun i => ((vertex p i).x + -pt.x) * cos angle - ((vertex p i).y + -pt.y) * sin angle)
    (fun i => ((vertex p i).x + -pt.x) * sin angle + ((vertex p i).y + -pt.y) * cos angle)
    p.length pt.x pt.y
  have ty := cyc_cy_translate
    (fun i => ((vertex p i).x + -pt.x) * cos angle - ((vertex p i).y + -pt.y) * sin angle)
    (fun i => ((vertex p i).x + -pt.x) * sin angle + ((vertex p i).y + -pt.y) * cos angle)
    p.length pt.x pt.y
  have ra := cyc_area_rotate (fun i => (vertex p i).x + -pt.x) (fun i => (vertex p i).y + -pt.y)
    p.length (cos angle) (sin angle) hcs
  have rx := cyc_cx_rotate (fun i => (vertex p i).x + -pt.x) (fun i => (vertex p i).y + -pt.y)
    p.length (cos angle) (sin angle) hcs
  have ry := cyc_cy_rotate (fun i => (vertex p i).x + -pt.x) (fun i => (vertex p i).y + -pt.y)
    p.length (cos angle) (sin angle) hcs
  have sa := cyc_area_translate (fun i => (vertex p i).x) (fun i => (vertex p i).y)
    p.length (-pt.x) (-pt.y)
  have sx := cyc_cx_translate (fun i => (vertex p i).x) (fun i => (vertex p i).y)
    p.length (-pt.x) (-pt.y)
  have sy := cyc_cy_translate (fun i => (vertex p i).x) (fun i => (vertex p i).y)
    p.length (-pt.x) (-pt.y)
  simp only [] at ta tx ty ra rx ry sa sx sy
  refine ⟨?_, ?_, ?_⟩
  · rw [ta, ra, sa]
  · rw [tx, rx, ra, sx, sy, sa]; ring
  · rw [ty, ry, ra, sx, sy, sa]; ring

theorem polygon_area_rotate (cos sin : K → K) (p : List (vector_t K)) (angle : K)
    (pt : vector_t K) (hcs : cos angle ^ 2 + sin angle ^ 2 = 1) :
    polygon_area (polygon_rotate cos sin p angle pt) = polygon_area p := by
  rw [polygon_area_eq, polygon_area_eq, (polygon_rotate_sums cos sin p angle pt hcs).1]

/-- Rotating a polygon about its own centroid leaves the centroid where it is. -/
theorem polygon_centroid_rotate (cos sin : K → K) (p : List (vector_t K)) (angle : K)
    (hcs : cos angle ^ 2 + sin angle ^ 2 = 1) (harea : polygon_area p ≠ 0) :
    polygon_centroid (polygon_rotate cos sin p angle (polygon_centroid p)) =
      polygon_centroid p := by
  have h2 : cyc_area (fun i => (vertex p i).x) (fun i => (vertex p i).y) p.length =
      2 * polygon_area p := by
    rw [polygon_area_eq]; ring
  have hx : (polygon_centroid p).x =
      cyc_cx (fun i => (vertex p i).x) (fun i => (vertex p i).y) p.length /
        (6 * polygon_area p) := by rw [polygon_centroid_eq]
  have hy : (polygon_centroid p).y =
      cyc_cy (fun i => (vertex p i).x) (fun i => (vertex p i).y) p.length /
        (6 * polygon_area p) := by rw [polygon_centroid_eq]
  have hx0 : cyc_cx (fun i => (vertex p i).x) (fun i => (vertex p i).y) p.length -
      3 * (polygon_centroid p).x *
        cyc_area (fun i => (vertex p i).x) (fun i => (vertex p i).y) p.length = 0 := by
    rw [h2, hx]; field_simp; ring
  have hy0 : cyc_cy (fun i => (vertex p i).x) (fun i => (vertex p i).y) p.length -
      3 * (polygon_centroid p).y *
        cyc_area (fun i => (vertex p i).x) (fun i => (vertex p i).y) p.length = 0 := by
    rw [h2, hy]; field_simp; ring
  obtain ⟨_, r2, r3⟩ := polygon_rotate_sums cos sin p angle (polygon_centroid p) hcs
  rw [hx0, hy0] at r2 r3
  rw [polygon_centroid_eq (polygon_rotate cos sin p angle (polygon_centroid p)), r2, r3,
    polygon_area_rotate cos sin p angle _ hcs, h2]
  ext <;> simp only [] <;> field_simp <;> ring

/-! ### body.c: the stored centroid is the centroid of the shape -/

/-- Every call of the interface keeps the area of the shape non-zero and the stored centroid
equal to the centroid of the shape. -/
theorem body_op_centroid (cos sin : K → K) (hcs : ∀ a, cos a ^ 2 + sin a ^ 2 = 1)
    (b : body K) (op : body_op K) (harea : polygon_area b.shape ≠ 0)
    (hc : b.centroid = polygon_centroid b.shape) :
    polygon_area (body_op.apply cos sin b op).shape ≠ 0 ∧
      (body_op.apply cos sin b op).centroid =
        polygon_centroid (body_op.apply cos sin b op).shape := by
  have hset : ∀ x : vector_t K,
      polygon_area (body_set_centroid b x).shape ≠ 0 ∧
        (body_set_centroid b x).centroid = polygon_centroid (body_set_centroid b x).shape := by
    intro x
    simp only [body_set_centroid]
    rw [polygon_area_translate, polygon_centroid_translate _ _ harea, ← hc]
    refine ⟨harea, ?_⟩
    ext <;> simp [vec_add, vec_subtract]
  cases op with
  | set_centroid x => exact hset x
  | set_rotation angle =>
    simp only [body_op.apply, body_set_rotation]
    rw [polygon_area_rotate cos sin _ _ _ (hcs _), hc,
      polygon_centroid_rotate cos sin _ _ (hcs _) harea]
    exact ⟨harea, rfl⟩
  | set_velocity v => exact ⟨harea, hc⟩
  | set_color color => exact ⟨harea, hc⟩
  | add_force force => exact ⟨harea, hc⟩
  | add_impulse impulse => exact ⟨harea, hc⟩
  | tick dt => exact hset _
  | remove => exact ⟨harea, hc⟩

theorem body_run_centroid (cos sin : K → K) (hcs : ∀ a, cos a ^ 2 + sin a ^ 2 = 1)
    (ops : List (body_op K)) :
    ∀ b : body K, polygon_area b.shape ≠ 0 → b.centroid = polygon_centroid b.shape →
      polygon_area (body_run cos sin b ops).shape ≠ 0 ∧
        (body_run cos sin b ops).centroid = polygon_centroid (body_run cos sin b ops).shape := by
  induction ops with
  | nil => intro b h1 h2; exact ⟨h1, h2⟩
  | cons op ops ih =>
    intro b h1 h2
    obtain ⟨h3, h4⟩ := body_op_centroid cos sin hcs b op h1 h2
    exact ih _ h3 h4

/-- C6: for a body created by `body_init_with_info` (or `body_init`) from a polygon of
non-zero area, after any finite sequence of `body_set_centroid`, `body_set_rotation`,
`body_set_velocity`, `body_set_color`, `body_add_force`, `body_add_impulse`, `body_tick` and
`body_remove`, `body_get_centroid` returns `polygon_centroid` of the current vertices
(exact arithmetic, `cos² + sin² = 1`). -/
theorem body_centroid_invariant (cos sin : K → K) (hcs : ∀ a, cos a ^ 2 + sin a ^ 2 = 1)
    (shape : List (vector_t K)) (mass : mass_t K) (color : rgb_color_t K) (info : Nat)
    (harea : polygon_area shape ≠ 0) (ops : List (body_op K)) :
    body_get_centroid (body_run cos sin (body_init_with_info shape mass color info) ops) =
      polygon_centroid
        (body_get_shape (body_run cos sin (body_init_with_info shape mass color info) ops)) := by
  rw [body_get_shape_eq]
  exact (body_run_centroid cos sin hcs ops _ harea rfl).2

/-- The unit square as a body of mass 2 over the reals, rotated, pushed, ticked and moved. -/
theorem body_centroid_invariant_witness :
    (∀ a : ℝ, Real.cos a ^ 2 + Real.sin a ^ 2 = 1) ∧
      polygon_area ([⟨0, 0⟩, ⟨1, 0⟩, ⟨1, 1⟩, ⟨0, 1⟩] : List (vector_t ℝ)) ≠ 0 ∧
      body_get_centroid (body_run Real.cos Real.sin
          (body_init_with_info [⟨0, 0⟩, ⟨1, 0⟩, ⟨1, 1⟩, ⟨0, 1⟩] (mass_t.finite 2) ⟨1, 0, 0⟩ 0)
          [body_op.set_rotation 1, body_op.add_force ⟨1, 0⟩, body_op.tick 1,
            body_op.set_centroid ⟨5, 5⟩]) =
        polygon_centroid (body_get_shape (body_run Real.cos Real.sin
          (body_init_with_info [⟨0, 0⟩, ⟨1, 0⟩, ⟨1, 1⟩, ⟨0, 1⟩] (mass_t.finite 2) ⟨1, 0, 0⟩ 0)
          [body_op.set_rotation 1, body_op.add_force ⟨1, 0⟩, body_op.tick 1,
            body_op.set_centroid ⟨5, 5⟩])) := by
  have harea : polygon_area ([⟨0, 0⟩, ⟨1, 0⟩, ⟨1, 1⟩, ⟨0, 1⟩] : List (vector_t ℝ)) ≠ 0 := by
    norm_num [polygon_area, vertex, List.range_succ]
  exact ⟨Real.cos_sq_add_sin_sq, harea,
    body_centroid_invariant Real.cos Real.sin Real.cos_sq_add_sin_sq _ _ _ _ harea _⟩

/-! ### collision.c: polygons that share a point -/

/-- The projection loop started from a finite range ends in a finite range that contains the
start and the projection of every vertex visited. -/
theorem polygon_proj_fold_fin (sqrt : K → K) (ax : vector_t K) (l : List (vector_t K)) :
    ∀ m M : K, ∃ m2 M2 : K,
      l.foldl (fun (proj_range : range_t K) vert =>
        let vert_proj := vec_scalar_proj sqrt ax vert false
        let proj_range : range_t K :=
          if xdouble.lt (.fin vert_proj) proj_range.min then
            { proj_range with min := .fin vert_proj }
          else proj_range
        if xdouble.gt (.fin vert_proj) proj_range.max then
          { proj_range with max := .fin vert_proj }
        else proj_range) ⟨.fin m, .fin M⟩ = ⟨.fin m2, .fin M2⟩ ∧
      m2 ≤ m ∧ M ≤ M2 ∧
      ∀ v ∈ l, m2 ≤ vec_scalar_proj sqrt ax v false ∧ vec_scalar_proj sqrt ax v false ≤ M2 := by
  induction l with
  | nil => intro m M; exact ⟨m, M, rfl, le_refl _, le_refl _, by simp⟩
  | cons v l ih =>
    intro m M
    obtain ⟨m2, M2, h1, h2, h3, h4⟩ := ih (min (vec_scalar_proj sqrt ax v false) m)
      (max (vec_scalar_proj sqrt ax v false) M)
    refine ⟨m2, M2, ?_, le_trans h2 (min_le_right _ _), le_trans (le_max_right _ _) h3, ?_⟩
    · rw [List.foldl_cons, ← h1]
      congr 1
      by_cases c1 : vec_scalar_proj sqrt ax v false < m <;>
        by_cases c2 : M < vec_scalar_proj sqrt ax v false <;>
        simp [xdouble.lt, xdouble.gt, c1, c2, min_eq_left, min_eq_right, max_eq_left,
          max_eq_right, le_of_lt, le_of_not_lt]
    · intro u hu
      rcases List.mem_cons.mp hu with rfl | hu
      · exact ⟨le_trans h2 (min_le_left _ _), le_trans (le_max_left _ _) h3⟩
      · exact h4 u hu

/-- The projection of a polygon with a vertex is a finite range that contains the projection
of every vertex. -/
theorem polygon_proj_bounds (sqrt : K → K) (p : List (vector_t K)) (hp : p ≠ [])
    (axis : vector_t K) :
    ∃ m M : K, polygon_proj sqrt p axis false = ⟨.fin m, .fin M⟩ ∧
      ∀ v ∈ p, m ≤ vec_scalar_proj sqrt axis v false ∧ vec_scalar_proj sqrt axis v false ≤ M := by
  by_cases h0 : axis.x = 0 ∧ axis.y = 0
  · refine ⟨0, 0, by simp [polygon_proj, h0], ?_⟩
    intro v _
    simp [vec_scalar_proj, h0]
  · cases p with
    | nil => exact absurd rfl hp
    | cons v l =>
      obtain ⟨m2, M2, h1, h2, h3, h4⟩ := polygon_proj_fold_fin sqrt axis l
        (vec_scalar_proj sqrt axis v false) (vec_scalar_proj sqrt axis v false)
      refine ⟨m2, M2, ?_, ?_⟩
      · rw [← h1]
        simp [polygon_proj, h0, xdouble.lt, xdouble.gt]
      · intro u hu
        rcases List.mem_cons.mp hu with rfl | hu
        · exact ⟨h2, h3⟩
        · exact h4 u hu

/-- A weighted sum of values between `m` and `M`, with weights that are not negative, lies
between `m` and `M` times the sum of the weights. -/
theorem zipWith_sum_bounds (L : vector_t K → K) (m M : K) (w : List K) :
    ∀ p : List (vector_t K), w.length = p.length → (∀ a ∈ w, 0 ≤ a) →
      (∀ v ∈ p, m ≤ L v ∧ L v ≤ M) →
      m * w.sum ≤ (List.zipWith (fun a v => a * L v) w p).sum ∧
        (List.zipWith (fun a v => a * L v) w p).sum ≤ M * w.sum := by
  induction w with
  | nil => intro p _ _ _; simp
  | cons a w ih =>
    intro p hlen hw hp
    cases p with
    | nil => simp at hlen
    | cons v p =>
      have ha : 0 ≤ a := hw a (List.mem_cons_self _ _)
      obtain ⟨i1, i2⟩ := ih p (by simpa using hlen)
        (fun b hb => hw b (List.mem_cons_of_mem _ hb))
        (fun u hu => hp u (List.mem_cons_of_mem _ hu))
      obtain ⟨b1, b2⟩ := hp v (List.mem_cons_self _ _)
      simp only [List.zipWith_cons_cons, List.sum_cons]
      constructor
      · nlinarith [mul_le_mul_of_nonneg_left b1 ha]
      · nlinarith [mul_le_mul_of_nonneg_left b2 ha]

theorem zipWith_sum_linear (c d : K) (w : List K) :
    ∀ p : List (vector_t K),
      (List.zipWith (fun a (v : vector_t K) => a * (v.x * c + v.y * d)) w p).sum =
        (List.zipWith (fun a (v : vector_t K) => a * v.x) w p).sum * c +
          (List.zipWith (fun a (v : vector_t K) => a * v.y) w p).sum * d := by
  induction w with
  | nil => intro p; simp
  | cons a w ih =>
    intro p
    cases p with
    | nil => simp
    | cons v p =>
      simp only [List.zipWith_cons_cons, List.sum_cons, ih p]
      ring

/-- The projection of a convex combination of the vertices lies in the projection range. -/
theorem proj_in_convex_hull (sqrt : K → K) (p : List (vector_t K)) (pt axis : vector_t K)
    (hpt : in_convex_hull p pt) (m M : K)
    (hb : ∀ v ∈ p, m ≤ vec_scalar_proj sqrt axis v false ∧
      vec_scalar_proj sqrt axis v false ≤ M) :
    m ≤ vec_scalar_proj sqrt axis pt false ∧ vec_scalar_proj sqrt axis pt false ≤ M := by
  obtain ⟨w, hlen, hw, hsum, hx, hy⟩ := hpt
  by_cases h0 : axis.x = 0 ∧ axis.y = 0
  · cases p with
    | nil =>
      have : w = [] := List.length_eq_zero.mp (by simpa using hlen)
      rw [this] at hsum
      simp at hsum
    | cons v p =>
      have := hb v (List.mem_cons_self _ _)
      simpa [vec_scalar_proj, h0] using this
  · have hb2 : ∀ v ∈ p, m ≤ v.x * axis.x + v.y * axis.y ∧ v.x * axis.x + v.y * axis.y ≤ M := by
      intro v hv
      simpa [vec_scalar_proj, h0, vec_dot] using hb v hv
    obtain ⟨i1, i2⟩ := zipWith_sum_bounds (fun v => v.x * axis.x + v.y * axis.y) m M w p hlen
      hw hb2
    rw [zipWith_sum_linear, ← hx, ← hy, hsum, mul_one] at i1 i2
    simpa [vec_scalar_proj, h0, vec_dot] using And.intro i1 i2

/-- Two polygons that share a point are separated along no axis. -/
theorem shapes_are_separated_shared_point (sqrt : K → K) (shape1 shape2 : List (vector_t K))
    (h1 : shape1 ≠ []) (h2 : shape2 ≠ []) (pt : vector_t K)
    (hp1 : in_convex_hull shape1 pt) (hp2 : in_convex_hull shape2 pt) (axis : vector_t K) :
    (shapes_are_separated sqrt axis shape1 shape2).seperated = false := by
  obtain ⟨m1, M1, e1, b1⟩ := polygon_proj_bounds sqrt shape1 h1 axis
  obtain ⟨m2, M2, e2, b2⟩ := polygon_proj_bounds sqrt shape2 h2 axis
  obtain ⟨l1, u1⟩ := proj_in_convex_hull sqrt shape1 pt axis hp1 m1 M1 b1
  obtain ⟨l2, u2⟩ := proj_in_convex_hull sqrt shape2 pt axis hp2 m2 M2 b2
  have n1 : ¬ M1 < m2 := not_lt.mpr (le_trans l2 u1)
  have n2 : ¬ M2 < m1 := not_lt.mpr (le_trans l1 u2)
  simp [shapes_are_separated, e1, e2, xdouble.lt, n1, n2]

/-- When no axis separates and the first shape has an axis, the loop of `find_collision` reads
every axis it asks for and ends with `collided` still true. -/
theorem find_collision_loop_no_separation (sqrt : K → K)
    (shape1 shape2 axes1 axes2 : List (vector_t K)) (hax : axes1.length ≠ 0)
    (hsep : ∀ axis, (shapes_are_separated sqrt axis shape1 shape2).seperated = false)
    (left : Nat) :
    ∀ (i : Nat) (min : xdouble K) (min_axis : Option (vector_t K)),
      i + left = axes1.length + axes2.length →
      ∃ ax, find_collision_loop sqrt shape1 shape2 axes1 axes2 axes2.length left i
        axes1.length min min_axis = some (true, ax) := by
  induction left with
  | zero => intro i min min_axis _; exact ⟨min_axis, rfl⟩
  | succ left ih =>
    intro i min min_axis hi
    have hn1 : 0 < axes1.length := Nat.pos_of_ne_zero hax
    have hget : ∃ axis, list_get (if i < axes1.length then axes1 else axes2)
        (i % axes1.length) = some axis := by
      by_cases c : i < axes1.length
      · rw [if_pos c, Nat.mod_eq_of_lt c]
        exact ⟨axes1.get ⟨i, c⟩, by simp [list_get, c, List.get?_eq_get]⟩
      · rw [if_neg c]
        have hlt : i % axes1.length < axes2.length := by
          by_cases c2 : axes1.length ≤ axes2.length
          · exact lt_of_lt_of_le (Nat.mod_lt _ hn1) c2
          · rw [Nat.mod_eq_sub_mod (not_lt.mp c), Nat.mod_eq_of_lt (by omega)]
            omega
        exact ⟨axes2.get ⟨i % axes1.length, hlt⟩, by simp [list_get, hlt, List.get?_eq_get]⟩
    obtain ⟨axis, hget⟩ := hget
    simp only [find_collision_loop, if_neg hax, hget, hsep axis]
    by_cases c : xdouble.gt min (shapes_are_separated sqrt axis shape1 shape2).overlap = true
    · simp only [c, if_true]
      exact ih (i + 1) _ _ (by omega)
    · simp only [c]
      exact ih (i + 1) _ _ (by omega)

/-- In exact arithmetic two polygons that share a point make `find_collision` return
`collided = true`. -/
theorem find_collision_of_shared_point (sqrt : K → K) (shape1 shape2 : List (vector_t K))
    (h1 : shape1 ≠ []) (h2 : shape2 ≠ []) (pt : vector_t K)
    (hp1 : in_convex_hull shape1 pt) (hp2 : in_convex_hull shape2 pt) :
    ∃ axis, find_collision sqrt shape1 shape2 = some ⟨true, axis⟩ := by
  have hax : (get_normalized_proj_axes sqrt shape1).length ≠ 0 := by
    simpa [get_normalized_proj_axes] using h1
  obtain ⟨ax, hloop⟩ := find_collision_loop_no_separation sqrt shape1 shape2
    (get_normalized_proj_axes sqrt shape1) (get_normalized_proj_axes sqrt shape2) hax
    (shapes_are_separated_shared_point sqrt shape1 shape2 h1 h2 pt hp1 hp2)
    ((get_normalized_proj_axes sqrt shape1).length + (get_normalized_proj_axes sqrt shape2).length)
    0 xdouble.pinf none (by omega)
  exact ⟨ax, by simp only [find_collision, hloop]; rfl⟩

theorem colliding_pair1_shared_point :
    in_convex_hull COLLIDING_PAIR1_VERTS1 ⟨3, 1⟩ ∧ in_convex_hull COLLIDING_PAIR1_VERTS2 ⟨3, 1⟩ :=
  ⟨⟨[0, 1, 0, 0], rfl, by simp, by norm_num, by norm_num [COLLIDING_PAIR1_VERTS1],
      by norm_num [COLLIDING_PAIR1_VERTS1]⟩,
    ⟨[1 / 2, 1 / 2, 0, 0], rfl, by simp, by norm_num, by norm_num [COLLIDING_PAIR1_VERTS2],
      by norm_num [COLLIDING_PAIR1_VERTS2]⟩⟩

/-! ### collision.c on doubles: shapes that only touch -/

/-- Known values of the rounding to the nearest double: the doubles `0.1` and `1/3`, the two
ties `2^53 + 1` and `2^53 + 3` (rounded to the even mantissa), a negative tie, and two numbers
that are doubles. -/
theorem round_double_values :
    round_double (1 / 10) = 3602879701896397 / 36028797018963968 ∧
      round_double (1 / 3) = 6004799503160661 / 18014398509481984 ∧
      round_double 9007199254740993 = 9007199254740992 ∧
      round_double 9007199254740995 = 9007199254740996 ∧
      round_double (-9007199254740993) = -9007199254740992 ∧
      round_double (3 / 2) = 3 / 2 ∧
      round_double 0 = 0 := by
  decide!

/-- Known values of `sqrt` on doubles: `sqrt(2.0) = 1.4142135623730951`,
`sqrt(65.0) = 8.06225774829855`, and the exact roots of `4`, `1/4` and `0`. -/
theorem sqrt_double_values :
    sqrt_double 2 = 6369051672525773 / 4503599627370496 ∧
      sqrt_double 65 = 283665476492205 / 35184372088832 ∧
      sqrt_double 4 = 2 ∧
      sqrt_double (1 / 4) = 1 / 2 ∧
      sqrt_double 0 = 0 := by
  decide!

/-- The two triangles share the point `(-1, -1/2)`: the middle of the first edge of the first,
the first vertex of the second. -/
theorem touching_triangles_shared_point :
    in_convex_hull touching_triangle1 ⟨-1, -1 / 2⟩ ∧
      in_convex_hull touching_triangle2 ⟨-1, -1 / 2⟩ :=
  ⟨⟨[1 / 2, 1 / 2, 0], rfl, by simp, by norm_num, by norm_num [touching_triangle1],
      by norm_num [touching_triangle1]⟩,
    ⟨[1, 0, 0], rfl, by simp, by norm_num, by norm_num [touching_triangle2],
      by norm_num [touching_triangle2]⟩⟩

/-- The same two triangles over the reals share the point `(-1, -1/2)`. -/
theorem touching_triangles_shared_point_real :
    in_convex_hull ([⟨-3, 3⟩, ⟨1, -4⟩, ⟨5, -3⟩] : List (vector_t ℝ)) ⟨-1, -1 / 2⟩ ∧
      in_convex_hull ([⟨-1, -1 / 2⟩, ⟨-7, -5⟩, ⟨0, -7⟩] : List (vector_t ℝ)) ⟨-1, -1 / 2⟩ :=
  ⟨⟨[1 / 2, 1 / 2, 0], rfl, by simp, by norm_num, by norm_num, by norm_num⟩,
    ⟨[1, 0, 0], rfl, by simp, by norm_num, by norm_num, by norm_num⟩⟩

/-- C4 (as stated, refuted): the triangles `(-3, 3)`, `(1, -4)`, `(5, -3)` and `(-1, -1/2)`,
`(-7, -5)`, `(0, -7)` share the point `(-1, -1/2)`, yet on doubles `find_collision` reports
them not colliding, in either order of the arguments.  The first axis the loop examines is the
normal `(7, 4) / sqrt(65)` of the edge the point lies on, computed as
`(0.8682431421244593, 0.49613893835683387)`; along it the first triangle projects onto a range
that starts at `-1.116312611302876` and the second onto a range that ends at
`-1.1163126113028763`, one unit in the last place below, so `proj2.max < proj1.min`.  In exact
arithmetic the same two triangles are reported colliding. -/
theorem find_collision_double_touching :
    in_convex_hull touching_triangle1 ⟨-1, -1 / 2⟩ ∧
      in_convex_hull touching_triangle2 ⟨-1, -1 / 2⟩ ∧
      list_get (get_normalized_proj_axes_double touching_triangle1) 0 =
        some ⟨7820438982677407 / 9007199254740992, 4468822275815661 / 9007199254740992⟩ ∧
      polygon_proj_double touching_triangle1
          ⟨7820438982677407 / 9007199254740992, 4468822275815661 / 9007199254740992⟩ false =
        ⟨.fin (-5027425060292618 / 4503599627370496),
          .fin (1605983005371253 / 562949953421312)⟩ ∧
      polygon_proj_double touching_triangle2
          ⟨7820438982677407 / 9007199254740992, 4468822275815661 / 9007199254740992⟩ false =
        ⟨.fin (-150560906753555 / 17592186044416),
          .fin (-5027425060292619 / 4503599627370496)⟩ ∧
      find_collision_double touching_triangle1 touching_triangle2 = some ⟨false, none⟩ ∧
      find_collision_double touching_triangle2 touching_triangle1 = some ⟨false, none⟩ ∧
      ∃ axis, find_collision Real.sqrt [⟨-3, 3⟩, ⟨1, -4⟩, ⟨5, -3⟩]
        [⟨-1, -1 / 2⟩, ⟨-7, -5⟩, ⟨0, -7⟩] = some ⟨true, axis⟩ := by
  refine ⟨touching_triangles_shared_point.1, touching_triangles_shared_point.2, by decide!,
    by decide!, by decide!, by decide!, by decide!, ?_⟩
  exact find_collision_of_shared_point Real.sqrt _ _ (by simp) (by simp) ⟨-1, -1 / 2⟩
    touching_triangles_shared_point_real.1 touching_triangles_shared_point_real.2

/-- C4: in exact arithmetic, two polygons with at least one vertex each that share a point (a
point that is a convex combination of the vertices of the first and also of the second,
touching boundaries included) make `find_collision` return with `collided = true`; and on
doubles `find_collision` reports the two squares of `test_colliding`, `(1,1)`, `(3,1)`,
`(3,2)`, `(1,2)` and `(2,1)`, `(4,1)`, `(4,2)`, `(2,2)`, colliding, along `(0, 1)`. -/
theorem find_collision_shared_point :
    (∀ (sqrt : K → K) (shape1 shape2 : List (vector_t K)) (pt : vector_t K),
        shape1 ≠ [] → shape2 ≠ [] → in_convex_hull shape1 pt → in_convex_hull shape2 pt →
        ∃ axis, find_collision sqrt shape1 shape2 = some ⟨true, axis⟩) ∧
      find_collision_double [⟨1, 1⟩, ⟨3, 1⟩, ⟨3, 2⟩, ⟨1, 2⟩] [⟨2, 1⟩, ⟨4, 1⟩, ⟨4, 2⟩, ⟨2, 2⟩] =
        some ⟨true, some ⟨0, 1⟩⟩ :=
  ⟨fun sqrt shape1 shape2 pt h1 h2 hp1 hp2 =>
    find_collision_of_shared_point sqrt shape1 shape2 h1 h2 pt hp1 hp2, by decide!⟩

/-- The two squares of `test_colliding` share the point `(3, 1)`, and over the reals
`find_collision` reports them colliding. -/
theorem find_collision_shared_point_witness :
    COLLIDING_PAIR1_VERTS1 ≠ [] ∧ COLLIDING_PAIR1_VERTS2 ≠ [] ∧
      in_convex_hull COLLIDING_PAIR1_VERTS1 ⟨3, 1⟩ ∧
      in_convex_hull COLLIDING_PAIR1_VERTS2 ⟨3, 1⟩ ∧
      ∃ axis, find_collision Real.sqrt COLLIDING_PAIR1_VERTS1 COLLIDING_PAIR1_VERTS2 =
        some ⟨true, axis⟩ := by
  have n1 : COLLIDING_PAIR1_VERTS1 ≠ [] := by simp [COLLIDING_PAIR1_VERTS1]
  have n2 : COLLIDING_PAIR1_VERTS2 ≠ [] := by simp [COLLIDING_PAIR1_VERTS2]
  exact ⟨n1, n2, colliding_pair1_shared_point.1, colliding_pair1_shared_point.2,
    (@find_collision_shared_point ℝ _).1 Real.sqrt _ _ ⟨3, 1⟩ n1 n2
      colliding_pair1_shared_point.1 colliding_pair1_shared_point.2⟩

/-! ### collision.c: the axes of the second shape that the loop never reads -/

theorem sqrt_4 : Real.sqrt 4 = 2 := by
  rw [show (4 : ℝ) = 2 * 2 by norm_num]; exact Real.sqrt_mul_self (by norm_num)

theorem sqrt_36 : Real.sqrt 36 = 6 := by
  rw [show (36 : ℝ) = 6 * 6 by norm_num]; exact Real.sqrt_mul_self (by norm_num)

theorem sqrt_64 : Real.sqrt 64 = 8 := by
  rw [show (64 : ℝ) = 8 * 8 by norm_num]; exact Real.sqrt_mul_self (by norm_num)

theorem sqrt_100 : Real.sqrt 100 = 10 := by
  rw [show (100 : ℝ) = 10 * 10 by norm_num]; exact Real.sqrt_mul_self (by norm_num)

theorem axes_triangle_6_8 :
    get_normalized_proj_axes Real.sqrt triangle_6_8 = [⟨0, 1⟩, ⟨-4 / 5, -3 / 5⟩, ⟨1, 0⟩] := by
  simp [get_normalized_proj_axes, triangle_6_8, List.range_succ, vertex, vec_subtract,
    vec_rotate_90, vec_normalize, vec_norm, vec_dot, vec_multiply, VEC_ZERO]
  norm_num [sqrt_36, sqrt_64, sqrt_100]

theorem axes_quad_far :
    get_normalized_proj_axes Real.sqrt quad_far =
      [⟨-1, 0⟩, ⟨0, -1⟩, ⟨1, 0⟩, ⟨3 / 5, 4 / 5⟩] := by
  simp [get_normalized_proj_axes, quad_far, List.range_succ, vertex, vec_subtract,
    vec_rotate_90, vec_normalize, vec_norm, vec_dot, vec_multiply, VEC_ZERO]
  norm_num [sqrt_36, sqrt_64, sqrt_100, sqrt_4]

theorem axes_quad_near :
    get_normalized_proj_axes Real.sqrt quad_near =
      [⟨-1, 0⟩, ⟨0, -1⟩, ⟨1, 0⟩, ⟨3 / 5, 4 / 5⟩] := by
  simp [get_normalized_proj_axes, quad_near, List.range_succ, vertex, vec_subtract,
    vec_rotate_90, vec_normalize, vec_norm, vec_dot, vec_multiply, VEC_ZERO]
  norm_num [sqrt_36, sqrt_64, sqrt_100, sqrt_4]

theorem convex_ccw_triangle_6_8 : convex_ccw triangle_6_8 := by
  constructor
  · intro i hi k hk
    simp only [triangle_6_8, List.length_cons, List.length_nil] at hi hk
    interval_cases i <;> interval_cases k <;>
      norm_num [triangle_6_8, vertex, vec_cross, vec_subtract]
  · intro i hi
    simp only [triangle_6_8, List.length_cons, List.length_nil] at hi
    interval_cases i <;> norm_num [triangle_6_8, vertex, vec_cross, vec_subtract]

theorem convex_ccw_quad_far : convex_ccw quad_far := by
  constructor
  · intro i hi k hk
    simp only [quad_far, List.length_cons, List.length_nil] at hi hk
    interval_cases i <;> interval_cases k <;>
      norm_num [quad_far, vertex, vec_cross, vec_subtract]
  · intro i hi
    simp only [quad_far, List.length_cons, List.length_nil] at hi
    interval_cases i <;> norm_num [quad_far, vertex, vec_cross, vec_subtract]

theorem convex_ccw_quad_near : convex_ccw quad_near := by
  constructor
  · intro i hi k hk
    simp only [quad_near, List.length_cons, List.length_nil] at hi hk
    interval_cases i <;> interval_cases k <;>
      norm_num [quad_near, vertex, vec_cross, vec_subtract]
  · intro i hi
    simp only [quad_near, List.length_cons, List.length_nil] at hi
    interval_cases i <;> norm_num [quad_near, vertex, vec_cross, vec_subtract]


theorem sep_triangle_far_0 :
    shapes_are_separated Real.sqrt ⟨0, 1⟩ triangle_6_8 quad_far = ⟨false, .fin 1⟩ := by
  simp [shapes_are_separated, polygon_proj, vec_scalar_proj, vec_dot, triangle_6_8,
    quad_far, quad_near, xdouble.lt, xdouble.le, xdouble.gt, xdouble.ge, xdouble.sub]
  norm_num

theorem sep_triangle_far_1 :
    shapes_are_separated Real.sqrt ⟨-4 / 5, -3 / 5⟩ triangle_6_8 quad_far = ⟨false,
      .fin (9 / 5)⟩ := by
  simp [shapes_are_separated, polygon_proj, vec_scalar_proj, vec_dot, triangle_6_8,
    quad_far, quad_near, xdouble.lt, xdouble.le, xdouble.gt, xdouble.ge, xdouble.sub]
  norm_num

theorem sep_triangle_far_2 :
    shapes_are_separated Real.sqrt ⟨1, 0⟩ triangle_6_8 quad_far = ⟨false, .fin 2⟩ := by
  simp [shapes_are_separated, polygon_proj, vec_scalar_proj, vec_dot, triangle_6_8,
    quad_far, quad_near, xdouble.lt, xdouble.le, xdouble.gt, xdouble.ge, xdouble.sub]
  norm_num

theorem sep_triangle_far_3 :
    shapes_are_separated Real.sqrt ⟨-1, 0⟩ triangle_6_8 quad_far = ⟨false, .fin 2⟩ := by
  simp [shapes_are_separated, polygon_proj, vec_scalar_proj, vec_dot, triangle_6_8,
    quad_far, quad_near, xdouble.lt, xdouble.le, xdouble.gt, xdouble.ge, xdouble.sub]
  norm_num

theorem sep_triangle_far_4 :
    shapes_are_separated Real.sqrt ⟨0, -1⟩ triangle_6_8 quad_far = ⟨false, .fin 1⟩ := by
  simp [shapes_are_separated, polygon_proj, vec_scalar_proj, vec_dot, triangle_6_8,
    quad_far, quad_near, xdouble.lt, xdouble.le, xdouble.gt, xdouble.ge, xdouble.sub]
  norm_num

theorem sep_triangle_near_0 :
    shapes_are_separated Real.sqrt ⟨0, 1⟩ triangle_6_8 quad_near = ⟨false, .fin 2⟩ := by
  simp [shapes_are_separated, polygon_proj, vec_scalar_proj, vec_dot, triangle_6_8,
    quad_far, quad_near, xdouble.lt, xdouble.le, xdouble.gt, xdouble.ge, xdouble.sub]
  norm_num

theorem sep_triangle_near_1 :
    shapes_are_separated Real.sqrt ⟨-4 / 5, -3 / 5⟩ triangle_6_8 quad_near = ⟨false,
      .fin (12 / 5)⟩ := by
  simp [shapes_are_separated, polygon_proj, vec_scalar_proj, vec_dot, triangle_6_8,
    quad_far, quad_near, xdouble.lt, xdouble.le, xdouble.gt, xdouble.ge, xdouble.sub]
  norm_num

theorem sep_triangle_near_2 :
    shapes_are_separated Real.sqrt ⟨1, 0⟩ triangle_6_8 quad_near = ⟨false, .fin 2⟩ := by
  simp [shapes_are_separated, polygon_proj, vec_scalar_proj, vec_dot, triangle_6_8,
    quad_far, quad_near, xdouble.lt, xdouble.le, xdouble.gt, xdouble.ge, xdouble.sub]
  norm_num

theorem sep_triangle_near_3 :
    shapes_are_separated Real.sqrt ⟨-1, 0⟩ triangle_6_8 quad_near = ⟨false, .fin 2⟩ := by
  simp [shapes_are_separated, polygon_proj, vec_scalar_proj, vec_dot, triangle_6_8,
    quad_far, quad_near, xdouble.lt, xdouble.le, xdouble.gt, xdouble.ge, xdouble.sub]
  norm_num

theorem sep_triangle_near_4 :
    shapes_are_separated Real.sqrt ⟨0, -1⟩ triangle_6_8 quad_near = ⟨false, .fin 2⟩ := by
  simp [shapes_are_separated, polygon_proj, vec_scalar_proj, vec_dot, triangle_6_8,
    quad_far, quad_near, xdouble.lt, xdouble.le, xdouble.gt, xdouble.ge, xdouble.sub]
  norm_num

theorem sep_triangle_near_5 :
    shapes_are_separated Real.sqrt ⟨3 / 5, 4 / 5⟩ triangle_6_8 quad_near = ⟨false,
      .fin (2 / 5)⟩ := by
  simp [shapes_are_separated, polygon_proj, vec_scalar_proj, vec_dot, triangle_6_8,
    quad_far, quad_near, xdouble.lt, xdouble.le, xdouble.gt, xdouble.ge, xdouble.sub]
  norm_num

theorem sep_far_triangle_0 :
    shapes_are_separated Real.sqrt ⟨-1, 0⟩ quad_far triangle_6_8 = ⟨false, .fin 2⟩ := by
  simp [shapes_are_separated, polygon_proj, vec_scalar_proj, vec_dot, triangle_6_8,
    quad_far, quad_near, xdouble.lt, xdouble.le, xdouble.gt, xdouble.ge, xdouble.sub]
  norm_num

theorem sep_far_triangle_1 :
    shapes_are_separated Real.sqrt ⟨0, -1⟩ quad_far triangle_6_8 = ⟨false, .fin 1⟩ := by
  simp [shapes_are_separated, polygon_proj, vec_scalar_proj, vec_dot, triangle_6_8,
    quad_far, quad_near, xdouble.lt, xdouble.le, xdouble.gt, xdouble.ge, xdouble.sub]
  norm_num

theorem sep_far_triangle_2 :
    shapes_are_separated Real.sqrt ⟨1, 0⟩ quad_far triangle_6_8 = ⟨false, .fin 2⟩ := by
  simp [shapes_are_separated, polygon_proj, vec_scalar_proj, vec_dot, triangle_6_8,
    quad_far, quad_near, xdouble.lt, xdouble.le, xdouble.gt, xdouble.ge, xdouble.sub]
  norm_num

theorem sep_far_triangle_3 :
    shapes_are_separated Real.sqrt ⟨3 / 5, 4 / 5⟩ quad_far triangle_6_8 = ⟨true, .nan⟩ := by
  simp [shapes_are_separated, polygon_proj, vec_scalar_proj, vec_dot, triangle_6_8,
    quad_far, quad_near, xdouble.lt, xdouble.le, xdouble.gt, xdouble.ge, xdouble.sub]
  norm_num

/-- C3, at the failing input: the triangle `(0,0),(6,0),(0,8)` and the quadrilateral
`(2,7),(2,15),(-6,15),(-6,13)` are convex, their projections onto the axis `(3, 4)` are the
disjoint ranges `[0, 32]` and `[34, 66]`, and `find_collision(triangle, quadrilateral)`
reports `collided = true` with axis `(0, 1)`; with the arguments exchanged it reports
`collided = false`. -/
theorem find_collision_misses_separating_axis :
    convex_ccw triangle_6_8 ∧ convex_ccw quad_far ∧
      polygon_proj Real.sqrt triangle_6_8 ⟨3, 4⟩ false = ⟨.fin 0, .fin 32⟩ ∧
      polygon_proj Real.sqrt quad_far ⟨3, 4⟩ false = ⟨.fin 34, .fin 66⟩ ∧
      find_collision Real.sqrt triangle_6_8 quad_far = some ⟨true, some ⟨0, 1⟩⟩ ∧
      find_collision Real.sqrt quad_far triangle_6_8 = some ⟨false, none⟩ := by
  refine ⟨convex_ccw_triangle_6_8, convex_ccw_quad_far, ?_, ?_, ?_, ?_⟩
  · simp [polygon_proj, vec_scalar_proj, vec_dot, triangle_6_8, xdouble.lt, xdouble.gt]
    norm_num
  · simp [polygon_proj, vec_scalar_proj, vec_dot, quad_far, xdouble.lt, xdouble.gt]
    norm_num
  · unfold find_collision
    rw [axes_triangle_6_8, axes_quad_far]
    simp [find_collision_loop, list_get, sep_triangle_far_0, sep_triangle_far_1,
      sep_triangle_far_2, sep_triangle_far_3, sep_triangle_far_4, xdouble.lt, xdouble.gt]
    norm_num
  · unfold find_collision
    rw [axes_triangle_6_8, axes_quad_far]
    simp [find_collision_loop, list_get, sep_far_triangle_0, sep_far_triangle_1,
      sep_far_triangle_2, sep_far_triangle_3, xdouble.lt, xdouble.gt]

/-- C5, at the failing input: for the triangle `(0,0),(6,0),(0,8)` and the quadrilateral
`(2,6),(2,14),(-6,14),(-6,12)`, which are convex and share the point `(0, 15/2)`,
`find_collision` reports `collided = true` with axis `(0, 1)`, onto which the overlap is `2`,
although the overlap onto `(3/5, 4/5)`, the unit normal of the last edge of the
quadrilateral, is `2/5`. -/
theorem find_collision_axis_not_minimal :
    convex_ccw triangle_6_8 ∧ convex_ccw quad_near ∧
      in_convex_hull triangle_6_8 ⟨0, 15 / 2⟩ ∧ in_convex_hull quad_near ⟨0, 15 / 2⟩ ∧
      find_collision Real.sqrt triangle_6_8 quad_near = some ⟨true, some ⟨0, 1⟩⟩ ∧
      shapes_are_separated Real.sqrt ⟨0, 1⟩ triangle_6_8 quad_near = ⟨false, .fin 2⟩ ∧
      list_get (get_normalized_proj_axes Real.sqrt quad_near) 3 = some ⟨3 / 5, 4 / 5⟩ ∧
      shapes_are_separated Real.sqrt ⟨3 / 5, 4 / 5⟩ triangle_6_8 quad_near =
        ⟨false, .fin (2 / 5)⟩ := by
  refine ⟨convex_ccw_triangle_6_8, convex_ccw_quad_near, ?_, ?_, ?_, sep_triangle_near_0, ?_,
    sep_triangle_near_5⟩
  · exact ⟨[1 / 16, 0, 15 / 16], rfl, by norm_num, by norm_num, by norm_num [triangle_6_8],
      by norm_num [triangle_6_8]⟩
  · exact ⟨[3 / 4, 0, 0, 1 / 4], rfl, by norm_num, by norm_num, by norm_num [quad_near],
      by norm_num [quad_near]⟩
  · unfold find_collision
    rw [axes_triangle_6_8, axes_quad_near]
    simp [find_collision_loop, list_get, sep_triangle_near_0, sep_triangle_near_1,
      sep_triangle_near_2, sep_triangle_near_3, sep_triangle_near_4, xdouble.lt, xdouble.gt]
    norm_num
  · rw [axes_quad_near]; simp [list_get]

/-! ### scene.c: the loops of `scene_tick` -/

theorem list_get_append_length {β : Type} (pre rest : List β) (e : β) :
    list_get (pre ++ e :: rest) pre.length = some e := by
  have h : (pre ++ e :: rest).get? pre.length = some e := by
    induction pre with
    | nil => rfl
    | cons a pre ih => simpa using ih
  unfold list_get
  rw [if_pos (by simp), h]

theorem list_remove_append_length {β : Type} (pre rest : List β) (e : β) :
    list_remove (pre ++ e :: rest) pre.length = some (e, pre ++ rest) := by
  have h : (pre ++ e :: rest).get? pre.length = some e := by
    induction pre with
    | nil => rfl
    | cons a pre ih => simpa using ih
  unfold list_remove
  rw [if_pos (by simp), h]
  simp [List.eraseIdx_append_of_length_le]

theorem list_set_append_length {β : Type} (pre rest : List β) (e e2 : β) :
    (pre ++ e :: rest).set pre.length e2 = (pre ++ [e2]) ++ rest := by
  simp [List.set_append]

/-- The body sweep, started at index `pre.length` of `pre ++ rest` with at least
`rest.length` iterations allowed, keeps `pre` and replaces `rest` by its bodies that are not
flagged removed, each ticked once, in order. -/
theorem scene_tick_bodies_eq (dt : K) (rest : bodies_t K) :
    ∀ (pre : bodies_t K) (fuel : Nat), rest.length ≤ fuel →
      scene_tick_bodies dt fuel pre.length (pre ++ rest) =
        some (pre ++ (rest.filter (fun e => !body_is_removed e.2)).map
          (fun e => (e.1, body_tick e.2 dt))) := by
  induction rest with
  | nil =>
    intro pre fuel _
    cases fuel <;> simp [scene_tick_bodies]
  | cons e rest ih =>
    intro pre fuel hfuel
    cases fuel with
    | zero => simp at hfuel
    | succ fuel =>
      have hlt : pre.length < (pre ++ e :: rest).length := by simp
      have hfuel2 : rest.length ≤ fuel := by simpa using hfuel
      rw [scene_tick_bodies, if_pos hlt, list_get_append_length]
      by_cases hr : body_is_removed e.2 = true
      · simp only [hr, if_true, list_remove_append_length]
        rw [ih pre fuel hfuel2]
        simp [List.filter_cons, hr]
      · simp only [hr, list_set_append_length]
        have h := ih (pre ++ [(e.1, body_tick e.2 dt)]) fuel hfuel2
        rw [List.length_append, List.length_singleton] at h
        simp only [Bool.false_eq_true, if_false]
        rw [h]
        simp [List.filter_cons, hr]

omit [LinearOrderedField K] in
/-- The force sweep keeps `pre` and the forces of `rest` that are not marked for removal. -/
theorem scene_tick_forces_eq {α : Type} (rest : List (force_t K α)) :
    ∀ (pre : List (force_t K α)) (fuel : Nat), rest.length ≤ fuel →
      scene_tick_forces fuel pre.length (pre ++ rest) =
        some (pre ++ rest.filter (fun force => !force_is_removed force)) := by
  induction rest with
  | nil =>
    intro pre fuel _
    cases fuel <;> simp [scene_tick_forces]
  | cons e rest ih =>
    intro pre fuel hfuel
    cases fuel with
    | zero => simp at hfuel
    | succ fuel =>
      have hlt : pre.length < (pre ++ e :: rest).length := by simp
      have hfuel2 : rest.length ≤ fuel := by simpa using hfuel
      rw [scene_tick_forces, if_pos hlt, list_get_append_length]
      by_cases hr : force_is_removed e = true
      · simp only [hr, if_true, list_remove_append_length]
        rw [ih pre fuel hfuel2]
        simp [List.filter_cons, hr]
      · have h := ih (pre ++ [e]) fuel hfuel2
        rw [List.length_append, List.length_singleton] at h
        simp only [hr, Bool.false_eq_true, if_false]
        rw [show pre ++ e :: rest = (pre ++ [e]) ++ rest by simp, h]
        simp [List.filter_cons, hr]

omit [LinearOrderedField K] in
/-- The inner marking loop ends with the force marked when it was marked before or one of
the bodies from index `j` on is flagged removed. -/
theorem scene_tick_check_eq {α : Type} (bodies : bodies_t K) (left : Nat) :
    ∀ (j : Nat) (force : force_t K α), j + left = force.bodies.length →
      (∀ p ∈ force.bodies, ∃ b, body_deref bodies p = some b) →
      scene_tick_check bodies left j force =
        some { force with
          mark_removal := force.mark_removal || (force.bodies.drop j).any (fun p =>
            match body_deref bodies p with
            | some b => body_is_removed b
            | none => false) } := by
  induction left with
  | zero =>
    intro j force hj _
    have : force.bodies.drop j = [] := List.drop_eq_nil_of_le (by omega)
    simp [scene_tick_check, this]
  | succ left ih =>
    intro j force hj hlive
    have hjlt : j < force.bodies.length := by omega
    have hget : list_get force.bodies j = some force.bodies[j] := by
      simp [list_get, hjlt, List.get?_eq_getElem?]
    obtain ⟨b, hb⟩ := hlive _ (List.getElem_mem hjlt)
    have hdrop : force.bodies.drop j = force.bodies[j] :: force.bodies.drop (j + 1) :=
      List.drop_eq_getElem_cons hjlt
    rw [scene_tick_check, hget]
    simp only [hb]
    by_cases hr : body_is_removed b = true
    · rw [if_pos hr, ih (j + 1) (force_remove force) (by simpa [force_remove] using by omega)
        (by simpa [force_remove] using hlive), hdrop]
      simp only [force_remove, List.any_cons, hb, hr, Bool.true_or, Bool.or_true]
    · rw [if_neg hr, ih (j + 1) force (by omega) hlive, hdrop]
      simp only [List.any_cons, hb, hr, Bool.false_or]

omit [LinearOrderedField K] in
/-- The marking loop, started at index `pre.length` of `pre ++ rest`, keeps `pre` and marks
every force of `rest` that has a body flagged removed in its list. -/
theorem scene_tick_mark_eq {α : Type} (bodies : bodies_t K) (rest : List (force_t K α)) :
    ∀ pre : List (force_t K α),
      (∀ force ∈ rest, ∀ p ∈ force.bodies, ∃ b, body_deref bodies p = some b) →
      scene_tick_mark bodies rest.length pre.length (pre ++ rest) =
        some (pre ++ rest.map (fun force =>
          { force with
            mark_removal := force.mark_removal || force.bodies.any (fun p =>
              match body_deref bodies p with
              | some b => body_is_removed b
              | none => false) })) := by
  induction rest with
  | nil => intro pre _; simp [scene_tick_mark]
  | cons e rest ih =>
    intro pre hlive
    rw [List.length_cons, scene_tick_mark, list_get_append_length]
    simp only []
    rw [scene_tick_check_eq bodies e.bodies.length 0 e (by omega)
      (hlive e (List.mem_cons_self _ _))]
    simp only [list_set_append_length, List.drop_zero]
    have h := ih (pre ++ [{ e with
        mark_removal := e.mark_removal || e.bodies.any (fun p =>
          match body_deref bodies p with
          | some b => body_is_removed b
          | none => false) }])
      (fun f hf => hlive f (List.mem_cons_of_mem _ hf))
    rw [List.length_append, List.length_singleton] at h
    rw [h]
    simp

omit [LinearOrderedField K] in
/-- The first loop of `scene_tick` leaves the number of forces as it was. -/
theorem scene_tick_apply_length {α : Type} (left : Nat) :
    ∀ (i : Nat) (forces forces1 : List (force_t K α)) (bodies bodies1 : bodies_t K),
      scene_tick_apply left i forces bodies = some (forces1, bodies1) →
      forces1.length = forces.length := by
  induction left with
  | zero =>
    intro i forces forces1 bodies bodies1 h
    simp only [scene_tick_apply, Option.some.injEq, Prod.mk.injEq] at h
    rw [← h.1]
  | succ left ih =>
    intro i forces forces1 bodies bodies1 h
    rw [scene_tick_apply] at h
    cases hg : list_get forces i with
    | none => simp [hg] at h
    | some force =>
      simp only [hg] at h
      cases hf : force.forcer force.aux bodies with
      | none => simp [hf] at h
      | some r =>
        obtain ⟨aux, bodies2⟩ := r
        simp only [hf] at h
        have := ih _ _ _ _ _ h
        simpa using this

theorem body_tick_is_removed (b : body K) (dt : K) :
    body_is_removed (body_tick b dt) = body_is_removed b := by
  simp [body_tick, body_is_removed, body_set_velocity, body_set_centroid]

/-- C1: when every force creator has run (leaving the bodies `bodies1`) and every body a
force depends on is still in the scene, `scene_tick(dt)` returns, and the body collection it
leaves is: the bodies of `bodies1` that are not flagged removed, in their order, each advanced
by one `body_tick(dt)`; no body in it is flagged removed. -/
theorem scene_tick_bodies_swept {α : Type} (scene : scene_t K α) (dt : K)
    (forces1 : List (force_t K α)) (bodies1 : bodies_t K)
    (happly : scene_tick_apply scene.forces.length 0 scene.forces scene.bodies =
      some (forces1, bodies1))
    (hlive : ∀ force ∈ forces1, ∀ p ∈ force.bodies, ∃ b, body_deref bodies1 p = some b) :
    ∃ scene1, scene_tick scene dt = some scene1 ∧
      scene1.bodies = (bodies1.filter (fun e => !body_is_removed e.2)).map
        (fun e => (e.1, body_tick e.2 dt)) ∧
      ∀ e ∈ scene1.bodies, body_is_removed e.2 = false := by
  have hlen := scene_tick_apply_length _ _ _ _ _ _ happly
  have hmark := scene_tick_mark_eq bodies1 forces1 [] hlive
  have hbodies := scene_tick_bodies_eq dt bodies1 [] bodies1.length (le_refl _)
  simp only [List.nil_append, List.length_nil] at hmark hbodies
  have hforces := scene_tick_forces_eq
    (forces1.map (fun force : force_t K α =>
      { force with
        mark_removal := force.mark_removal || force.bodies.any (fun p =>
          match body_deref bodies1 p with
          | some b => body_is_removed b
          | none => false) })) [] _ (le_refl _)
  simp only [List.nil_append, List.length_nil] at hforces
  refine ⟨⟨(bodies1.filter (fun e => !body_is_removed e.2)).map
      (fun e => (e.1, body_tick e.2 dt)),
    (forces1.map (fun force : force_t K α =>
      { force with
        mark_removal := force.mark_removal || force.bodies.any (fun p =>
          match body_deref bodies1 p with
          | some b => body_is_removed b
          | none => false) })).filter (fun force => !force_is_removed force)⟩, ?_, rfl, ?_⟩
  · unfold scene_tick
    simp only [happly]
    rw [← hlen]
    simp only [hmark, hbodies, hforces]
  · intro e he
    simp only [List.mem_map, List.mem_filter] at he
    obtain ⟨e0, ⟨_, hr⟩, rfl⟩ := he
    simp only [body_tick_is_removed]
    simpa using hr

theorem axes_colliding_pair1 :
    get_normalized_proj_axes Real.sqrt COLLIDING_PAIR1_VERTS1 =
        [⟨0, 1⟩, ⟨-1, 0⟩, ⟨0, -1⟩, ⟨1, 0⟩] ∧
      get_normalized_proj_axes Real.sqrt COLLIDING_PAIR1_VERTS2 =
        [⟨0, 1⟩, ⟨-1, 0⟩, ⟨0, -1⟩, ⟨1, 0⟩] := by
  constructor
  · simp [get_normalized_proj_axes, COLLIDING_PAIR1_VERTS1, List.range_succ, vertex,
      vec_subtract, vec_rotate_90, vec_normalize, vec_norm, vec_dot, vec_multiply, VEC_ZERO]
    norm_num [sqrt_4]
  · simp [get_normalized_proj_axes, COLLIDING_PAIR1_VERTS2, List.range_succ, vertex,
      vec_subtract, vec_rotate_90, vec_normalize, vec_norm, vec_dot, vec_multiply, VEC_ZERO]
    norm_num [sqrt_4]

theorem sep_colliding_pair1 :
    shapes_are_separated Real.sqrt ⟨0, 1⟩ COLLIDING_PAIR1_VERTS1 COLLIDING_PAIR1_VERTS2 =
        ⟨false, .fin 1⟩ ∧
      shapes_are_separated Real.sqrt ⟨-1, 0⟩ COLLIDING_PAIR1_VERTS1 COLLIDING_PAIR1_VERTS2 =
        ⟨false, .fin 1⟩ ∧
      shapes_are_separated Real.sqrt ⟨0, -1⟩ COLLIDING_PAIR1_VERTS1 COLLIDING_PAIR1_VERTS2 =
        ⟨false, .fin 1⟩ ∧
      shapes_are_separated Real.sqrt ⟨1, 0⟩ COLLIDING_PAIR1_VERTS1 COLLIDING_PAIR1_VERTS2 =
        ⟨false, .fin 1⟩ := by
  refine ⟨?_, ?_, ?_, ?_⟩ <;>
  · simp [shapes_are_separated, polygon_proj, vec_scalar_proj, vec_dot, COLLIDING_PAIR1_VERTS1,
      COLLIDING_PAIR1_VERTS2, xdouble.lt, xdouble.le, xdouble.gt, xdouble.ge, xdouble.sub]
    norm_num

/-- The first pair of `test_colliding`: `find_collision` reports a collision, along `(0, 1)`. -/
theorem find_collision_colliding_pair1 :
    find_collision Real.sqrt COLLIDING_PAIR1_VERTS1 COLLIDING_PAIR1_VERTS2 =
      some ⟨true, some ⟨0, 1⟩⟩ := by
  unfold find_collision
  rw [axes_colliding_pair1.1, axes_colliding_pair1.2]
  simp [find_collision_loop, list_get, sep_colliding_pair1.1, sep_colliding_pair1.2.1,
    sep_colliding_pair1.2.2.1, sep_colliding_pair1.2.2.2, xdouble.lt, xdouble.gt]

/-- In a scene with the two overlapping squares of `test_colliding` as bodies of mass 1 at
the addresses 1 and 2 and a destructive collision between them, the collision handler flags
both bodies in the first loop of the tick, and the tick leaves no body. -/
theorem scene_tick_bodies_swept_witness :
    ∃ scene1,
      scene_tick
        (create_destructive_collision Real.sqrt
          (scene_add_body
            (scene_add_body scene_init 1
              (body_init COLLIDING_PAIR1_VERTS1 (mass_t.finite 1) ⟨1, 0, 0⟩))
            2 (body_init COLLIDING_PAIR1_VERTS2 (mass_t.finite 1) ⟨0, 0, 1⟩))
          1 2) 1 = some scene1 ∧
      scene1.bodies = [] := by
  have hs1 : (body_init COLLIDING_PAIR1_VERTS1 (mass_t.finite (1 : ℝ)) ⟨1, 0, 0⟩).shape =
      COLLIDING_PAIR1_VERTS1 := rfl
  have hs2 : (body_init COLLIDING_PAIR1_VERTS2 (mass_t.finite (1 : ℝ)) ⟨0, 0, 1⟩).shape =
      COLLIDING_PAIR1_VERTS2 := rfl
  have happly : scene_tick_apply
      (create_destructive_collision Real.sqrt
          (scene_add_body
            (scene_add_body scene_init 1
              (body_init COLLIDING_PAIR1_VERTS1 (mass_t.finite 1) ⟨1, 0, 0⟩))
            2 (body_init COLLIDING_PAIR1_VERTS2 (mass_t.finite 1) ⟨0, 0, 1⟩))
          1 2).forces.length 0
      (create_destructive_collision Real.sqrt
          (scene_add_body
            (scene_add_body scene_init 1
              (body_init COLLIDING_PAIR1_VERTS1 (mass_t.finite 1) ⟨1, 0, 0⟩))
            2 (body_init COLLIDING_PAIR1_VERTS2 (mass_t.finite 1) ⟨0, 0, 1⟩))
          1 2).forces
      (create_destructive_collision Real.sqrt
          (scene_add_body
            (scene_add_body scene_init 1
              (body_init COLLIDING_PAIR1_VERTS1 (mass_t.finite 1) ⟨1, 0, 0⟩))
            2 (body_init COLLIDING_PAIR1_VERTS2 (mass_t.finite 1) ⟨0, 0, 1⟩))
          1 2).bodies = some (
        [{ forcer := collision_forcer Real.sqrt,
           aux := aux_t.force
            { handler := apply_destructive_collision,
              const_body_aux := const_body_aux_init [] [1, 2],
              already_colliding := true },
           bodies := [1, 2], mark_removal := false }],
        [(1, body_remove (body_init COLLIDING_PAIR1_VERTS1 (mass_t.finite 1) ⟨1, 0, 0⟩)),
         (2, body_remove (body_init COLLIDING_PAIR1_VERTS2 (mass_t.finite 1) ⟨0, 0, 1⟩))]) := by
    simp [scene_tick_apply, create_destructive_collision, create_collision,
      scene_add_bodies_force_creator, scene_add_body, scene_init, list_add, list_get,
      collision_forcer, collision, collision_find, force_aux_init, const_body_aux_init,
      body_deref, body_get_shape_eq, hs1, hs2, find_collision_colliding_pair1,
      apply_destructive_collision, body_write, body_update]
  obtain ⟨scene1, h1, h2, _⟩ := scene_tick_bodies_swept _ 1 _ _ happly (by
    intro force hforce p hp
    simp only [List.mem_singleton] at hforce
    subst hforce
    simp only [List.mem_cons, List.mem_singleton, List.not_mem_nil, or_false] at hp
    rcases hp with rfl | rfl <;> simp [body_deref])
  exact ⟨scene1, h1, by rw [h2]; simp [body_remove, body_is_removed]⟩

/-! ### forces.c: the collision effect is edge-triggered -/

/-- One invocation of `collision`: the flag it leaves is the `collided` it saw, and it calls
the handler exactly when it saw a collision with the flag not set. -/
theorem collision_once (sqrt : K → K) (fa fa2 : force_aux_t K) (bodies bodies2 : bodies_t K)
    (body1 body2 : Nat) (info : collision_info_t K)
    (hfind : collision_find sqrt fa bodies = some (body1, body2, info))
    (hcol : collision sqrt fa bodies = some (fa2, bodies2)) :
    fa2.already_colliding = info.collided ∧ fa2.handler = fa.handler ∧
      (info.collided = true ∧ fa.already_colliding = false →
        collision_step.handler_called ⟨info, body1, body2, fa, bodies, fa2, bodies2⟩) ∧
      (¬ (info.collided = true ∧ fa.already_colliding = false) →
        collision_step.handler_skipped ⟨info, body1, body2, fa, bodies, fa2, bodies2⟩) := by
  unfold collision at hcol
  rw [hfind] at hcol
  simp only [] at hcol
  by_cases hc : info.collided = true
  · by_cases ha : fa.already_colliding = false
    · rw [if_pos hc, if_pos ha] at hcol
      cases hax : info.axis with
      | none => simp [hax] at hcol
      | some axis =>
        simp only [hax] at hcol
        cases hh : fa.handler body1 body2 axis fa.const_body_aux bodies with
        | none => simp [hh] at hcol
        | some r =>
          obtain ⟨aux, b3⟩ := r
          simp only [hh, Option.some.injEq, Prod.mk.injEq] at hcol
          obtain ⟨rfl, rfl⟩ := hcol
          refine ⟨by simp [hc], rfl, fun _ => ⟨axis, hax, ?_⟩, fun hn => absurd ⟨hc, ha⟩ hn⟩
          simpa using hh
    · rw [if_pos hc, if_neg ha] at hcol
      simp only [Option.some.injEq, Prod.mk.injEq] at hcol
      obtain ⟨rfl, rfl⟩ := hcol
      exact ⟨by simp [hc], rfl, fun h => absurd h.2 ha, fun _ => ⟨rfl, rfl⟩⟩
  · rw [if_neg hc] at hcol
    simp only [Option.some.injEq, Prod.mk.injEq] at hcol
    obtain ⟨rfl, rfl⟩ := hcol
    exact ⟨by simpa using hc, rfl, fun h => absurd h.1 hc, fun _ => ⟨rfl, rfl⟩⟩

/-- The steps a run records: each is one invocation of `collision` on the bodies given for
it, and the auxiliary value is handed from each step to the next. -/
theorem collision_run_steps (sqrt : K → K) (states : List (bodies_t K)) :
    ∀ (fa : force_aux_t K) (steps : List (collision_step K)),
      collision_run sqrt fa states = some steps →
      steps.length = states.length ∧
      ∀ k step, steps.get? k = some step →
        collision_find sqrt step.aux_before step.bodies_before =
          some (step.body1, step.body2, step.info) ∧
        collision sqrt step.aux_before step.bodies_before =
          some (step.aux_after, step.bodies_after) ∧
        states.get? k = some step.bodies_before ∧
        (k = 0 → step.aux_before = fa) ∧
        (∀ j prev, k = j + 1 → steps.get? j = some prev →
          step.aux_before = prev.aux_after) := by
  induction states with
  | nil =>
    intro fa steps h
    simp only [collision_run, Option.some.injEq] at h
    subst h
    exact ⟨rfl, fun k step hk => by simp at hk⟩
  | cons bodies states ih =>
    intro fa steps h
    rw [collision_run] at h
    cases hf : collision_find sqrt fa bodies with
    | none => simp [hf] at h
    | some r =>
      obtain ⟨body1, body2, info⟩ := r
      cases hc : collision sqrt fa bodies with
      | none => simp [hf, hc] at h
      | some r2 =>
        obtain ⟨fa2, bodies2⟩ := r2
        cases hr : collision_run sqrt fa2 states with
        | none => simp [hf, hc, hr] at h
        | some rest =>
          simp only [hf, hc, hr, Option.some.injEq] at h
          subst h
          obtain ⟨hlen, hsteps⟩ := ih fa2 rest hr
          refine ⟨by simp [hlen], ?_⟩
          intro k step hk
          cases k with
          | zero =>
            simp only [List.get?_cons_zero, Option.some.injEq] at hk
            subst hk
            exact ⟨hf, hc, rfl, fun _ => rfl, fun j prev hj _ => by omega⟩
          | succ k =>
            simp only [List.get?_cons_succ] at hk
            obtain ⟨p1, p2, p3, p4, p5⟩ := hsteps k step hk
            refine ⟨p1, p2, by simpa using p3, fun h0 => by omega, ?_⟩
            intro j prev hj hprev
            have hjk : j = k := by omega
            subst hjk
            cases j with
            | zero =>
              simp only [List.get?_cons_zero, Option.some.injEq] at hprev
              subst hprev
              exact p4 rfl
            | succ j =>
              simp only [List.get?_cons_succ] at hprev
              exact p5 j prev rfl hprev

/-- The effect is edge-triggered for the body pair it reads from its auxiliary value:
`create_collision` registers the force creator `collision` with a fresh `force_aux_t`, and for
every sequence of invocations of that effect the sticky flag after an invocation is the
`collided` result `find_collision` gave it for the first two bodies of the auxiliary value, and
the handler is called on an invocation if and only if that result is true and either the
invocation is the first or the result of the invocation just before was false (so never on two
invocations in a row). -/
theorem collision_edge_triggered (sqrt : K → K) (handler : collision_handler_t K)
    (aux : const_body_aux_t K) (states : List (bodies_t K)) (steps : List (collision_step K))
    (hrun : collision_run sqrt (force_aux_init handler aux) states = some steps) :
    (∀ (scene : scene_t K (aux_t K)) (body1 body2 : Nat),
      (create_collision sqrt scene body1 body2 handler aux).forces =
        list_add scene.forces
          { forcer := collision_forcer sqrt, aux := aux_t.force (force_aux_init handler aux),
            bodies := [body1, body2], mark_removal := false }) ∧
    steps.length = states.length ∧
    ∀ k step, steps.get? k = some step →
      collision_find sqrt step.aux_before step.bodies_before =
        some (step.body1, step.body2, step.info) ∧
      states.get? k = some step.bodies_before ∧
      step.aux_before.handler = handler ∧
      step.aux_after.already_colliding = step.info.collided ∧
      (k = 0 →
        step.aux_before = force_aux_init handler aux ∧
        (step.info.collided = true → step.handler_called) ∧
        (step.info.collided = false → step.handler_skipped)) ∧
      (∀ j prev, k = j + 1 → steps.get? j = some prev →
        step.aux_before = prev.aux_after ∧
        (step.info.collided = true ∧ prev.info.collided = false → step.handler_called) ∧
        (¬ (step.info.collided = true ∧ prev.info.collided = false) →
          step.handler_skipped)) := by
  obtain ⟨hlen, hsteps⟩ := collision_run_steps sqrt states _ steps hrun
  refine ⟨fun _ _ _ => rfl, hlen, ?_⟩
  intro k
  induction k with
  | zero =>
    intro step hk
    obtain ⟨p1, p2, p3, p4, _⟩ := hsteps 0 step hk
    obtain ⟨q1, _, q3, q4⟩ := collision_once sqrt _ _ _ _ _ _ _ p1 p2
    have hfa := p4 rfl
    have hflag : step.aux_before.already_colliding = false := by rw [hfa]; rfl
    refine ⟨p1, p3, by rw [hfa]; rfl, q1,
      fun _ => ⟨hfa, fun hc => q3 ⟨hc, hflag⟩, fun hc => q4 ?_⟩, fun j prev hj _ => by omega⟩
    intro h
    rw [hc] at h
    exact Bool.false_ne_true h.1
  | succ k ih =>
    intro step hk
    obtain ⟨p1, p2, p3, _, p5⟩ := hsteps (k + 1) step hk
    obtain ⟨q1, q2, q3, q4⟩ := collision_once sqrt _ _ _ _ _ _ _ p1 p2
    have hprev_some : ∃ prev, steps.get? k = some prev := by
      have : k < steps.length := by
        have := List.get?_eq_some.mp hk
        obtain ⟨h, _⟩ := this
        omega
      exact ⟨steps.get ⟨k, this⟩, List.get?_eq_get this⟩
    obtain ⟨prev0, hprev0⟩ := hprev_some
    obtain ⟨r1, r2, _, _, _⟩ := hsteps k prev0 hprev0
    obtain ⟨s1, s2, _, _⟩ := collision_once sqrt _ _ _ _ _ _ _ r1 r2
    obtain ⟨_, _, ihh, _, _, _⟩ := ih prev0 hprev0
    have hbefore := p5 k prev0 rfl hprev0
    refine ⟨p1, p3, by rw [hbefore, s2, ihh], q1, fun h0 => by omega, ?_⟩
    intro j prev hj hprev
    have hjk : j = k := by omega
    subst hjk
    rw [hprev0] at hprev
    simp only [Option.some.injEq] at hprev
    subst hprev
    have hflag : step.aux_before.already_colliding = prev0.info.collided := by
      rw [hbefore, s1]
    exact ⟨hbefore, fun h => q3 ⟨h.1, by rw [hflag]; exact h.2⟩,
      fun h => q4 (fun h2 => h ⟨h2.1, by rw [← hflag]; exact h2.2⟩)⟩

/-- The destructive collision of the two overlapping squares of `test_colliding`, invoked
twice on the same bodies: the second invocation does not call the handler. -/
theorem collision_edge_triggered_witness :
    ∃ steps,
      collision_run Real.sqrt
        (force_aux_init apply_destructive_collision (const_body_aux_init [] [1, 2]))
        [[(1, body_init COLLIDING_PAIR1_VERTS1 (mass_t.finite 1) ⟨1, 0, 0⟩),
            (2, body_init COLLIDING_PAIR1_VERTS2 (mass_t.finite 1) ⟨0, 0, 1⟩)],
          [(1, body_init COLLIDING_PAIR1_VERTS1 (mass_t.finite 1) ⟨1, 0, 0⟩),
            (2, body_init COLLIDING_PAIR1_VERTS2 (mass_t.finite 1) ⟨0, 0, 1⟩)]] = some steps ∧
      steps.length = 2 ∧
      ∀ step, steps.get? 1 = some step → step.handler_skipped := by
  have hs1 : (body_init COLLIDING_PAIR1_VERTS1 (mass_t.finite (1 : ℝ)) ⟨1, 0, 0⟩).shape =
      COLLIDING_PAIR1_VERTS1 := rfl
  have hs2 : (body_init COLLIDING_PAIR1_VERTS2 (mass_t.finite (1 : ℝ)) ⟨0, 0, 1⟩).shape =
      COLLIDING_PAIR1_VERTS2 := rfl
  have hfind : ∀ flag, collision_find Real.sqrt
      { handler := apply_destructive_collision, const_body_aux := const_body_aux_init [] [1, 2],
        already_colliding := flag }
      [(1, body_init COLLIDING_PAIR1_VERTS1 (mass_t.finite 1) ⟨1, 0, 0⟩),
        (2, body_init COLLIDING_PAIR1_VERTS2 (mass_t.finite 1) ⟨0, 0, 1⟩)] =
      some (1, 2, ⟨true, some ⟨0, 1⟩⟩) := by
    intro flag
    simp [collision_find, const_body_aux_init, list_get, body_deref, body_get_shape_eq, hs1,
      hs2, find_collision_colliding_pair1]
  have hrun : ∃ steps, collision_run Real.sqrt
        (force_aux_init apply_destructive_collision (const_body_aux_init [] [1, 2]))
        [[(1, body_init COLLIDING_PAIR1_VERTS1 (mass_t.finite 1) ⟨1, 0, 0⟩),
            (2, body_init COLLIDING_PAIR1_VERTS2 (mass_t.finite 1) ⟨0, 0, 1⟩)],
          [(1, body_init COLLIDING_PAIR1_VERTS1 (mass_t.finite 1) ⟨1, 0, 0⟩),
            (2, body_init COLLIDING_PAIR1_VERTS2 (mass_t.finite 1) ⟨0, 0, 1⟩)]] = some steps := by
    simp [collision_run, force_aux_init, hfind, collision, apply_destructive_collision,
      body_write, body_deref, body_update]
  obtain ⟨steps, hsteps⟩ := hrun
  obtain ⟨_, hlen, hall⟩ := collision_edge_triggered Real.sqrt _ _ _ _ hsteps
  refine ⟨steps, hsteps, by simpa using hlen, ?_⟩
  intro step hstep
  have h0 : ∃ prev, steps.get? 0 = some prev := by
    have : 0 < steps.length := by rw [hlen]; simp
    exact ⟨steps.get ⟨0, this⟩, List.get?_eq_get this⟩
  obtain ⟨prev, hprev⟩ := h0
  obtain ⟨f0, b0, _, _, z0, _⟩ := hall 0 prev hprev
  have hb0 : prev.bodies_before =
      [(1, body_init COLLIDING_PAIR1_VERTS1 (mass_t.finite 1) ⟨1, 0, 0⟩),
        (2, body_init COLLIDING_PAIR1_VERTS2 (mass_t.finite 1) ⟨0, 0, 1⟩)] := by
    simpa using b0.symm
  rw [(z0 rfl).1, hb0, force_aux_init, hfind false] at f0
  have hprev_collided : prev.info.collided = true := by
    simp only [Option.some.injEq, Prod.mk.injEq] at f0
    rw [← f0.2.2]
  obtain ⟨_, _, _, _, _, z1⟩ := hall 1 step hstep
  exact (z1 0 prev rfl hprev).2.2 (fun h => by rw [hprev_collided] at h; exact Bool.noConfusion h.2)

/-! ### Bodies in memory: reading after writing -/

omit [LinearOrderedField K] in
theorem body_deref_cons (a : Nat) (b : body K) (bodies : bodies_t K) (q : Nat) :
    body_deref ((a, b) :: bodies) q = if a = q then some b else body_deref bodies q := by
  unfold body_deref
  by_cases h : a = q
  · simp [List.find?_cons, h]
  · simp [List.find?_cons, h]

omit [LinearOrderedField K] in
theorem body_update_cons (a : Nat) (b : body K) (bodies : bodies_t K) (p : Nat)
    (f : body K → body K) :
    body_update ((a, b) :: bodies) p f =
      (if a = p then (a, f b) else (a, b)) :: body_update bodies p f := by
  simp [body_update]

omit [LinearOrderedField K] in
theorem body_deref_update (bodies : bodies_t K) (p q : Nat) (f : body K → body K) :
    body_deref (body_update bodies p f) q =
      if q = p then Option.map f (body_deref bodies p) else body_deref bodies q := by
  induction bodies with
  | nil => simp [body_deref, body_update]
  | cons e bodies ih =>
    obtain ⟨a, b⟩ := e
    rw [body_update_cons]
    by_cases h1 : a = p
    · rw [if_pos h1, body_deref_cons, body_deref_cons, body_deref_cons, ih]
      by_cases h2 : q = p
      · simp [h1, h2]
      · have h3 : ¬ a = q := fun h => h2 (by rw [← h, h1])
        simp [h2, h3]
    · rw [if_neg h1, body_deref_cons, body_deref_cons, body_deref_cons, ih]
      by_cases h2 : q = p
      · have h3 : ¬ a = q := fun h => h1 (by rw [h, h2])
        simp [h1, h2, h3]
      · simp [h2]

omit [LinearOrderedField K] in
theorem body_write_eq (bodies : bodies_t K) (p : Nat) (f : body K → body K) (b : body K)
    (h : body_deref bodies p = some b) :
    body_write bodies p f = some (body_update bodies p f) := by
  simp [body_write, h]

omit [LinearOrderedField K] in
theorem body_deref_update_same (bodies : bodies_t K) (p : Nat) (f : body K → body K)
    (b : body K) (h : body_deref bodies p = some b) :
    body_deref (body_update bodies p f) p = some (f b) := by
  rw [body_deref_update, if_pos rfl, h]; rfl

omit [LinearOrderedField K] in
theorem body_deref_update_other (bodies : bodies_t K) (p q : Nat) (f : body K → body K)
    (h : q ≠ p) : body_deref (body_update bodies p f) q = body_deref bodies q := by
  rw [body_deref_update, if_neg h]

/-! ### scene.c: what `scene_tick` returns -/

omit [LinearOrderedField K] in
/-- The first loop of `scene_tick` only writes the auxiliary values of the forces: their
force creators, body lists and removal marks stay as they were, in order. -/
theorem scene_tick_apply_fields {α : Type} (left : Nat) :
    ∀ (i : Nat) (forces forces1 : List (force_t K α)) (bodies bodies1 : bodies_t K),
      scene_tick_apply left i forces bodies = some (forces1, bodies1) →
      forces1.map (fun f => (f.forcer, f.bodies, f.mark_removal)) =
        forces.map (fun f => (f.forcer, f.bodies, f.mark_removal)) := by
  induction left with
  | zero =>
    intro i forces forces1 bodies bodies1 h
    simp only [scene_tick_apply, Option.some.injEq, Prod.mk.injEq] at h
    rw [← h.1]
  | succ left ih =>
    intro i forces forces1 bodies bodies1 h
    rw [scene_tick_apply] at h
    cases hg : list_get forces i with
    | none => simp [hg] at h
    | some force =>
      simp only [hg] at h
      cases hf : force.forcer force.aux bodies with
      | none => simp [hf] at h
      | some r =>
        obtain ⟨aux, bodies2⟩ := r
        simp only [hf] at h
        rw [ih _ _ _ _ _ h]
        have hi : i < forces.length ∧ forces.get? i = some force := by
          unfold list_get at hg
          by_cases c : i < forces.length
          · rw [if_pos c] at hg; exact ⟨c, hg⟩
          · rw [if_neg c] at hg; exact absurd hg (by simp)
        apply List.ext_get?
        intro n
        by_cases hn : n = i
        · subst hn
          have h2 := hi.2
          rw [List.get?_eq_getElem?] at h2
          have h3 : forces[n] = force := by
            have := List.getElem?_eq_getElem hi.1
            rw [h2] at this
            exact (Option.some.inj this).symm
          simp [List.get?_eq_getElem?, List.getElem?_set, hi.1, h3]
        · simp [List.get?_eq_getElem?, List.getElem?_set, Ne.symm hn]

/-- What `scene_tick` returns when the first loop returns `forces1` and `bodies1` and every
body a force depends on is still in the scene: the bodies not flagged removed, ticked, and
the forces not marked before and without a body flagged removed in their list. -/
theorem scene_tick_eq {α : Type} (scene : scene_t K α) (dt : K)
    (forces1 : List (force_t K α)) (bodies1 : bodies_t K)
    (happly : scene_tick_apply scene.forces.length 0 scene.forces scene.bodies =
      some (forces1, bodies1))
    (hlive : ∀ force ∈ forces1, ∀ p ∈ force.bodies, ∃ b, body_deref bodies1 p = some b) :
    scene_tick scene dt = some
      { bodies := (bodies1.filter (fun e => !body_is_removed e.2)).map
          (fun e => (e.1, body_tick e.2 dt))
        forces := forces1.filter (fun force => !force.mark_removal &&
          !force.bodies.any (fun p =>
            match body_deref bodies1 p with
            | some b => body_is_removed b
            | none => false)) } := by
  have hlen := scene_tick_apply_length _ _ _ _ _ _ happly
  have hmark := scene_tick_mark_eq bodies1 forces1 [] hlive
  have hbodies := scene_tick_bodies_eq dt bodies1 [] bodies1.length (le_refl _)
  simp only [List.nil_append, List.length_nil] at hmark hbodies
  have hforces := scene_tick_forces_eq
    (forces1.map (fun force : force_t K α =>
      { force with
        mark_removal := force.mark_removal || force.bodies.any (fun p =>
          match body_deref bodies1 p with
          | some b => body_is_removed b
          | none => false) })) [] _ (le_refl _)
  simp only [List.nil_append, List.length_nil] at hforces
  unfold scene_tick
  simp only [happly]
  rw [← hlen]
  simp only [hmark, hbodies, hforces]
  congr 2
  rw [List.filter_map]
  have hid : ∀ force ∈ forces1.filter ((fun force : force_t K α => !force_is_removed force) ∘
      (fun force : force_t K α =>
        { force with
          mark_removal := force.mark_removal || force.bodies.any (fun p =>
            match body_deref bodies1 p with
            | some b => body_is_removed b
            | none => false) })),
      (fun force : force_t K α =>
        ({ force with
          mark_removal := force.mark_removal || force.bodies.any (fun p =>
            match body_deref bodies1 p with
            | some b => body_is_removed b
            | none => false) } : force_t K α)) force = force := by
    intro force hf
    have h2 := (List.mem_filter.mp hf).2
    simp only [Function.comp, force_is_removed, Bool.not_eq_true', Bool.or_eq_false_iff] at h2
    cases force with
    | mk fo au bo ma =>
      simp only at h2 ⊢
      simp [h2.1, h2.2]
  rw [List.map_congr_left hid, List.map_id']
  apply List.filter_congr
  intro force _
  simp [Function.comp, force_is_removed]

/-- C11: when the first loop of `scene_tick` returns (leaving the forces `forces1`, which are
the registered forces with their force creators, body lists and marks as registered, and the
bodies `bodies1`) and every body a force depends on is still in the scene, `scene_tick`
returns and the forces it leaves are, in their order, exactly those that were not marked
and have no body flagged removed in their list; a force registered by
`scene_add_force_creator` has an empty list and is kept. -/
theorem scene_tick_forces_swept {α : Type} (scene : scene_t K α) (dt : K)
    (forces1 : List (force_t K α)) (bodies1 : bodies_t K)
    (happly : scene_tick_apply scene.forces.length 0 scene.forces scene.bodies =
      some (forces1, bodies1))
    (hlive : ∀ force ∈ forces1, ∀ p ∈ force.bodies, ∃ b, body_deref bodies1 p = some b) :
    ∃ scene1, scene_tick scene dt = some scene1 ∧
      forces1.map (fun f => (f.forcer, f.bodies, f.mark_removal)) =
        scene.forces.map (fun f => (f.forcer, f.bodies, f.mark_removal)) ∧
      scene1.forces = forces1.filter (fun force => !force.mark_removal &&
        !force.bodies.any (fun p =>
          match body_deref bodies1 p with
          | some b => body_is_removed b
          | none => false)) ∧
      (∀ force ∈ forces1, force.bodies = [] → force.mark_removal = false →
        force ∈ scene1.forces) ∧
      (∀ (forcer : force_creator_t K α) (aux : α),
        (scene_add_force_creator scene forcer aux).forces =
          list_add scene.forces ⟨forcer, aux, [], false⟩) := by
  refine ⟨_, scene_tick_eq scene dt forces1 bodies1 happly hlive,
    scene_tick_apply_fields _ _ _ _ _ _ happly, rfl, ?_, fun _ _ => rfl⟩
  intro force hf hb hm
  simp only [List.mem_filter]
  exact ⟨hf, by simp [hb, hm]⟩

/-- A destructive collision between the two overlapping squares of `test_colliding` and a
force registered without a body list: the tick removes the first and keeps the second. -/
theorem scene_tick_forces_swept_witness :
    ∃ scene1,
      scene_tick
        (scene_add_force_creator
          (create_destructive_collision Real.sqrt
            (scene_add_body
              (scene_add_body scene_init 1
                (body_init COLLIDING_PAIR1_VERTS1 (mass_t.finite 1) ⟨1, 0, 0⟩))
              2 (body_init COLLIDING_PAIR1_VERTS2 (mass_t.finite 1) ⟨0, 0, 1⟩))
            1 2)
          (fun aux bodies => some (aux, bodies))
          (aux_t.const_body (const_body_aux_init [] []))) 1 = some scene1 ∧
      scene1.forces.map (fun f => f.bodies) = [[]] := by
  have hs1 : (body_init COLLIDING_PAIR1_VERTS1 (mass_t.finite (1 : ℝ)) ⟨1, 0, 0⟩).shape =
      COLLIDING_PAIR1_VERTS1 := rfl
  have hs2 : (body_init COLLIDING_PAIR1_VERTS2 (mass_t.finite (1 : ℝ)) ⟨0, 0, 1⟩).shape =
      COLLIDING_PAIR1_VERTS2 := rfl
  have happly : scene_tick_apply
      (scene_add_force_creator
          (create_destructive_collision Real.sqrt
            (scene_add_body
              (scene_add_body scene_init 1
                (body_init COLLIDING_PAIR1_VERTS1 (mass_t.finite 1) ⟨1, 0, 0⟩))
              2 (body_init COLLIDING_PAIR1_VERTS2 (mass_t.finite 1) ⟨0, 0, 1⟩))
            1 2)
          (fun aux bodies => some (aux, bodies))
          (aux_t.const_body (const_body_aux_init [] []))).forces.length 0
      (scene_add_force_creator
          (create_destructive_collision Real.sqrt
            (scene_add_body
              (scene_add_body scene_init 1
                (body_init COLLIDING_PAIR1_VERTS1 (mass_t.finite 1) ⟨1, 0, 0⟩))
              2 (body_init COLLIDING_PAIR1_VERTS2 (mass_t.finite 1) ⟨0, 0, 1⟩))
            1 2)
          (fun aux bodies => some (aux, bodies))
          (aux_t.const_body (const_body_aux_init [] []))).forces
      (scene_add_force_creator
          (create_destructive_collision Real.sqrt
            (scene_add_body
              (scene_add_body scene_init 1
                (body_init COLLIDING_PAIR1_VERTS1 (mass_t.finite 1) ⟨1, 0, 0⟩))
              2 (body_init COLLIDING_PAIR1_VERTS2 (mass_t.finite 1) ⟨0, 0, 1⟩))
            1 2)
          (fun aux bodies => some (aux, bodies))
          (aux_t.const_body (const_body_aux_init [] []))).bodies = some (
        [{ forcer := collision_forcer Real.sqrt,
           aux := aux_t.force
            { handler := apply_destructive_collision,
              const_body_aux := const_body_aux_init [] [1, 2],
              already_colliding := true },
           bodies := [1, 2], mark_removal := false },
         { forcer := fun aux bodies => some (aux, bodies),
           aux := aux_t.const_body (const_body_aux_init [] []),
           bodies := [], mark_removal := false }],
        [(1, body_remove (body_init COLLIDING_PAIR1_VERTS1 (mass_t.finite 1) ⟨1, 0, 0⟩)),
         (2, body_remove (body_init COLLIDING_PAIR1_VERTS2 (mass_t.finite 1) ⟨0, 0, 1⟩))]) := by
    simp [scene_tick_apply, create_destructive_collision, create_collision,
      scene_add_force_creator, scene_add_bodies_force_creator, scene_add_body, scene_init,
      list_add, list_get, collision_forcer, collision, collision_find, force_aux_init,
      const_body_aux_init, body_deref, body_get_shape_eq, hs1, hs2,
      find_collision_colliding_pair1, apply_destructive_collision, body_write, body_update]
  obtain ⟨scene1, h1, _, h3, _, _⟩ := scene_tick_forces_swept _ 1 _ _ happly (by
    intro force hforce p hp
    simp only [List.mem_cons, List.mem_singleton, List.not_mem_nil, or_false] at hforce
    rcases hforce with rfl | rfl
    · simp only [List.mem_cons, List.mem_singleton, List.not_mem_nil, or_false] at hp
      rcases hp with rfl | rfl <;> simp [body_deref]
    · simp at hp)
  exact ⟨scene1, h1, by rw [h3]; simp [body_deref, body_remove, body_is_removed]⟩

/-! ### forces.c: `apply_physics_collision` -/

/-- The impulses `apply_physics_collision` adds when both masses are finite. -/
theorem apply_physics_collision_finite (p1 p2 : Nat) (hne : p1 ≠ p2) (axis : vector_t K)
    (aux : const_body_aux_t K) (bodies : bodies_t K) (e : K)
    (he : list_get aux.consts 0 = some e) (b1 b2 : body K)
    (h1 : body_deref bodies p1 = some b1) (h2 : body_deref bodies p2 = some b2) (m1 m2 : K)
    (hm1 : body_get_mass b1 = mass_t.finite m1) (hm2 : body_get_mass b2 = mass_t.finite m2) :
    apply_physics_collision p1 p2 axis aux bodies = some (aux,
      body_update
        (body_update bodies p1 (fun b => body_add_impulse b
          (vec_multiply ((m1 * m2) / (m1 + m2) * (1 + e) *
            (vec_dot (body_get_velocity b2) axis - vec_dot (body_get_velocity b1) axis)) axis)))
        p2 (fun b => body_add_impulse b (vec_multiply (-1)
          (vec_multiply ((m1 * m2) / (m1 + m2) * (1 + e) *
            (vec_dot (body_get_velocity b2) axis - vec_dot (body_get_velocity b1) axis))
            axis)))) := by
  have h3 : ∀ f : body K → body K, body_deref (body_update bodies p1 f) p2 = some b2 := by
    intro f
    rw [body_deref_update_other _ _ _ _ (Ne.symm hne), h2]
  unfold apply_physics_collision
  simp only [he, h1, h2, hm1, hm2]
  rw [body_write_eq _ _ _ b1 h1]
  simp only []
  rw [body_write_eq _ _ _ b2 (h3 _)]

/-- The bodies after `apply_physics_collision` when both masses are finite. -/
theorem apply_physics_collision_finite_bodies (p1 p2 : Nat) (hne : p1 ≠ p2)
    (axis : vector_t K) (aux : const_body_aux_t K) (bodies : bodies_t K) (e : K)
    (he : list_get aux.consts 0 = some e) (b1 b2 : body K)
    (h1 : body_deref bodies p1 = some b1) (h2 : body_deref bodies p2 = some b2) (m1 m2 : K)
    (hm1 : body_get_mass b1 = mass_t.finite m1) (hm2 : body_get_mass b2 = mass_t.finite m2) :
    ∃ bodies1, apply_physics_collision p1 p2 axis aux bodies = some (aux, bodies1) ∧
      body_deref bodies1 p1 = some (body_add_impulse b1
        (vec_multiply ((m1 * m2) / (m1 + m2) * (1 + e) *
          (vec_dot (body_get_velocity b2) axis - vec_dot (body_get_velocity b1) axis)) axis)) ∧
      body_deref bodies1 p2 = some (body_add_impulse b2 (vec_multiply (-1)
        (vec_multiply ((m1 * m2) / (m1 + m2) * (1 + e) *
          (vec_dot (body_get_velocity b2) axis - vec_dot (body_get_velocity b1) axis))
          axis))) := by
  refine ⟨_, apply_physics_collision_finite p1 p2 hne axis aux bodies e he b1 b2 h1 h2 m1 m2
    hm1 hm2, ?_, ?_⟩
  · rw [body_deref_update_other _ _ _ _ hne, body_deref_update_same _ _ _ _ h1]
  · rw [body_deref_update_same _ _ _ b2]
    rw [body_deref_update_other _ _ _ _ (Ne.symm hne), h2]

/-- C13: for two bodies of equal finite positive mass with empty accumulators, a unit axis
and restitution 1, `apply_physics_collision` followed by one `body_tick` of each body
exchanges the velocity components along the axis and keeps each body's component
perpendicular to the axis. -/
theorem physics_collision_elastic_equal_mass (p1 p2 : Nat) (hne : p1 ≠ p2)
    (axis : vector_t K) (haxis : vec_dot axis axis = 1) (aux : const_body_aux_t K)
    (bodies : bodies_t K) (he : list_get aux.consts 0 = some 1) (b1 b2 : body K)
    (h1 : body_deref bodies p1 = some b1) (h2 : body_deref bodies p2 = some b2) (m : K)
    (hm : 0 < m) (hm1 : body_get_mass b1 = mass_t.finite m)
    (hm2 : body_get_mass b2 = mass_t.finite m)
    (hacc1 : b1.force = VEC_ZERO ∧ b1.impulse = VEC_ZERO)
    (hacc2 : b2.force = VEC_ZERO ∧ b2.impulse = VEC_ZERO) (dt : K) :
    ∃ bodies1 c1 c2, apply_physics_collision p1 p2 axis aux bodies = some (aux, bodies1) ∧
      body_deref bodies1 p1 = some c1 ∧ body_deref bodies1 p2 = some c2 ∧
      vec_dot (body_get_velocity (body_tick c1 dt)) axis =
        vec_dot (body_get_velocity b2) axis ∧
      vec_dot (body_get_velocity (body_tick c2 dt)) axis =
        vec_dot (body_get_velocity b1) axis ∧
      vec_cross (body_get_velocity (body_tick c1 dt)) axis =
        vec_cross (body_get_velocity b1) axis ∧
      vec_cross (body_get_velocity (body_tick c2 dt)) axis =
        vec_cross (body_get_velocity b2) axis := by
  obtain ⟨bodies1, hb, d1, d2⟩ := apply_physics_collision_finite_bodies p1 p2 hne axis aux
    bodies 1 he b1 b2 h1 h2 m m hm1 hm2
  have hmne : m ≠ 0 := ne_of_gt hm
  have hm1f : b1.mass = mass_t.finite m := hm1
  have hm2f : b2.mass = mass_t.finite m := hm2
  have hax : axis.x * axis.x + axis.y * axis.y = 1 := haxis
  refine ⟨bodies1, _, _, hb, d1, d2, ?_, ?_, ?_, ?_⟩
  · simp only [body_get_velocity, body_tick_velocity_eq, body_add_impulse, hacc1.1, hacc1.2,
      hm1f, mass_t.one_div, vec_add, vec_multiply, vec_dot, VEC_ZERO]
    field_simp
    linear_combination (2 * m) * ((b2.velocity.x * axis.x + b2.velocity.y * axis.y -
      (b1.velocity.x * axis.x + b1.velocity.y * axis.y)) * m) * hax
  · simp only [body_get_velocity, body_tick_velocity_eq, body_add_impulse, hacc2.1, hacc2.2,
      hm2f, mass_t.one_div, vec_add, vec_multiply, vec_dot, VEC_ZERO]
    field_simp
    linear_combination (-(2 * m)) * ((b2.velocity.x * axis.x + b2.velocity.y * axis.y -
      (b1.velocity.x * axis.x + b1.velocity.y * axis.y)) * m) * hax
  · simp only [body_get_velocity, body_tick_velocity_eq, body_add_impulse, hacc1.1, hacc1.2,
      hm1f, mass_t.one_div, vec_add, vec_multiply, vec_dot, vec_cross, VEC_ZERO]
    ring
  · simp only [body_get_velocity, body_tick_velocity_eq, body_add_impulse, hacc2.1, hacc2.2,
      hm2f, mass_t.one_div, vec_add, vec_multiply, vec_dot, vec_cross, VEC_ZERO]
    ring

theorem square_body_fields (c : vector_t K) (mass : mass_t K) (velocity : vector_t K) :
    (square_body c mass velocity).mass = mass ∧
      (square_body c mass velocity).velocity = velocity ∧
      (square_body c mass velocity).force = VEC_ZERO ∧
      (square_body c mass velocity).impulse = VEC_ZERO ∧
      (square_body c mass velocity).is_removed = false ∧
      (square_body c mass velocity).shape = square_at c ∧
      (square_body c mass velocity).centroid = c := by
  refine ⟨rfl, rfl, rfl, rfl, rfl, rfl, ?_⟩
  simp only [square_body, body_set_velocity, body_init, body_init_with_info]
  ext <;>
  · simp [polygon_centroid, polygon_area, square_at, vertex, List.range_succ]
    field_simp
    ring

/-- Two squares of mass 2 with velocities `(3, 1)` and `(-1, 0)` colliding along `(1, 0)`. -/
theorem physics_collision_elastic_equal_mass_witness :
    ∃ bodies1 c1 c2,
      apply_physics_collision 1 2 ⟨1, 0⟩ (const_body_aux_init [1] [1, 2])
        [(1, square_body ⟨0, 0⟩ (mass_t.finite (2 : ℝ)) ⟨3, 1⟩),
          (2, square_body ⟨1, 0⟩ (mass_t.finite 2) ⟨-1, 0⟩)] =
        some (const_body_aux_init [1] [1, 2], bodies1) ∧
      body_deref bodies1 1 = some c1 ∧ body_deref bodies1 2 = some c2 ∧
      vec_dot (body_get_velocity (body_tick c1 1)) ⟨1, 0⟩ = -1 ∧
      vec_dot (body_get_velocity (body_tick c2 1)) ⟨1, 0⟩ = 3 := by
  obtain ⟨bodies1, c1, c2, hb, d1, d2, e1, e2, _, _⟩ :=
    physics_collision_elastic_equal_mass 1 2 (by decide) (⟨1, 0⟩ : vector_t ℝ)
      (by norm_num [vec_dot]) (const_body_aux_init [1] [1, 2])
      [(1, square_body ⟨0, 0⟩ (mass_t.finite (2 : ℝ)) ⟨3, 1⟩),
        (2, square_body ⟨1, 0⟩ (mass_t.finite 2) ⟨-1, 0⟩)]
      (by simp [list_get, const_body_aux_init])
      (square_body ⟨0, 0⟩ (mass_t.finite 2) ⟨3, 1⟩)
      (square_body ⟨1, 0⟩ (mass_t.finite 2) ⟨-1, 0⟩)
      (by simp [body_deref]) (by simp [body_deref]) 2 (by norm_num) rfl rfl ⟨rfl, rfl⟩
      ⟨rfl, rfl⟩ 1
  refine ⟨bodies1, c1, c2, hb, d1, d2, ?_, ?_⟩
  · rw [e1]; norm_num [body_get_velocity, square_body, body_set_velocity, vec_dot]
  · rw [e2]; norm_num [body_get_velocity, square_body, body_set_velocity, vec_dot]

/-- C14: for two bodies of finite positive masses with empty accumulators, a unit axis and
restitution 0, `apply_physics_collision` followed by one `body_tick` of each body leaves
the two bodies with equal velocity components along the axis. -/
theorem physics_collision_inelastic (p1 p2 : Nat) (hne : p1 ≠ p2)
    (axis : vector_t K) (haxis : vec_dot axis axis = 1) (aux : const_body_aux_t K)
    (bodies : bodies_t K) (he : list_get aux.consts 0 = some 0) (b1 b2 : body K)
    (h1 : body_deref bodies p1 = some b1) (h2 : body_deref bodies p2 = some b2) (m1 m2 : K)
    (hpos1 : 0 < m1) (hpos2 : 0 < m2) (hm1 : body_get_mass b1 = mass_t.finite m1)
    (hm2 : body_get_mass b2 = mass_t.finite m2)
    (hacc1 : b1.force = VEC_ZERO ∧ b1.impulse = VEC_ZERO)
    (hacc2 : b2.force = VEC_ZERO ∧ b2.impulse = VEC_ZERO) (dt : K) :
    ∃ bodies1 c1 c2, apply_physics_collision p1 p2 axis aux bodies = some (aux, bodies1) ∧
      body_deref bodies1 p1 = some c1 ∧ body_deref bodies1 p2 = some c2 ∧
      vec_dot (body_get_velocity (body_tick c1 dt)) axis =
        vec_dot (body_get_velocity (body_tick c2 dt)) axis := by
  obtain ⟨bodies1, hb, d1, d2⟩ := apply_physics_collision_finite_bodies p1 p2 hne axis aux
    bodies 0 he b1 b2 h1 h2 m1 m2 hm1 hm2
  have hne1 : m1 ≠ 0 := ne_of_gt hpos1
  have hne2 : m2 ≠ 0 := ne_of_gt hpos2
  have hsum : m1 + m2 ≠ 0 := ne_of_gt (add_pos hpos1 hpos2)
  have hm1f : b1.mass = mass_t.finite m1 := hm1
  have hm2f : b2.mass = mass_t.finite m2 := hm2
  have hax : axis.x * axis.x + axis.y * axis.y = 1 := haxis
  refine ⟨bodies1, _, _, hb, d1, d2, ?_⟩
  simp only [body_get_velocity, body_tick_velocity_eq, body_add_impulse, hacc1.1, hacc1.2,
    hacc2.1, hacc2.2, hm1f, hm2f, mass_t.one_div, vec_add, vec_multiply, vec_dot, VEC_ZERO]
  have key : ∀ u1 u2 : K,
      u1 + 1 / m1 * (m1 * m2 / (m1 + m2) * (1 + 0) * (u2 - u1)) =
        u2 + 1 / m2 * (-1 * (m1 * m2 / (m1 + m2) * (1 + 0) * (u2 - u1))) := by
    intro u1 u2
    field_simp
    ring
  have k := key (b1.velocity.x * axis.x + b1.velocity.y * axis.y)
    (b2.velocity.x * axis.x + b2.velocity.y * axis.y)
  linear_combination k + (1 / m1 * (m1 * m2 / (m1 + m2) * (1 + 0) *
      (b2.velocity.x * axis.x + b2.velocity.y * axis.y -
        (b1.velocity.x * axis.x + b1.velocity.y * axis.y))) +
    1 / m2 * (m1 * m2 / (m1 + m2) * (1 + 0) *
      (b2.velocity.x * axis.x + b2.velocity.y * axis.y -
        (b1.velocity.x * axis.x + b1.velocity.y * axis.y)))) * hax

/-- A square of mass 1 with velocity `(4, 1)` and one of mass 3 at rest, along `(1, 0)`. -/
theorem physics_collision_inelastic_witness :
    ∃ bodies1 c1 c2,
      apply_physics_collision 1 2 ⟨1, 0⟩ (const_body_aux_init [0] [1, 2])
        [(1, square_body ⟨0, 0⟩ (mass_t.finite (1 : ℝ)) ⟨4, 1⟩),
          (2, square_body ⟨1, 0⟩ (mass_t.finite 3) ⟨0, 0⟩)] =
        some (const_body_aux_init [0] [1, 2], bodies1) ∧
      body_deref bodies1 1 = some c1 ∧ body_deref bodies1 2 = some c2 ∧
      vec_dot (body_get_velocity (body_tick c1 1)) ⟨1, 0⟩ =
        vec_dot (body_get_velocity (body_tick c2 1)) ⟨1, 0⟩ :=
  physics_collision_inelastic 1 2 (by decide) (⟨1, 0⟩ : vector_t ℝ)
    (by norm_num [vec_dot]) (const_body_aux_init [0] [1, 2])
    [(1, square_body ⟨0, 0⟩ (mass_t.finite (1 : ℝ)) ⟨4, 1⟩),
      (2, square_body ⟨1, 0⟩ (mass_t.finite 3) ⟨0, 0⟩)]
    (by simp [list_get, const_body_aux_init])
    (square_body ⟨0, 0⟩ (mass_t.finite 1) ⟨4, 1⟩) (square_body ⟨1, 0⟩ (mass_t.finite 3) ⟨0, 0⟩)
    (by simp [body_deref]) (by simp [body_deref]) 1 3 (by norm_num) (by norm_num) rfl rfl
    ⟨rfl, rfl⟩ ⟨rfl, rfl⟩ 1


/-- The impulse `apply_physics_collision` adds when only the first mass is `INFINITY`. -/
theorem apply_physics_collision_infinite_first (p1 p2 : Nat) (axis : vector_t K)
    (aux : const_body_aux_t K) (bodies : bodies_t K) (e : K)
    (he : list_get aux.consts 0 = some e) (b1 b2 : body K)
    (h1 : body_deref bodies p1 = some b1) (h2 : body_deref bodies p2 = some b2) (m : K)
    (hm1 : body_get_mass b1 = mass_t.infinity) (hm2 : body_get_mass b2 = mass_t.finite m) :
    apply_physics_collision p1 p2 axis aux bodies = some (aux,
      body_update bodies p2 (fun b => body_add_impulse b
        (vec_multiply (vec_dot axis (body_get_velocity b2) * m * (1 + e)) axis))) := by
  unfold apply_physics_collision
  simp only [he, h1, h2, hm1, hm2]
  rw [body_write_eq _ _ _ b2 h2]

/-- The impulse `apply_physics_collision` adds when only the second mass is `INFINITY`. -/
theorem apply_physics_collision_infinite_second (p1 p2 : Nat) (axis : vector_t K)
    (aux : const_body_aux_t K) (bodies : bodies_t K) (e : K)
    (he : list_get aux.consts 0 = some e) (b1 b2 : body K)
    (h1 : body_deref bodies p1 = some b1) (h2 : body_deref bodies p2 = some b2) (m : K)
    (hm1 : body_get_mass b1 = mass_t.finite m) (hm2 : body_get_mass b2 = mass_t.infinity) :
    apply_physics_collision p1 p2 axis aux bodies = some (aux,
      body_update bodies p1 (fun b => body_add_impulse b
        (vec_multiply (-1 * (vec_dot axis (body_get_velocity b1) * m * (1 + e))) axis))) := by
  unfold apply_physics_collision
  simp only [he, h1, h2, hm1, hm2]
  rw [body_write_eq _ _ _ b1 h1]

/-- C16: when one of the two bodies has mass `INFINITY` and the other a finite mass,
`apply_physics_collision` returns with the bodies as they were except for the impulse
accumulator of the finite-mass body, to which one vector is added; the infinite-mass body
(its force, impulse and velocity included) is untouched, in either argument order. -/
theorem physics_collision_infinite_mass_frame (p1 p2 : Nat) (hne : p1 ≠ p2)
    (axis : vector_t K) (aux : const_body_aux_t K) (bodies : bodies_t K) (e : K)
    (he : list_get aux.consts 0 = some e) (b1 b2 : body K)
    (h1 : body_deref bodies p1 = some b1) (h2 : body_deref bodies p2 = some b2) (m : K) :
    (body_get_mass b1 = mass_t.infinity → body_get_mass b2 = mass_t.finite m →
      ∃ impulse bodies1, apply_physics_collision p1 p2 axis aux bodies = some (aux, bodies1) ∧
        body_deref bodies1 p1 = some b1 ∧
        body_deref bodies1 p2 = some { b2 with impulse := vec_add b2.impulse impulse } ∧
        ∀ q, q ≠ p2 → body_deref bodies1 q = body_deref bodies q) ∧
    (body_get_mass b1 = mass_t.finite m → body_get_mass b2 = mass_t.infinity →
      ∃ impulse bodies1, apply_physics_collision p1 p2 axis aux bodies = some (aux, bodies1) ∧
        body_deref bodies1 p2 = some b2 ∧
        body_deref bodies1 p1 = some { b1 with impulse := vec_add b1.impulse impulse } ∧
        ∀ q, q ≠ p1 → body_deref bodies1 q = body_deref bodies q) := by
  constructor
  · intro hm1 hm2
    refine ⟨vec_multiply (vec_dot axis (body_get_velocity b2) * m * (1 + e)) axis, _,
      apply_physics_collision_infinite_first p1 p2 axis aux bodies e he b1 b2 h1 h2
      m hm1 hm2, ?_, ?_, ?_⟩
    · rw [body_deref_update_other _ _ _ _ hne, h1]
    · rw [body_deref_update_same _ _ _ b2 h2]; rfl
    · intro q hq
      rw [body_deref_update_other _ _ _ _ hq]
  · intro hm1 hm2
    refine ⟨vec_multiply (-1 * (vec_dot axis (body_get_velocity b1) * m * (1 + e))) axis, _,
      apply_physics_collision_infinite_second p1 p2 axis aux bodies e he b1 b2 h1
      h2 m hm1 hm2, ?_, ?_, ?_⟩
    · rw [body_deref_update_other _ _ _ _ (Ne.symm hne), h2]
    · rw [body_deref_update_same _ _ _ b1 h1]; rfl
    · intro q hq
      rw [body_deref_update_other _ _ _ _ hq]

/-- A wall of infinite mass at address 1 and a square of mass 2 at address 2. -/
theorem physics_collision_infinite_mass_frame_witness :
    ∃ impulse bodies1,
      apply_physics_collision 1 2 ⟨1, 0⟩ (const_body_aux_init [1] [1, 2])
        [(1, square_body ⟨0, 0⟩ mass_t.infinity ⟨0, 0⟩),
          (2, square_body ⟨1, 0⟩ (mass_t.finite (2 : ℝ)) ⟨3, 1⟩)] =
        some (const_body_aux_init [1] [1, 2], bodies1) ∧
      body_deref bodies1 1 = some (square_body ⟨0, 0⟩ mass_t.infinity ⟨0, 0⟩) ∧
      body_deref bodies1 2 = some
        { square_body ⟨1, 0⟩ (mass_t.finite (2 : ℝ)) ⟨3, 1⟩ with
          impulse := vec_add (square_body ⟨1, 0⟩ (mass_t.finite (2 : ℝ)) ⟨3, 1⟩).impulse
            impulse } := by
  obtain ⟨impulse, bodies1, hb, d1, d2, _⟩ :=
    (physics_collision_infinite_mass_frame 1 2 (by decide) (⟨1, 0⟩ : vector_t ℝ)
      (const_body_aux_init [1] [1, 2])
      [(1, square_body ⟨0, 0⟩ mass_t.infinity ⟨0, 0⟩),
        (2, square_body ⟨1, 0⟩ (mass_t.finite (2 : ℝ)) ⟨3, 1⟩)] 1
      (by simp [list_get, const_body_aux_init])
      (square_body ⟨0, 0⟩ mass_t.infinity ⟨0, 0⟩)
      (square_body ⟨1, 0⟩ (mass_t.finite 2) ⟨3, 1⟩)
      (by simp [body_deref]) (by simp [body_deref]) 2).1 rfl rfl
  exact ⟨impulse, bodies1, hb, d1, d2⟩

/-- C15, at the failing input: a wall of infinite mass at rest and a square of mass 2 with
velocity `(3, 1)`, restitution 1 and axis `(1, 0)`.  With the wall passed as `body1`,
`apply_physics_collision` and `body_tick` leave the square with velocity `(9, 1)`: its
component along the axis is `(2 + e)` times the old one, not `-e` times.  With the wall
passed as `body2` they leave it with `(-3, 1)`. -/
theorem physics_collision_wall_as_body1 :
    (∃ bodies1 c2,
      apply_physics_collision 1 2 ⟨1, 0⟩ (const_body_aux_init [1] [1, 2])
        [(1, square_body ⟨0, 0⟩ mass_t.infinity ⟨0, 0⟩),
          (2, square_body ⟨1, 0⟩ (mass_t.finite (2 : ℝ)) ⟨3, 1⟩)] =
        some (const_body_aux_init [1] [1, 2], bodies1) ∧
      body_deref bodies1 2 = some c2 ∧
      body_get_velocity (body_tick c2 1) = ⟨9, 1⟩) ∧
    (∃ bodies1 c1,
      apply_physics_collision 1 2 ⟨1, 0⟩ (const_body_aux_init [1] [1, 2])
        [(1, square_body ⟨1, 0⟩ (mass_t.finite (2 : ℝ)) ⟨3, 1⟩),
          (2, square_body ⟨0, 0⟩ mass_t.infinity ⟨0, 0⟩)] =
        some (const_body_aux_init [1] [1, 2], bodies1) ∧
      body_deref bodies1 1 = some c1 ∧
      body_get_velocity (body_tick c1 1) = ⟨-3, 1⟩) := by
  constructor
  · refine ⟨_, _, apply_physics_collision_infinite_first 1 2 (⟨1, 0⟩ : vector_t ℝ)
      (const_body_aux_init [1] [1, 2])
      [(1, square_body ⟨0, 0⟩ mass_t.infinity ⟨0, 0⟩),
        (2, square_body ⟨1, 0⟩ (mass_t.finite (2 : ℝ)) ⟨3, 1⟩)] 1
      (by simp [list_get, const_body_aux_init])
      (square_body ⟨0, 0⟩ mass_t.infinity ⟨0, 0⟩)
      (square_body ⟨1, 0⟩ (mass_t.finite 2) ⟨3, 1⟩)
      (by simp [body_deref]) (by simp [body_deref]) 2 rfl rfl,
      body_deref_update_same _ _ _ (square_body ⟨1, 0⟩ (mass_t.finite 2) ⟨3, 1⟩)
        (by simp [body_deref]), ?_⟩
    unfold body_get_velocity
    rw [body_tick_velocity_eq]
    ext <;> norm_num [body_add_impulse, square_body, body_set_velocity, body_init,
      body_init_with_info, body_get_velocity, mass_t.one_div, vec_add, vec_multiply, vec_dot,
      VEC_ZERO]
  · refine ⟨_, _, apply_physics_collision_infinite_second 1 2 (⟨1, 0⟩ : vector_t ℝ)
      (const_body_aux_init [1] [1, 2])
      [(1, square_body ⟨1, 0⟩ (mass_t.finite (2 : ℝ)) ⟨3, 1⟩),
        (2, square_body ⟨0, 0⟩ mass_t.infinity ⟨0, 0⟩)] 1
      (by simp [list_get, const_body_aux_init])
      (square_body ⟨1, 0⟩ (mass_t.finite 2) ⟨3, 1⟩)
      (square_body ⟨0, 0⟩ mass_t.infinity ⟨0, 0⟩)
      (by simp [body_deref]) (by simp [body_deref]) 2 rfl rfl,
      body_deref_update_same _ _ _ (square_body ⟨1, 0⟩ (mass_t.finite 2) ⟨3, 1⟩)
        (by simp [body_deref]), ?_⟩
    unfold body_get_velocity
    rw [body_tick_velocity_eq]
    ext <;> norm_num [body_add_impulse, square_body, body_set_velocity, body_init,
      body_init_with_info, body_get_velocity, mass_t.one_div, vec_add, vec_multiply, vec_dot,
      VEC_ZERO]

/-! ### forces.c: the axis a collision effect passes to its handler -/

theorem axes_square_at_0_1 :
    get_normalized_proj_axes Real.sqrt (square_at (⟨0, 0⟩ : vector_t ℝ)) =
        [⟨0, 1⟩, ⟨-1, 0⟩, ⟨0, -1⟩, ⟨1, 0⟩] ∧
      get_normalized_proj_axes Real.sqrt (square_at (⟨1, 0⟩ : vector_t ℝ)) =
        [⟨0, 1⟩, ⟨-1, 0⟩, ⟨0, -1⟩, ⟨1, 0⟩] := by
  constructor
  · simp [get_normalized_proj_axes, square_at, List.range_succ, vertex,
      vec_subtract, vec_rotate_90, vec_normalize, vec_norm, vec_dot, vec_multiply, VEC_ZERO]
    norm_num [sqrt_4]
  · simp [get_normalized_proj_axes, square_at, List.range_succ, vertex,
      vec_subtract, vec_rotate_90, vec_normalize, vec_norm, vec_dot, vec_multiply, VEC_ZERO]
    norm_num [sqrt_4]

theorem sep_square_at_0_1 :
    shapes_are_separated Real.sqrt ⟨0, 1⟩ (square_at (⟨0, 0⟩ : vector_t ℝ))
        (square_at ⟨1, 0⟩) = ⟨false, .fin 2⟩ ∧
      shapes_are_separated Real.sqrt ⟨-1, 0⟩ (square_at (⟨0, 0⟩ : vector_t ℝ))
        (square_at ⟨1, 0⟩) = ⟨false, .fin 1⟩ ∧
      shapes_are_separated Real.sqrt ⟨0, -1⟩ (square_at (⟨0, 0⟩ : vector_t ℝ))
        (square_at ⟨1, 0⟩) = ⟨false, .fin 2⟩ ∧
      shapes_are_separated Real.sqrt ⟨1, 0⟩ (square_at (⟨0, 0⟩ : vector_t ℝ))
        (square_at ⟨1, 0⟩) = ⟨false, .fin 1⟩ := by
  refine ⟨?_, ?_, ?_, ?_⟩ <;>
  · simp [shapes_are_separated, polygon_proj, vec_scalar_proj, vec_dot, square_at,
      xdouble.lt, xdouble.le, xdouble.gt, xdouble.ge, xdouble.sub]
    norm_num

/-- The squares of side 2 centred at `(0, 0)` and `(1, 0)`: `find_collision` reports a
collision along `(-1, 0)`. -/
theorem find_collision_square_at_0_1 :
    find_collision Real.sqrt (square_at (⟨0, 0⟩ : vector_t ℝ)) (square_at ⟨1, 0⟩) =
      some ⟨true, some ⟨-1, 0⟩⟩ := by
  unfold find_collision
  rw [axes_square_at_0_1.1, axes_square_at_0_1.2]
  simp [find_collision_loop, list_get, sep_square_at_0_1.1, sep_square_at_0_1.2.1,
    sep_square_at_0_1.2.2.1, sep_square_at_0_1.2.2.2, xdouble.lt, xdouble.gt]

/-- C17, at the failing input: the squares of side 2 centred at `(0, 0)` (body1) and
`(1, 0)` (body2) are convex and share the point `(1/2, 0)`; a collision effect with a handler
that stores the axis it is given in the auxiliary value stores `(-1, 0)`, whose dot product
with (centroid of body2 - centroid of body1) is `-1`. -/
theorem collision_axis_points_to_body1 :
    convex_ccw (square_at (⟨0, 0⟩ : vector_t ℝ)) ∧
      convex_ccw (square_at (⟨1, 0⟩ : vector_t ℝ)) ∧
      in_convex_hull (square_at (⟨0, 0⟩ : vector_t ℝ)) ⟨1 / 2, 0⟩ ∧
      in_convex_hull (square_at (⟨1, 0⟩ : vector_t ℝ)) ⟨1 / 2, 0⟩ ∧
      collision Real.sqrt
        (force_aux_init
          (fun _ _ axis aux bodies => some ({ aux with consts := [axis.x, axis.y] }, bodies))
          (const_body_aux_init [] [1, 2]))
        [(1, square_body ⟨0, 0⟩ (mass_t.finite 1) ⟨0, 0⟩),
          (2, square_body ⟨1, 0⟩ (mass_t.finite 1) ⟨0, 0⟩)] =
        some (⟨fun _ _ axis aux bodies =>
              some ({ aux with consts := [axis.x, axis.y] }, bodies),
            ⟨[-1, 0], [1, 2], none⟩, true⟩,
          [(1, square_body ⟨0, 0⟩ (mass_t.finite 1) ⟨0, 0⟩),
            (2, square_body ⟨1, 0⟩ (mass_t.finite 1) ⟨0, 0⟩)]) ∧
      vec_dot ⟨-1, 0⟩
        (vec_subtract (body_get_centroid (square_body ⟨1, 0⟩ (mass_t.finite (1 : ℝ)) ⟨0, 0⟩))
          (body_get_centroid (square_body ⟨0, 0⟩ (mass_t.finite (1 : ℝ)) ⟨0, 0⟩))) = -1 := by
  refine ⟨?_, ?_, ?_, ?_, ?_, ?_⟩
  · constructor
    · intro i hi k hk
      simp only [square_at, List.length_cons, List.length_nil] at hi hk
      interval_cases i <;> interval_cases k <;>
        norm_num [square_at, vertex, vec_cross, vec_subtract]
    · intro i hi
      simp only [square_at, List.length_cons, List.length_nil] at hi
      interval_cases i <;> norm_num [square_at, vertex, vec_cross, vec_subtract]
  · constructor
    · intro i hi k hk
      simp only [square_at, List.length_cons, List.length_nil] at hi hk
      interval_cases i <;> interval_cases k <;>
        norm_num [square_at, vertex, vec_cross, vec_subtract]
    · intro i hi
      simp only [square_at, List.length_cons, List.length_nil] at hi
      interval_cases i <;> norm_num [square_at, vertex, vec_cross, vec_subtract]
  · exact ⟨[1 / 8, 3 / 8, 3 / 8, 1 / 8], rfl, by norm_num, by norm_num, by norm_num [square_at],
      by norm_num [square_at]⟩
  · exact ⟨[3 / 8, 1 / 8, 1 / 8, 3 / 8], rfl, by norm_num, by norm_num, by norm_num [square_at],
      by norm_num [square_at]⟩
  · simp [collision, collision_find, force_aux_init, const_body_aux_init, list_get, body_deref,
      body_get_shape_eq, (square_body_fields _ _ _).2.2.2.2.2.1, find_collision_square_at_0_1]
  · rw [body_get_centroid, body_get_centroid, (square_body_fields _ _ _).2.2.2.2.2.2,
      (square_body_fields _ _ _).2.2.2.2.2.2]
    norm_num [vec_dot, vec_subtract]

/-! ### forces.c: the third body of a speed-boost collision -/

theorem axes_square_at_5 :
    get_normalized_proj_axes Real.sqrt (square_at (⟨5, 0⟩ : vector_t ℝ)) =
      [⟨0, 1⟩, ⟨-1, 0⟩, ⟨0, -1⟩, ⟨1, 0⟩] := by
  simp [get_normalized_proj_axes, square_at, List.range_succ, vertex,
    vec_subtract, vec_rotate_90, vec_normalize, vec_norm, vec_dot, vec_multiply, VEC_ZERO]
  norm_num [sqrt_4]

theorem sep_square_at_0_5 :
    shapes_are_separated Real.sqrt ⟨0, 1⟩ (square_at (⟨0, 0⟩ : vector_t ℝ))
        (square_at ⟨5, 0⟩) = ⟨false, .fin 2⟩ ∧
      shapes_are_separated Real.sqrt ⟨-1, 0⟩ (square_at (⟨0, 0⟩ : vector_t ℝ))
        (square_at ⟨5, 0⟩) = ⟨true, .nan⟩ := by
  refine ⟨?_, ?_⟩ <;>
  · simp [shapes_are_separated, polygon_proj, vec_scalar_proj, vec_dot, square_at,
      xdouble.lt, xdouble.le, xdouble.gt, xdouble.ge, xdouble.sub]
    norm_num

/-- The squares of side 2 centred at `(0, 0)` and `(5, 0)` do not collide. -/
theorem find_collision_square_at_0_5 :
    find_collision Real.sqrt (square_at (⟨0, 0⟩ : vector_t ℝ)) (square_at ⟨5, 0⟩) =
      some ⟨false, none⟩ := by
  unfold find_collision
  rw [axes_square_at_0_1.1, axes_square_at_5]
  simp [find_collision_loop, list_get, sep_square_at_0_5.1, sep_square_at_0_5.2, xdouble.lt,
    xdouble.gt]

/-- C2, at the failing input: the overlapping squares of `test_colliding` at the addresses 1
and 2, two squares that are apart at the addresses 3 and 4, and
`create_collision(scene, body1, body2, apply_destructive_collision, aux)` with an auxiliary
value whose body list is `[3, 4]`.  The effect is registered with the dependency list
`[1, 2]` and `find_collision` reports the shapes of bodies 1 and 2 colliding, but the first
invocation of the effect tests bodies 3 and 4, the first two bodies of the auxiliary value,
finds no collision and does not call the handler: the bodies are left as they were. -/
theorem collision_tests_bodies_of_aux :
    (create_collision Real.sqrt
        ⟨[(1, body_init COLLIDING_PAIR1_VERTS1 (mass_t.finite 1) ⟨1, 0, 0⟩),
            (2, body_init COLLIDING_PAIR1_VERTS2 (mass_t.finite 1) ⟨0, 0, 1⟩),
            (3, square_body ⟨0, 0⟩ (mass_t.finite 1) ⟨0, 0⟩),
            (4, square_body ⟨5, 0⟩ (mass_t.finite 1) ⟨0, 0⟩)], []⟩
        1 2 apply_destructive_collision (const_body_aux_init [] [3, 4])).forces =
        [⟨collision_forcer Real.sqrt,
          aux_t.force (force_aux_init apply_destructive_collision
            (const_body_aux_init [] [3, 4])),
          [1, 2], false⟩] ∧
      find_collision Real.sqrt
          (body_get_shape (body_init COLLIDING_PAIR1_VERTS1 (mass_t.finite (1 : ℝ)) ⟨1, 0, 0⟩))
          (body_get_shape (body_init COLLIDING_PAIR1_VERTS2 (mass_t.finite (1 : ℝ)) ⟨0, 0, 1⟩)) =
        some ⟨true, some ⟨0, 1⟩⟩ ∧
      collision_find Real.sqrt
          (force_aux_init apply_destructive_collision (const_body_aux_init [] [3, 4]))
          [(1, body_init COLLIDING_PAIR1_VERTS1 (mass_t.finite 1) ⟨1, 0, 0⟩),
            (2, body_init COLLIDING_PAIR1_VERTS2 (mass_t.finite 1) ⟨0, 0, 1⟩),
            (3, square_body ⟨0, 0⟩ (mass_t.finite 1) ⟨0, 0⟩),
            (4, square_body ⟨5, 0⟩ (mass_t.finite 1) ⟨0, 0⟩)] =
        some (3, 4, ⟨false, none⟩) ∧
      collision Real.sqrt
          (force_aux_init apply_destructive_collision (const_body_aux_init [] [3, 4]))
          [(1, body_init COLLIDING_PAIR1_VERTS1 (mass_t.finite 1) ⟨1, 0, 0⟩),
            (2, body_init COLLIDING_PAIR1_VERTS2 (mass_t.finite 1) ⟨0, 0, 1⟩),
            (3, square_body ⟨0, 0⟩ (mass_t.finite 1) ⟨0, 0⟩),
            (4, square_body ⟨5, 0⟩ (mass_t.finite 1) ⟨0, 0⟩)] =
        some (force_aux_init apply_destructive_collision (const_body_aux_init [] [3, 4]),
          [(1, body_init COLLIDING_PAIR1_VERTS1 (mass_t.finite 1) ⟨1, 0, 0⟩),
            (2, body_init COLLIDING_PAIR1_VERTS2 (mass_t.finite 1) ⟨0, 0, 1⟩),
            (3, square_body ⟨0, 0⟩ (mass_t.finite 1) ⟨0, 0⟩),
            (4, square_body ⟨5, 0⟩ (mass_t.finite 1) ⟨0, 0⟩)]) := by
  have hs1 : (body_init COLLIDING_PAIR1_VERTS1 (mass_t.finite (1 : ℝ)) ⟨1, 0, 0⟩).shape =
      COLLIDING_PAIR1_VERTS1 := rfl
  have hs2 : (body_init COLLIDING_PAIR1_VERTS2 (mass_t.finite (1 : ℝ)) ⟨0, 0, 1⟩).shape =
      COLLIDING_PAIR1_VERTS2 := rfl
  have hsh : ∀ (c : vector_t ℝ) (m : mass_t ℝ) (v : vector_t ℝ),
      (square_body c m v).shape = square_at c := fun _ _ _ => rfl
  have hfind : collision_find Real.sqrt
      (force_aux_init apply_destructive_collision (const_body_aux_init [] [3, 4]))
      [(1, body_init COLLIDING_PAIR1_VERTS1 (mass_t.finite 1) ⟨1, 0, 0⟩),
        (2, body_init COLLIDING_PAIR1_VERTS2 (mass_t.finite 1) ⟨0, 0, 1⟩),
        (3, square_body ⟨0, 0⟩ (mass_t.finite 1) ⟨0, 0⟩),
        (4, square_body ⟨5, 0⟩ (mass_t.finite 1) ⟨0, 0⟩)] =
      some (3, 4, ⟨false, none⟩) := by
    simp [collision_find, force_aux_init, const_body_aux_init, list_get, body_deref,
      body_get_shape_eq, hsh, find_collision_square_at_0_5]
  refine ⟨rfl, ?_, hfind, ?_⟩
  · rw [body_get_shape_eq, body_get_shape_eq, hs1, hs2]
    exact find_collision_colliding_pair1
  · unfold collision
    rw [hfind]
    rfl

/-- C12, at the failing input: three squares at the addresses 1, 2, 3, the first two apart, a
speed-boost collision of bodies 1 and 2 that boosts body 3, and body 3 flagged removed by
`scene_remove_body`.  After `scene_tick` body 3 is gone from the scene, the effect is still
registered with body 3 in the body list of its auxiliary value, and its handler cannot run on
the bodies of the scene: it reads the freed body. -/
theorem speed_boost_keeps_freed_body :
    ∃ scene0 scene1 fa,
      scene_remove_body
        (create_speed_boost_collision Real.sqrt
          (scene_add_body
            (scene_add_body
              (scene_add_body scene_init 1 (square_body ⟨0, 0⟩ (mass_t.finite 1) ⟨0, 0⟩))
              2 (square_body ⟨5, 0⟩ (mass_t.finite 1) ⟨0, 0⟩))
            3 (square_body ⟨0, 5⟩ (mass_t.finite 1) ⟨1, 0⟩))
          2 1 2 3) 2 = some scene0 ∧
      scene_tick scene0 1 = some scene1 ∧
      scene1.bodies.map Prod.fst = [1, 2] ∧
      scene1.forces.map (fun f => (f.bodies, f.mark_removal)) = [([1, 2], false)] ∧
      scene1.forces.map (fun f => f.aux) = [aux_t.force fa] ∧
      fa.handler = apply_speed_boost_collision ∧
      list_get fa.const_body_aux.bodies 2 = some 3 ∧
      body_deref scene1.bodies 3 = none ∧
      ∀ axis, fa.handler 1 2 axis fa.const_body_aux scene1.bodies = none := by
  have hsh : ∀ (c : vector_t ℝ) (m : mass_t ℝ) (v : vector_t ℝ),
      (square_body c m v).shape = square_at c := fun _ _ _ => rfl
  have happly : scene_tick_apply 1 0
      [({ forcer := collision_forcer Real.sqrt,
          aux := aux_t.force (force_aux_init apply_speed_boost_collision
            (const_body_aux_init [2] [1, 2, 3])),
          bodies := [1, 2], mark_removal := false } : force_t ℝ (aux_t ℝ))]
      [(1, square_body ⟨0, 0⟩ (mass_t.finite 1) ⟨0, 0⟩),
        (2, square_body ⟨5, 0⟩ (mass_t.finite 1) ⟨0, 0⟩),
        (3, body_remove (square_body ⟨0, 5⟩ (mass_t.finite 1) ⟨1, 0⟩))] = some (
        [{ forcer := collision_forcer Real.sqrt,
           aux := aux_t.force (force_aux_init apply_speed_boost_collision
            (const_body_aux_init [2] [1, 2, 3])),
           bodies := [1, 2], mark_removal := false }],
        [(1, square_body ⟨0, 0⟩ (mass_t.finite 1) ⟨0, 0⟩),
          (2, square_body ⟨5, 0⟩ (mass_t.finite 1) ⟨0, 0⟩),
          (3, body_remove (square_body ⟨0, 5⟩ (mass_t.finite 1) ⟨1, 0⟩))]) := by
    simp [scene_tick_apply, list_get, collision_forcer, collision, collision_find,
      force_aux_init, const_body_aux_init, body_deref, body_get_shape_eq, hsh,
      find_collision_square_at_0_5]
  have htick := scene_tick_eq
    (⟨[(1, square_body ⟨0, 0⟩ (mass_t.finite 1) ⟨0, 0⟩),
        (2, square_body ⟨5, 0⟩ (mass_t.finite 1) ⟨0, 0⟩),
        (3, body_remove (square_body ⟨0, 5⟩ (mass_t.finite 1) ⟨1, 0⟩))],
      [⟨collision_forcer Real.sqrt,
        aux_t.force (force_aux_init apply_speed_boost_collision
          (const_body_aux_init [2] [1, 2, 3])),
        [1, 2], false⟩]⟩ : scene_t ℝ (aux_t ℝ)) 1 _ _ happly (by
    intro force hforce p hp
    simp only [List.mem_singleton] at hforce
    subst hforce
    simp only [List.mem_cons, List.mem_singleton, List.not_mem_nil, or_false] at hp
    rcases hp with rfl | rfl <;> simp [body_deref])
  refine ⟨_, _, force_aux_init apply_speed_boost_collision (const_body_aux_init [2] [1, 2, 3]),
    ?_, htick, ?_, ?_, ?_, rfl, ?_, ?_, ?_⟩
  · simp [scene_remove_body, create_speed_boost_collision, create_collision,
      scene_add_bodies_force_creator, scene_add_body, scene_init, list_add, list_get]
  · simp [body_remove, body_is_removed, (square_body_fields _ _ _).2.2.2.2.1]
  · simp [body_deref, body_remove, body_is_removed, (square_body_fields _ _ _).2.2.2.2.1]
  · simp [body_deref, body_remove, body_is_removed, (square_body_fields _ _ _).2.2.2.2.1]
  · simp [force_aux_init, const_body_aux_init, list_get]
  · simp [body_deref, body_remove, body_is_removed, (square_body_fields _ _ _).2.2.2.2.1]
  · intro axis
    simp [force_aux_init, const_body_aux_init, apply_speed_boost_collision, body_write,
      body_deref, body_update, list_get, body_remove, body_is_removed,
      (square_body_fields _ _ _).2.2.2.2.1]

/-! ### forces.c: `apply_newtonian` -/

/-- C18: when the centroids `c1`, `c2` of two bodies of finite masses `m1`, `m2` are at a
distance `d` that is not below `GRAVITY_MIN_DIST`, `apply_newtonian` adds to the force
accumulator of body1 the vector `(G * m1 * m2 / d²) * (c2 - c1) / d` and to that of body2 its
negative, and changes nothing else. -/
theorem apply_newtonian_force (sqrt : K → K) (aux : const_body_aux_t K) (bodies : bodies_t K)
    (p1 p2 : Nat) (hne : p1 ≠ p2) (big_g : K)
    (hp1 : list_get aux.bodies 0 = some p1) (hp2 : list_get aux.bodies 1 = some p2)
    (hg : list_get aux.consts 0 = some big_g) (b1 b2 : body K)
    (h1 : body_deref bodies p1 = some b1) (h2 : body_deref bodies p2 = some b2) (m1 m2 : K)
    (hm1 : body_get_mass b1 = mass_t.finite m1) (hm2 : body_get_mass b2 = mass_t.finite m2)
    (hd : GRAVITY_MIN_DIST ≤ vec_dist sqrt (body_get_centroid b1) (body_get_centroid b2)) :
    ∃ bodies1,
      apply_newtonian sqrt (aux_t.const_body aux) bodies =
        some (aux_t.const_body aux, bodies1) ∧
      body_deref bodies1 p1 = some (body_add_force b1
        ⟨big_g * m1 * m2 /
            (vec_dist sqrt (body_get_centroid b1) (body_get_centroid b2) *
              vec_dist sqrt (body_get_centroid b1) (body_get_centroid b2)) *
            (((body_get_centroid b2).x - (body_get_centroid b1).x) /
              vec_dist sqrt (body_get_centroid b1) (body_get_centroid b2)),
          big_g * m1 * m2 /
            (vec_dist sqrt (body_get_centroid b1) (body_get_centroid b2) *
              vec_dist sqrt (body_get_centroid b1) (body_get_centroid b2)) *
            (((body_get_centroid b2).y - (body_get_centroid b1).y) /
              vec_dist sqrt (body_get_centroid b1) (body_get_centroid b2))⟩) ∧
      body_deref bodies1 p2 = some (body_add_force b2
        ⟨-(big_g * m1 * m2 /
            (vec_dist sqrt (body_get_centroid b1) (body_get_centroid b2) *
              vec_dist sqrt (body_get_centroid b1) (body_get_centroid b2)) *
            (((body_get_centroid b2).x - (body_get_centroid b1).x) /
              vec_dist sqrt (body_get_centroid b1) (body_get_centroid b2))),
          -(big_g * m1 * m2 /
            (vec_dist sqrt (body_get_centroid b1) (body_get_centroid b2) *
              vec_dist sqrt (body_get_centroid b1) (body_get_centroid b2)) *
            (((body_get_centroid b2).y - (body_get_centroid b1).y) /
              vec_dist sqrt (body_get_centroid b1) (body_get_centroid b2)))⟩) ∧
      ∀ q, q ≠ p1 → q ≠ p2 → body_deref bodies1 q = body_deref bodies q := by
  have hnlt : ¬ vec_dist sqrt (body_get_centroid b1) (body_get_centroid b2) <
      GRAVITY_MIN_DIST := not_lt.mpr hd
  have h3 : ∀ f : body K → body K, body_deref (body_update bodies p1 f) p2 = some b2 := by
    intro f
    rw [body_deref_update_other _ _ _ _ (Ne.symm hne), h2]
  refine ⟨body_update (body_update bodies p1
      (fun b => body_add_force b
        (vec_multiply
          (big_g * m1 * m2 /
            (vec_dist sqrt (body_get_centroid b1) (body_get_centroid b2) *
              vec_dist sqrt (body_get_centroid b1) (body_get_centroid b2)))
          (vec_multiply (1 / vec_dist sqrt (body_get_centroid b1) (body_get_centroid b2))
            (vec_subtract (body_get_centroid b2) (body_get_centroid b1)))))) p2
      (fun b => body_add_force b
        (vec_multiply
          (big_g * m1 * m2 /
            (vec_dist sqrt (body_get_centroid b1) (body_get_centroid b2) *
              vec_dist sqrt (body_get_centroid b1) (body_get_centroid b2)))
          (vec_negate
            (vec_multiply (1 / vec_dist sqrt (body_get_centroid b1) (body_get_centroid b2))
              (vec_subtract (body_get_centroid b2) (body_get_centroid b1)))))),
    ?_, ?_, ?_, ?_⟩
  · unfold apply_newtonian
    simp only [hp1, hp2, hg, h1, h2, hm1, hm2, if_neg hnlt]
    rw [body_write_eq _ _ _ b1 h1]
    simp only []
    rw [body_write_eq _ _ _ b2 (h3 _)]
  · rw [body_deref_update_other _ _ _ _ hne, body_deref_update_same _ _ _ _ h1]
    congr 2
    ext <;> simp only [vec_multiply, vec_subtract] <;> ring
  · rw [body_deref_update_same _ _ _ b2 (h3 _)]
    congr 2
    ext <;> simp only [vec_multiply, vec_subtract, vec_negate] <;> ring
  · intro q hq1 hq2
    rw [body_deref_update_other _ _ _ _ hq2, body_deref_update_other _ _ _ _ hq1]

theorem apply_newtonian_force_witness :
    ∃ bodies1,
      apply_newtonian Real.sqrt (aux_t.const_body ⟨[5], [1, 2], none⟩)
          [(1, square_body ⟨0, 0⟩ (mass_t.finite 2) ⟨0, 0⟩),
            (2, square_body ⟨10, 0⟩ (mass_t.finite 3) ⟨0, 0⟩)] =
        some (aux_t.const_body ⟨[5], [1, 2], none⟩, bodies1) ∧
      body_deref bodies1 1 =
        some (body_add_force (square_body ⟨0, 0⟩ (mass_t.finite 2) ⟨0, 0⟩) ⟨3 / 10, 0⟩) ∧
      body_deref bodies1 2 =
        some (body_add_force (square_body ⟨10, 0⟩ (mass_t.finite 3) ⟨0, 0⟩) ⟨-(3 / 10), 0⟩) := by
  have hc1 : body_get_centroid (square_body (⟨0, 0⟩ : vector_t ℝ) (mass_t.finite 2) ⟨0, 0⟩) =
      ⟨0, 0⟩ := (square_body_fields _ _ _).2.2.2.2.2.2
  have hc2 : body_get_centroid (square_body (⟨10, 0⟩ : vector_t ℝ) (mass_t.finite 3) ⟨0, 0⟩) =
      ⟨10, 0⟩ := (square_body_fields _ _ _).2.2.2.2.2.2
  have hdist : vec_dist Real.sqrt (⟨0, 0⟩ : vector_t ℝ) ⟨10, 0⟩ = 10 := by
    simp only [vec_dist, vec_norm, vec_subtract, vec_dot]
    rw [show ((0 : ℝ) - 10) * (0 - 10) + (0 - 0) * (0 - 0) = 100 by norm_num, sqrt_100]
  obtain ⟨bodies1, h0, h1, h2, _⟩ :=
    apply_newtonian_force Real.sqrt ⟨[5], [1, 2], none⟩
      [(1, square_body ⟨0, 0⟩ (mass_t.finite 2) ⟨0, 0⟩),
        (2, square_body ⟨10, 0⟩ (mass_t.finite 3) ⟨0, 0⟩)]
      1 2 (by decide) 5 rfl rfl rfl
      (square_body ⟨0, 0⟩ (mass_t.finite 2) ⟨0, 0⟩)
      (square_body ⟨10, 0⟩ (mass_t.finite 3) ⟨0, 0⟩) rfl rfl 2 3 rfl rfl
      (by rw [hc1, hc2, hdist]; norm_num [GRAVITY_MIN_DIST])
  refine ⟨bodies1, h0, ?_, ?_⟩
  · rw [h1, hc1, hc2, hdist]
    norm_num
  · rw [h2, hc1, hc2, hdist]
    norm_num

/-- C19: when the centroids of the two bodies are closer than `GRAVITY_MIN_DIST` (which is
5), `apply_newtonian` returns with every body, and so both accumulators of both bodies, as
they were, whatever the masses are. -/
theorem apply_newtonian_too_close (sqrt : K → K) (aux : const_body_aux_t K)
    (bodies : bodies_t K) (p1 p2 : Nat) (big_g : K)
    (hp1 : list_get aux.bodies 0 = some p1) (hp2 : list_get aux.bodies 1 = some p2)
    (hg : list_get aux.consts 0 = some big_g) (b1 b2 : body K)
    (h1 : body_deref bodies p1 = some b1) (h2 : body_deref bodies p2 = some b2)
    (hd : vec_dist sqrt (body_get_centroid b1) (body_get_centroid b2) < GRAVITY_MIN_DIST) :
    (GRAVITY_MIN_DIST : K) = 5 ∧
      apply_newtonian sqrt (aux_t.const_body aux) bodies =
        some (aux_t.const_body aux, bodies) := by
  refine ⟨rfl, ?_⟩
  unfold apply_newtonian
  simp only [hp1, hp2, hg, h1, h2, if_pos hd]

theorem apply_newtonian_too_close_witness :
    vec_dist Real.sqrt
        (body_get_centroid (square_body (⟨0, 0⟩ : vector_t ℝ) (mass_t.finite 2) ⟨1, 0⟩))
        (body_get_centroid (square_body (⟨3, 0⟩ : vector_t ℝ) mass_t.infinity ⟨0, 0⟩)) <
      GRAVITY_MIN_DIST ∧
    (GRAVITY_MIN_DIST : ℝ) = 5 ∧
    apply_newtonian Real.sqrt (aux_t.const_body ⟨[5], [1, 2], none⟩)
        [(1, square_body ⟨0, 0⟩ (mass_t.finite 2) ⟨1, 0⟩),
          (2, square_body ⟨3, 0⟩ mass_t.infinity ⟨0, 0⟩)] =
      some (aux_t.const_body ⟨[5], [1, 2], none⟩,
        [(1, square_body ⟨0, 0⟩ (mass_t.finite 2) ⟨1, 0⟩),
          (2, square_body ⟨3, 0⟩ mass_t.infinity ⟨0, 0⟩)]) := by
  have hc1 : body_get_centroid (square_body (⟨0, 0⟩ : vector_t ℝ) (mass_t.finite 2) ⟨1, 0⟩) =
      ⟨0, 0⟩ := (square_body_fields _ _ _).2.2.2.2.2.2
  have hc2 : body_get_centroid (square_body (⟨3, 0⟩ : vector_t ℝ) mass_t.infinity ⟨0, 0⟩) =
      ⟨3, 0⟩ := (square_body_fields _ _ _).2.2.2.2.2.2
  have hdist : vec_dist Real.sqrt (⟨0, 0⟩ : vector_t ℝ) ⟨3, 0⟩ = 3 := by
    simp only [vec_dist, vec_norm, vec_subtract, vec_dot]
    rw [show ((0 : ℝ) - 3) * (0 - 3) + (0 - 0) * (0 - 0) = 3 * 3 by norm_num]
    exact Real.sqrt_mul_self (by norm_num)
  have hd : vec_dist Real.sqrt
      (body_get_centroid (square_body (⟨0, 0⟩ : vector_t ℝ) (mass_t.finite 2) ⟨1, 0⟩))
      (body_get_centroid (square_body (⟨3, 0⟩ : vector_t ℝ) mass_t.infinity ⟨0, 0⟩)) <
      GRAVITY_MIN_DIST := by
    rw [hc1, hc2, hdist]; norm_num [GRAVITY_MIN_DIST]
  exact ⟨hd, apply_newtonian_too_close Real.sqrt ⟨[5], [1, 2], none⟩
    [(1, square_body ⟨0, 0⟩ (mass_t.finite 2) ⟨1, 0⟩),
      (2, square_body ⟨3, 0⟩ mass_t.infinity ⟨0, 0⟩)] 1 2 5 rfl rfl rfl
    (square_body ⟨0, 0⟩ (mass_t.finite 2) ⟨1, 0⟩)
    (square_body ⟨3, 0⟩ mass_t.infinity ⟨0, 0⟩) rfl rfl hd⟩

/-! ### forces.c: `apply_drag` under `scene_tick` -/

theorem checked_div_eq (a b r : K) (h : checked_div a b = some r) : a / b = r := by
  unfold checked_div at h
  split at h
  · cases h
  · exact Option.some.inj h

theorem vec_normalize_checked_eq (sqrt : K → K) (u r : vector_t K)
    (h : vec_normalize_checked sqrt u = some r) : vec_normalize sqrt u = r := by
  unfold vec_normalize_checked at h
  unfold vec_normalize
  split at h
  · next h0 => rw [if_pos h0]; exact Option.some.inj h
  · next h0 =>
    rw [if_neg h0]
    cases hq : checked_div 1 (vec_norm sqrt u) with
    | none => rw [hq] at h; cases h
    | some q =>
      rw [hq] at h
      rw [checked_div_eq _ _ _ hq]
      exact Option.some.inj h

theorem vec_scalar_proj_checked_eq (sqrt : K → K) (axis u : vector_t K) (flag : Bool) (r : K)
    (h : vec_scalar_proj_checked sqrt axis u flag = some r) :
    vec_scalar_proj sqrt axis u flag = r := by
  unfold vec_scalar_proj_checked at h
  unfold vec_scalar_proj
  split at h
  · next h0 => rw [if_pos h0]; exact Option.some.inj h
  · next h0 =>
    rw [if_neg h0]
    cases flag with
    | false =>
      simp only [Bool.false_eq_true, if_false] at h ⊢
      exact Option.some.inj h
    | true =>
      simp only [if_true] at h ⊢
      cases hn : vec_normalize_checked sqrt axis with
      | none => rw [hn] at h; cases h
      | some a =>
        rw [hn] at h
        rw [vec_normalize_checked_eq sqrt axis a hn]
        exact Option.some.inj h

theorem vec_vec_proj_checked_eq (axis u : vector_t K) (flag : Bool) (r : vector_t K)
    (h : vec_vec_proj_checked axis u flag = some r) : vec_vec_proj axis u flag = r := by
  unfold vec_vec_proj_checked at h
  unfold vec_vec_proj
  split at h
  · next h0 => rw [if_pos h0]; exact Option.some.inj h
  · next h0 =>
    rw [if_neg h0]
    cases flag with
    | false =>
      simp only [Bool.false_eq_true, if_false] at h ⊢
      exact Option.some.inj h
    | true =>
      simp only [if_true] at h ⊢
      cases hq : checked_div (vec_dot u axis) (vec_dot axis axis) with
      | none => rw [hq] at h; cases h
      | some q =>
        rw [hq] at h
        rw [checked_div_eq _ _ _ hq]
        exact Option.some.inj h

/-- C29: `vec_normalize` of the zero vector is the zero vector, and for the zero axis
`vec_scalar_proj` returns 0 and `vec_vec_proj` the zero vector, for every vector and either
value of the flag, whatever `sqrt` returns.  None of the three divides by zero there: with
every quotient checked, each function returns its result (not `none`, which a quotient by
the norm `sqrt 0` or by `vec_dot axis axis = 0` would give), because it tests for the zero
vector first.  Wherever a checked function returns a result, it is that of the unchecked
one. -/
theorem vec_zero_edge_cases (sqrt : K → K) (v : vector_t K) (normalize : Bool) :
    vec_normalize sqrt (VEC_ZERO : vector_t K) = VEC_ZERO ∧
      vec_scalar_proj sqrt VEC_ZERO v normalize = 0 ∧
      vec_vec_proj VEC_ZERO v normalize = VEC_ZERO ∧
      vec_normalize_checked sqrt (VEC_ZERO : vector_t K) = some VEC_ZERO ∧
      vec_scalar_proj_checked sqrt VEC_ZERO v normalize = some 0 ∧
      vec_vec_proj_checked VEC_ZERO v normalize = some VEC_ZERO ∧
      (∀ u r : vector_t K, vec_normalize_checked sqrt u = some r → vec_normalize sqrt u = r) ∧
      (∀ (axis u : vector_t K) (flag : Bool) (r : K),
        vec_scalar_proj_checked sqrt axis u flag = some r →
          vec_scalar_proj sqrt axis u flag = r) ∧
      (∀ (axis u : vector_t K) (flag : Bool) (r : vector_t K),
        vec_vec_proj_checked axis u flag = some r → vec_vec_proj axis u flag = r) := by
  refine ⟨?_, ?_, ?_, ?_, ?_, ?_, vec_normalize_checked_eq sqrt,
    vec_scalar_proj_checked_eq sqrt, vec_vec_proj_checked_eq⟩
  · simp [vec_normalize, VEC_ZERO]
  · simp [vec_scalar_proj, VEC_ZERO]
  · simp [vec_vec_proj, VEC_ZERO]
  · simp [vec_normalize_checked, VEC_ZERO]
  · simp [vec_scalar_proj_checked, VEC_ZERO]
  · simp [vec_vec_proj_checked, VEC_ZERO]

/-- Away from the zero vector the quotient of `vec_normalize` is checked and evaluated: over
the reals the norm of `(3, 4)` is 5 and the result is `(3/5, 4/5)`; without the test for the
zero vector the checked quotient by `Real.sqrt 0` would be `none`. -/
theorem vec_zero_edge_cases_witness :
    vec_normalize_checked Real.sqrt ⟨3, 4⟩ = some ⟨1 / 5 * 3, 1 / 5 * 4⟩ ∧
      vec_normalize Real.sqrt ⟨3, 4⟩ = ⟨1 / 5 * 3, 1 / 5 * 4⟩ ∧
      checked_div 1 (vec_norm Real.sqrt (VEC_ZERO : vector_t ℝ)) = none := by
  have h5 : Real.sqrt 25 = 5 := by
    rw [show (25 : ℝ) = 5 * 5 by norm_num]
    exact Real.sqrt_mul_self (by norm_num)
  have hn : vec_norm Real.sqrt (⟨3, 4⟩ : vector_t ℝ) = 5 := by
    simp only [vec_norm, vec_dot]
    rw [show (3 : ℝ) * 3 + 4 * 4 = 25 by norm_num, h5]
  have hc : vec_normalize_checked Real.sqrt (⟨3, 4⟩ : vector_t ℝ) =
      some ⟨1 / 5 * 3, 1 / 5 * 4⟩ := by
    simp [vec_normalize_checked, checked_div, hn, vec_multiply]
  refine ⟨hc, (vec_zero_edge_cases Real.sqrt ⟨0, 0⟩ true).2.2.2.2.2.2.1 _ _ hc, ?_⟩
  simp [checked_div, vec_norm, vec_dot, VEC_ZERO]

/-! ### body.c: the removed flag -/

theorem body_op_apply_is_removed (cos sin : K → K) (b : body K) (op : body_op K)
    (h : body_is_removed b = true) : body_is_removed (body_op.apply cos sin b op) = true := by
  cases op <;> first
    | exact h
    | rfl

theorem body_run_is_removed (cos sin : K → K) (ops : List (body_op K)) :
    ∀ b : body K, body_is_removed b = true → body_is_removed (body_run cos sin b ops) = true := by
  induction ops with
  | nil => intro b h; exact h
  | cons op ops ih =>
    intro b h
    exact ih _ (body_op_apply_is_removed cos sin b op h)

/-- C27: after `body_remove`, `body_is_removed` returns true after every sequence of calls
of `body_set_centroid`, `body_set_rotation`, `body_set_velocity`, `body_set_color`,
`body_add_force`, `body_add_impulse`, `body_tick` and `body_remove`; and a body that
`body_init_with_info` or `body_init` returns is not flagged removed. -/
theorem body_removed_is_final (cos sin : K → K) (b : body K) (ops : List (body_op K))
    (shape : List (vector_t K)) (mass : mass_t K) (color : rgb_color_t K) (info : Nat) :
    body_is_removed (body_run cos sin (body_remove b) ops) = true ∧
      body_is_removed (body_init_with_info shape mass color info) = false ∧
      body_is_removed (body_init shape mass color) = false :=
  ⟨body_run_is_removed cos sin ops (body_remove b) rfl, rfl, rfl⟩

/-! ### scene.c: `scene_remove_body` -/

omit [LinearOrderedField K] in
/-- C26: for an index below the body count, `scene_remove_body` returns, and the scene it
leaves has the same effects, the same number of bodies at the same addresses in the same
order, every body at another index as it was, and at the index the body it had there with
the removed flag set and every other field as it was; `scene_get_body` returns the same
pointer as before. -/
theorem scene_remove_body_frame {α : Type} (scene : scene_t K α) (index : Nat)
    (h : index < scene_bodies scene) :
    ∃ (scene1 : scene_t K α) (ptr : Nat) (b : body K),
      scene_remove_body scene index = some scene1 ∧
      list_get scene.bodies index = some (ptr, b) ∧
      scene1.forces = scene.forces ∧
      scene_bodies scene1 = scene_bodies scene ∧
      scene1.bodies.map Prod.fst = scene.bodies.map Prod.fst ∧
      (∀ j, j ≠ index → list_get scene1.bodies j = list_get scene.bodies j) ∧
      list_get scene1.bodies index = some (ptr, { b with is_removed := true }) ∧
      scene_get_body scene1 index = some ptr ∧
      scene_get_body scene index = some ptr := by
  have h0 : index < scene.bodies.length := h
  have hget : list_get scene.bodies index = some scene.bodies[index] := by
    simp [list_get, h0]
  refine ⟨⟨scene.bodies.set index (scene.bodies[index].1, body_remove scene.bodies[index].2),
      scene.forces⟩,
    scene.bodies[index].1, scene.bodies[index].2, ?_, hget, rfl, ?_, ?_, ?_, ?_, ?_, ?_⟩
  · simp [scene_remove_body, h0, hget]
  · simp [scene_bodies]
  · apply List.ext_getElem
    · simp
    · intro n h1 h2
      simp only [List.getElem_map, List.getElem_set]
      split
      · next heq => subst heq; rfl
      · rfl
  · intro j hj
    simp only [list_get, List.length_set]
    split
    · next hlt =>
      simp [List.getElem?_set, Ne.symm hj]
    · rfl
  · simp [list_get, h0, body_remove]
  · simp [scene_get_body, list_get, h0]
  · simp [scene_get_body, list_get, h0]

theorem scene_remove_body_frame_witness :
    ∃ (scene1 : scene_t ℝ (aux_t ℝ)) (ptr : Nat) (b : body ℝ),
      scene_remove_body (create_drag (scene_add_body (scene_add_body (scene_init : scene_t ℝ (aux_t ℝ)) 1
        (square_body ⟨0, 0⟩ (mass_t.finite 1) ⟨1, 0⟩)) 2
        (square_body ⟨5, 0⟩ (mass_t.finite 1) ⟨0, 0⟩)) 3 1) 1 = some scene1 ∧
      list_get (create_drag (scene_add_body (scene_add_body (scene_init : scene_t ℝ (aux_t ℝ)) 1
        (square_body ⟨0, 0⟩ (mass_t.finite 1) ⟨1, 0⟩)) 2
        (square_body ⟨5, 0⟩ (mass_t.finite 1) ⟨0, 0⟩)) 3 1).bodies 1 = some (ptr, b) ∧
      scene1.forces = (create_drag (scene_add_body (scene_add_body (scene_init : scene_t ℝ (aux_t ℝ)) 1
        (square_body ⟨0, 0⟩ (mass_t.finite 1) ⟨1, 0⟩)) 2
        (square_body ⟨5, 0⟩ (mass_t.finite 1) ⟨0, 0⟩)) 3 1).forces ∧
      scene_bodies scene1 = scene_bodies (create_drag (scene_add_body (scene_add_body
        (scene_init : scene_t ℝ (aux_t ℝ)) 1 (square_body ⟨0, 0⟩ (mass_t.finite 1) ⟨1, 0⟩)) 2
        (square_body ⟨5, 0⟩ (mass_t.finite 1) ⟨0, 0⟩)) 3 1) ∧
      scene1.bodies.map Prod.fst = (create_drag (scene_add_body (scene_add_body (scene_init : scene_t ℝ (aux_t ℝ)) 1
        (square_body ⟨0, 0⟩ (mass_t.finite 1) ⟨1, 0⟩)) 2
        (square_body ⟨5, 0⟩ (mass_t.finite 1) ⟨0, 0⟩)) 3 1).bodies.map Prod.fst ∧
      (∀ j, j ≠ 1 → list_get scene1.bodies j = list_get (create_drag (scene_add_body
        (scene_add_body (scene_init : scene_t ℝ (aux_t ℝ)) 1 (square_body ⟨0, 0⟩ (mass_t.finite 1) ⟨1, 0⟩)) 2
        (square_body ⟨5, 0⟩ (mass_t.finite 1) ⟨0, 0⟩)) 3 1).bodies j) ∧
      list_get scene1.bodies 1 = some (ptr, { b with is_removed := true }) ∧
      scene_get_body scene1 1 = some ptr ∧
      scene_get_body (create_drag (scene_add_body (scene_add_body (scene_init : scene_t ℝ (aux_t ℝ)) 1
        (square_body ⟨0, 0⟩ (mass_t.finite 1) ⟨1, 0⟩)) 2
        (square_body ⟨5, 0⟩ (mass_t.finite 1) ⟨0, 0⟩)) 3 1) 1 = some ptr :=
  scene_remove_body_frame _ 1 (by decide)

/-! ### forces.c: `apply_spring` -/

/-- C22: for two bodies with centroids `c1` and `c2`, `apply_spring` with the constant `k`
returns, adds the force `k * (c2 - c1)` to body1 and `k * (c1 - c2)` to body2 and leaves every
other body as it was; the two added forces sum to zero and are zero when the centroids
coincide. -/
theorem apply_spring_force (aux : const_body_aux_t K) (bodies : bodies_t K) (p1 p2 : Nat)
    (hne : p1 ≠ p2) (k : K)
    (hp1 : list_get aux.bodies 0 = some p1) (hp2 : list_get aux.bodies 1 = some p2)
    (hk : list_get aux.consts 0 = some k) (b1 b2 : body K)
    (h1 : body_deref bodies p1 = some b1) (h2 : body_deref bodies p2 = some b2) :
    ∃ bodies1,
      apply_spring (aux_t.const_body aux) bodies = some (aux_t.const_body aux, bodies1) ∧
      body_deref bodies1 p1 = some (body_add_force b1
        (vec_multiply k (vec_subtract (body_get_centroid b2) (body_get_centroid b1)))) ∧
      body_deref bodies1 p2 = some (body_add_force b2
        (vec_multiply k (vec_subtract (body_get_centroid b1) (body_get_centroid b2)))) ∧
      (∀ q, q ≠ p1 → q ≠ p2 → body_deref bodies1 q = body_deref bodies q) ∧
      vec_add (vec_multiply k (vec_subtract (body_get_centroid b2) (body_get_centroid b1)))
        (vec_multiply k (vec_subtract (body_get_centroid b1) (body_get_centroid b2))) =
        VEC_ZERO ∧
      (body_get_centroid b1 = body_get_centroid b2 →
        vec_multiply k (vec_subtract (body_get_centroid b2) (body_get_centroid b1)) =
          VEC_ZERO) := by
  have h3 : ∀ f : body K → body K, body_deref (body_update bodies p1 f) p2 = some b2 := by
    intro f
    rw [body_deref_update_other _ _ _ _ (Ne.symm hne), h2]
  refine ⟨body_update (body_update bodies p1
      (fun b => body_add_force b
        (vec_multiply k (vec_subtract (body_get_centroid b2) (body_get_centroid b1))))) p2
      (fun b => body_add_force b
        (vec_multiply k
          (vec_negate (vec_subtract (body_get_centroid b2) (body_get_centroid b1))))),
    ?_, ?_, ?_, ?_, ?_, ?_⟩
  · unfold apply_spring
    simp only [hp1, hp2, hk, h1, h2]
    rw [body_write_eq _ _ _ b1 h1]
    simp only []
    rw [body_write_eq _ _ _ b2 (h3 _)]
  · rw [body_deref_update_other _ _ _ _ hne, body_deref_update_same _ _ _ _ h1]
  · rw [body_deref_update_same _ _ _ b2 (h3 _)]
    congr 2
    ext <;> simp only [vec_multiply, vec_subtract, vec_negate] <;> ring
  · intro q hq1 hq2
    rw [body_deref_update_other _ _ _ _ hq2, body_deref_update_other _ _ _ _ hq1]
  · ext <;> simp only [vec_add, vec_multiply, vec_subtract, VEC_ZERO] <;> ring
  · intro hc
    rw [hc]
    ext <;> simp [vec_multiply, vec_subtract, VEC_ZERO]

theorem apply_spring_force_witness :
    ∃ bodies1,
      apply_spring (aux_t.const_body ⟨[3], [1, 2], none⟩)
          [(1, square_body ⟨0, 0⟩ (mass_t.finite (2 : ℝ)) ⟨0, 0⟩),
            (2, square_body ⟨4, 2⟩ mass_t.infinity ⟨0, 0⟩)] =
        some (aux_t.const_body ⟨[3], [1, 2], none⟩, bodies1) ∧
      body_deref bodies1 1 =
        some (body_add_force (square_body ⟨0, 0⟩ (mass_t.finite 2) ⟨0, 0⟩) ⟨12, 6⟩) ∧
      body_deref bodies1 2 =
        some (body_add_force (square_body ⟨4, 2⟩ mass_t.infinity ⟨0, 0⟩) ⟨-12, -6⟩) := by
  have hc1 : body_get_centroid (square_body (⟨0, 0⟩ : vector_t ℝ) (mass_t.finite 2) ⟨0, 0⟩) =
      ⟨0, 0⟩ := (square_body_fields _ _ _).2.2.2.2.2.2
  have hc2 : body_get_centroid (square_body (⟨4, 2⟩ : vector_t ℝ) mass_t.infinity ⟨0, 0⟩) =
      ⟨4, 2⟩ := (square_body_fields _ _ _).2.2.2.2.2.2
  obtain ⟨bodies1, h0, h1, h2, _⟩ :=
    apply_spring_force (⟨[3], [1, 2], none⟩ : const_body_aux_t ℝ)
      [(1, square_body ⟨0, 0⟩ (mass_t.finite 2) ⟨0, 0⟩),
        (2, square_body ⟨4, 2⟩ mass_t.infinity ⟨0, 0⟩)]
      1 2 (by decide) 3 rfl rfl rfl
      (square_body ⟨0, 0⟩ (mass_t.finite 2) ⟨0, 0⟩)
      (square_body ⟨4, 2⟩ mass_t.infinity ⟨0, 0⟩) rfl rfl
  refine ⟨bodies1, h0, ?_, ?_⟩
  · rw [h1, hc1, hc2]
    norm_num [vec_multiply, vec_subtract]
  · rw [h2, hc1, hc2]
    norm_num [vec_multiply, vec_subtract]

/-! ### body.c: `body_set_rotation` -/

/-- C25 (as amended): when body1, body2 and the third body are three different bodies,
`apply_speed_boost_collision` returns, flags body1 removed and changes no other field of it,
leaves body2 as it was, replaces the velocity of the third body by `boost_factor` times its
velocity and changes no other field of it, and leaves every other body as it was. -/
theorem apply_speed_boost_collision_frame (p1 p2 p3 : Nat) (axis : vector_t K)
    (aux : const_body_aux_t K) (bodies : bodies_t K) (boost_factor : K)
    (h12 : p1 ≠ p2) (h13 : p3 ≠ p1) (h23 : p3 ≠ p2)
    (hc : list_get aux.consts 0 = some boost_factor) (hb : list_get aux.bodies 2 = some p3)
    (b1 b2 b3 : body K) (h1 : body_deref bodies p1 = some b1)
    (h2 : body_deref bodies p2 = some b2) (h3 : body_deref bodies p3 = some b3) :
    ∃ bodies1,
      apply_speed_boost_collision p1 p2 axis aux bodies = some (aux, bodies1) ∧
      body_deref bodies1 p1 = some { b1 with is_removed := true } ∧
      body_deref bodies1 p2 = some b2 ∧
      body_deref bodies1 p3 =
        some { b3 with velocity := vec_multiply boost_factor (body_get_velocity b3) } ∧
      ∀ q, q ≠ p1 → q ≠ p3 → body_deref bodies1 q = body_deref bodies q := by
  have h4 : body_deref (body_update bodies p1 body_remove) p3 = some b3 := by
    rw [body_deref_update_other _ _ _ _ h13, h3]
  refine ⟨body_update (body_update bodies p1 body_remove) p3
      (fun b => body_set_velocity b (vec_multiply boost_factor (body_get_velocity b3))),
    ?_, ?_, ?_, ?_, ?_⟩
  · unfold apply_speed_boost_collision
    rw [body_write_eq _ _ _ b1 h1]
    simp only [hc, hb, h4]
    rw [body_write_eq _ _ _ b3 h4]
  · rw [body_deref_update_other _ _ _ _ (Ne.symm h13), body_deref_update_same _ _ _ _ h1]
    rfl
  · rw [body_deref_update_other _ _ _ _ (Ne.symm h23),
      body_deref_update_other _ _ _ _ (Ne.symm h12), h2]
  · rw [body_deref_update_same _ _ _ b3 h4]
    rfl
  · intro q hq1 hq3
    rw [body_deref_update_other _ _ _ _ hq3, body_deref_update_other _ _ _ _ hq1]

theorem apply_speed_boost_collision_frame_witness :
    ∃ bodies1,
      apply_speed_boost_collision 1 2 ⟨1, 0⟩ ⟨[2], [1, 2, 3], none⟩
          [(1, square_body ⟨0, 0⟩ (mass_t.finite (1 : ℝ)) ⟨0, 0⟩),
            (2, square_body ⟨1, 0⟩ (mass_t.finite 1) ⟨-1, 0⟩),
            (3, square_body ⟨0, 5⟩ (mass_t.finite 1) ⟨3, 4⟩)] =
        some (⟨[2], [1, 2, 3], none⟩, bodies1) ∧
      body_deref bodies1 1 =
        some { square_body ⟨0, 0⟩ (mass_t.finite (1 : ℝ)) ⟨0, 0⟩ with is_removed := true } ∧
      body_deref bodies1 2 = some (square_body ⟨1, 0⟩ (mass_t.finite 1) ⟨-1, 0⟩) ∧
      body_deref bodies1 3 = some (square_body ⟨0, 5⟩ (mass_t.finite 1) ⟨6, 8⟩) := by
  obtain ⟨bodies1, h0, h1, h2, h3, _⟩ :=
    apply_speed_boost_collision_frame 1 2 3 (⟨1, 0⟩ : vector_t ℝ) ⟨[2], [1, 2, 3], none⟩
      [(1, square_body ⟨0, 0⟩ (mass_t.finite (1 : ℝ)) ⟨0, 0⟩),
        (2, square_body ⟨1, 0⟩ (mass_t.finite 1) ⟨-1, 0⟩),
        (3, square_body ⟨0, 5⟩ (mass_t.finite 1) ⟨3, 4⟩)] 2
      (by decide) (by decide) (by decide) rfl rfl
      (square_body ⟨0, 0⟩ (mass_t.finite 1) ⟨0, 0⟩)
      (square_body ⟨1, 0⟩ (mass_t.finite 1) ⟨-1, 0⟩)
      (square_body ⟨0, 5⟩ (mass_t.finite 1) ⟨3, 4⟩) rfl rfl rfl
  refine ⟨bodies1, h0, h1, h2, ?_⟩
  rw [h3]
  simp only [square_body, body_set_velocity, body_get_velocity, vec_multiply]
  norm_num

/-- C25 (as stated, refuted): the call `breakout.c` registers passes the ball as body2 and
as the third body.  With body2 of velocity `(3, 4)` also the third body and the factor 2,
`apply_speed_boost_collision` leaves body2 with the velocity `(6, 8)`, not with the
velocity it had. -/
theorem speed_boost_third_is_body2 :
    ∃ bodies1 c2,
      apply_speed_boost_collision 1 2 ⟨1, 0⟩ ⟨[2], [1, 2, 2], none⟩
          [(1, square_body ⟨0, 0⟩ (mass_t.finite (1 : ℝ)) ⟨0, 0⟩),
            (2, square_body ⟨1, 0⟩ (mass_t.finite 1) ⟨3, 4⟩)] =
        some (⟨[2], [1, 2, 2], none⟩, bodies1) ∧
      body_deref bodies1 2 = some c2 ∧
      body_get_velocity c2 = ⟨6, 8⟩ ∧
      body_get_velocity c2 ≠
        body_get_velocity (square_body ⟨1, 0⟩ (mass_t.finite (1 : ℝ)) ⟨3, 4⟩) := by
  have h4 : body_deref (body_update
      [(1, square_body ⟨0, 0⟩ (mass_t.finite (1 : ℝ)) ⟨0, 0⟩),
        (2, square_body ⟨1, 0⟩ (mass_t.finite 1) ⟨3, 4⟩)] 1 body_remove) 2 =
      some (square_body ⟨1, 0⟩ (mass_t.finite 1) ⟨3, 4⟩) := by
    rw [body_deref_update_other _ _ _ _ (by decide)]
    rfl
  have hv : vec_multiply (2 : ℝ)
      (body_get_velocity (square_body ⟨1, 0⟩ (mass_t.finite (1 : ℝ)) ⟨3, 4⟩)) = ⟨6, 8⟩ := by
    simp only [square_body, body_set_velocity, body_get_velocity, vec_multiply]
    norm_num
  refine ⟨body_update (body_update
      [(1, square_body ⟨0, 0⟩ (mass_t.finite (1 : ℝ)) ⟨0, 0⟩),
        (2, square_body ⟨1, 0⟩ (mass_t.finite 1) ⟨3, 4⟩)] 1 body_remove) 2
      (fun b => body_set_velocity b (vec_multiply 2
        (body_get_velocity (square_body ⟨1, 0⟩ (mass_t.finite (1 : ℝ)) ⟨3, 4⟩)))),
    body_set_velocity (square_body ⟨1, 0⟩ (mass_t.finite 1) ⟨3, 4⟩) (vec_multiply 2
        (body_get_velocity (square_body ⟨1, 0⟩ (mass_t.finite (1 : ℝ)) ⟨3, 4⟩))),
    ?_, ?_, ?_, ?_⟩
  · unfold apply_speed_boost_collision
    have h1 : body_deref [(1, square_body ⟨0, 0⟩ (mass_t.finite (1 : ℝ)) ⟨0, 0⟩),
        (2, square_body ⟨1, 0⟩ (mass_t.finite 1) ⟨3, 4⟩)] 1 =
        some (square_body ⟨0, 0⟩ (mass_t.finite 1) ⟨0, 0⟩) := rfl
    rw [body_write_eq _ _ _ _ h1]
    have hc : list_get (⟨[2], [1, 2, 2], none⟩ : const_body_aux_t ℝ).consts 0 = some 2 := rfl
    have hb : list_get (⟨[2], [1, 2, 2], none⟩ : const_body_aux_t ℝ).bodies 2 = some 2 := rfl
    simp only [hc, hb, h4]
    rw [body_write_eq _ _ _ _ h4]
  · rw [body_deref_update_same _ _ _ _ h4]
  · exact hv
  · show vec_multiply (2 : ℝ) _ ≠ _
    rw [hv]
    simp [square_body, body_set_velocity, body_get_velocity]


/-! ### scene.c: `scene_tick` returns -/

omit [LinearOrderedField K] in
theorem list_remove_lt {β : Type} (l : List β) (i : Nat) (hi : i < l.length) :
    list_remove l i = some (l[i], l.eraseIdx i) ∧ (l.eraseIdx i).length + 1 = l.length := by
  constructor
  · have h0 : l.length ≠ 0 := by omega
    simp [list_remove, hi, h0]
  · rw [List.length_eraseIdx, if_pos hi]
    omega

theorem scene_tick_bodies_step (dt : K) (bodies : bodies_t K) (i : Nat)
    (hi : i < bodies.length) :
    ∃ (i1 : Nat) (bodies1 : bodies_t K),
      ((i1 = i ∧ bodies1.length + 1 = bodies.length) ∨
        (i1 = i + 1 ∧ bodies1.length = bodies.length)) ∧
      ∀ fuel, scene_tick_bodies dt (fuel + 1) i bodies = scene_tick_bodies dt fuel i1 bodies1 := by
  have hget : list_get bodies i = some bodies[i] := by simp [list_get, hi]
  by_cases hr : body_is_removed bodies[i].2 = true
  · refine ⟨i, bodies.eraseIdx i, Or.inl ⟨rfl, (list_remove_lt bodies i hi).2⟩, ?_⟩
    intro fuel
    rw [scene_tick_bodies, if_pos hi]
    simp only [hget, hr, if_true, (list_remove_lt bodies i hi).1]
  · refine ⟨i + 1, bodies.set i (bodies[i].1, body_tick bodies[i].2 dt),
      Or.inr ⟨rfl, by simp⟩, ?_⟩
    intro fuel
    rw [scene_tick_bodies, if_pos hi]
    simp only [hget, hr, if_false]
    rfl

omit [LinearOrderedField K] in
theorem scene_tick_forces_step {α : Type} (forces : List (force_t K α)) (j : Nat)
    (hj : j < forces.length) :
    ∃ (j1 : Nat) (forces1 : List (force_t K α)),
      ((j1 = j ∧ forces1.length + 1 = forces.length) ∨
        (j1 = j + 1 ∧ forces1.length = forces.length)) ∧
      ∀ fuel, scene_tick_forces (fuel + 1) j forces = scene_tick_forces fuel j1 forces1 := by
  have hget : list_get forces j = some forces[j] := by simp [list_get, hj]
  by_cases hr : force_is_removed forces[j] = true
  · refine ⟨j, forces.eraseIdx j, Or.inl ⟨rfl, (list_remove_lt forces j hj).2⟩, ?_⟩
    intro fuel
    rw [scene_tick_forces, if_pos hj]
    simp only [hget, hr, if_true, (list_remove_lt forces j hj).1]
  · refine ⟨j + 1, forces, Or.inr ⟨rfl, rfl⟩, ?_⟩
    intro fuel
    rw [scene_tick_forces, if_pos hj]
    simp only [hget, hr, if_false]
    rfl

/-- C28: when every force creator of the scene returns and every body a force depends on
is still in the scene, `scene_tick` returns.  The two `for` loops over the forces take
`num_forces` iterations, the number of forces read before the first loop, and leave that many
forces.  An iteration of the body sweep, and of the force sweep, at an index below the size
either removes one element and keeps the index or keeps the list size and advances the index
by one, so the size minus the index goes down by one; at an index not below the size the
sweep returns. -/
theorem scene_tick_terminates {α : Type} (scene : scene_t K α) (dt : K)
    (forces1 : List (force_t K α)) (bodies1 : bodies_t K)
    (happly : scene_tick_apply scene.forces.length 0 scene.forces scene.bodies =
      some (forces1, bodies1))
    (hlive : ∀ force ∈ forces1, ∀ p ∈ force.bodies, ∃ b, body_deref bodies1 p = some b) :
    (∃ scene1, scene_tick scene dt = some scene1) ∧
      forces1.length = scene.forces.length ∧
      (∃ forces2, scene_tick_mark bodies1 scene.forces.length 0 forces1 = some forces2 ∧
        forces2.length = scene.forces.length) ∧
      (∀ (bodies : bodies_t K) (i : Nat), i < bodies.length →
        ∃ (i1 : Nat) (bodies2 : bodies_t K),
          ((i1 = i ∧ bodies2.length + 1 = bodies.length) ∨
            (i1 = i + 1 ∧ bodies2.length = bodies.length)) ∧
          ∀ fuel, scene_tick_bodies dt (fuel + 1) i bodies =
            scene_tick_bodies dt fuel i1 bodies2) ∧
      (∀ (bodies : bodies_t K) (i fuel : Nat), bodies.length ≤ i →
        scene_tick_bodies dt fuel i bodies = some bodies) ∧
      (∀ (forces : List (force_t K α)) (j : Nat), j < forces.length →
        ∃ (j1 : Nat) (forces2 : List (force_t K α)),
          ((j1 = j ∧ forces2.length + 1 = forces.length) ∨
            (j1 = j + 1 ∧ forces2.length = forces.length)) ∧
          ∀ fuel, scene_tick_forces (fuel + 1) j forces = scene_tick_forces fuel j1 forces2) ∧
      (∀ (forces : List (force_t K α)) (j fuel : Nat), forces.length ≤ j →
        scene_tick_forces fuel j forces = some forces) := by
  have hlen : forces1.length = scene.forces.length :=
    scene_tick_apply_length _ _ _ _ _ _ happly
  refine ⟨⟨_, scene_tick_eq scene dt forces1 bodies1 happly hlive⟩, hlen, ?_,
    fun bodies i hi => scene_tick_bodies_step dt bodies i hi, ?_,
    fun forces j hj => scene_tick_forces_step forces j hj, ?_⟩
  · have h := scene_tick_mark_eq bodies1 forces1 [] hlive
    rw [hlen] at h
    exact ⟨_, h, by simp [hlen]⟩
  · intro bodies i fuel hi
    cases fuel <;> simp [scene_tick_bodies, Nat.not_lt.mpr hi]
  · intro forces j fuel hj
    cases fuel <;> simp [scene_tick_forces, Nat.not_lt.mpr hj]

theorem scene_tick_terminates_witness :
    (∃ scene1, scene_tick (create_drag (scene_add_body (scene_init : scene_t ℝ (aux_t ℝ)) 1
        (square_body ⟨0, 0⟩ (mass_t.finite 2) ⟨1, 0⟩)) 3 1) (1 / 2) = some scene1) ∧
      ∃ forces2, scene_tick_mark
          [(1, body_add_force (square_body ⟨0, 0⟩ (mass_t.finite (2 : ℝ)) ⟨1, 0⟩) ⟨-3, 0⟩)] 1 0
          (create_drag (scene_add_body (scene_init : scene_t ℝ (aux_t ℝ)) 1
            (square_body ⟨0, 0⟩ (mass_t.finite 2) ⟨1, 0⟩)) 3 1).forces = some forces2 ∧
        forces2.length = 1 := by
  have happly : scene_tick_apply
      (create_drag (scene_add_body (scene_init : scene_t ℝ (aux_t ℝ)) 1
        (square_body ⟨0, 0⟩ (mass_t.finite 2) ⟨1, 0⟩)) 3 1).forces.length 0
      (create_drag (scene_add_body (scene_init : scene_t ℝ (aux_t ℝ)) 1
        (square_body ⟨0, 0⟩ (mass_t.finite 2) ⟨1, 0⟩)) 3 1).forces
      (create_drag (scene_add_body (scene_init : scene_t ℝ (aux_t ℝ)) 1
        (square_body ⟨0, 0⟩ (mass_t.finite 2) ⟨1, 0⟩)) 3 1).bodies =
      some ((create_drag (scene_add_body (scene_init : scene_t ℝ (aux_t ℝ)) 1
          (square_body ⟨0, 0⟩ (mass_t.finite 2) ⟨1, 0⟩)) 3 1).forces,
        [(1, body_add_force (square_body ⟨0, 0⟩ (mass_t.finite (2 : ℝ)) ⟨1, 0⟩) ⟨-3, 0⟩)]) := by
    simp [create_drag, scene_add_body, scene_init, scene_add_bodies_force_creator, list_add,
      const_body_aux_init, scene_tick_apply, list_get, apply_drag, body_deref, body_write,
      body_update, body_get_velocity, vec_multiply, square_body, body_set_velocity]
  have h := scene_tick_terminates
    (create_drag (scene_add_body (scene_init : scene_t ℝ (aux_t ℝ)) 1
      (square_body ⟨0, 0⟩ (mass_t.finite 2) ⟨1, 0⟩)) 3 1) (1 / 2) _ _ happly
    (by
      intro force hforce q hq
      simp [create_drag, scene_add_body, scene_init, scene_add_bodies_force_creator, list_add,
        const_body_aux_init] at hforce
      subst hforce
      simp at hq
      subst hq
      exact ⟨body_add_force (square_body ⟨0, 0⟩ (mass_t.finite (2 : ℝ)) ⟨1, 0⟩) ⟨-3, 0⟩,
        by simp [body_deref]⟩)
  exact ⟨h.1, h.2.2.1⟩


/-! ### forces.c: `apply_color_increment_collision` -/

omit [LinearOrderedField K] in
theorem body_update_update (bodies : bodies_t K) (p : Nat) (f g : body K → body K) :
    body_update (body_update bodies p f) p g = body_update bodies p (fun b => g (f b)) := by
  simp only [body_update, List.map_map]
  apply List.map_congr_left
  intro e _
  by_cases h : e.1 = p <;> simp [h]

omit [LinearOrderedField K] in
theorem body_update_id (bodies : bodies_t K) (p : Nat) :
    body_update bodies p (fun b => b) = bodies := by
  simp only [body_update]
  conv_rhs => rw [← List.map_id bodies]
  apply List.map_congr_left
  intro e _
  by_cases h : e.1 = p
  · rw [if_pos h]
    rfl
  · rw [if_neg h]
    rfl

omit [LinearOrderedField K] in
theorem list_get_lt {β : Type} (l : List β) (i : Nat) (hi : i < l.length) :
    list_get l i = some l[i] := by
  simp [list_get, hi]

omit [LinearOrderedField K] in
theorem color_match_iff (c d : rgb_color_t K) :
    (c.b = d.b ∧ c.g = d.g ∧ c.r = d.r) ↔ d = c := by
  constructor
  · rintro ⟨hb, hg, hr⟩
    ext
    · exact hr.symm
    · exact hg.symm
    · exact hb.symm
  · intro h
    subst h
    exact ⟨rfl, rfl, rfl⟩

/-- The loop of `apply_color_increment_collision` returns, and writes to body2 only. -/
theorem apply_color_increment_loop_returns (color_list : List (rgb_color_t K))
    (c : rgb_color_t K) (p2 : Nat) (left : Nat) :
    ∀ (i counter : Nat) (bodies : bodies_t K), i + left = color_list.length →
      (∃ b, body_deref bodies p2 = some b) →
      ∃ (counter1 : Nat) (f : body K → body K),
        apply_color_increment_loop color_list c p2 left i counter bodies =
          some (counter1, body_update bodies p2 f) := by
  induction left with
  | zero =>
    intro i counter bodies _ _
    exact ⟨counter, fun b => b, by rw [body_update_id]; rfl⟩
  | succ left ih =>
    intro i counter bodies hlen hb
    obtain ⟨b, hb⟩ := hb
    have hi : i < color_list.length := by omega
    rw [apply_color_increment_loop, list_get_lt _ _ hi]
    simp only []
    split
    · split
      · next hlt =>
        have hi1 : i + 1 < color_list.length := by omega
        rw [list_get_lt _ _ hi1]
        simp only []
        rw [body_write_eq _ _ _ b hb]
        simp only []
        obtain ⟨counter1, f, h⟩ := ih (i + 1) (counter + 1)
          (body_update bodies p2 (fun b => body_set_color b color_list[i + 1])) (by omega)
          ⟨_, body_deref_update_same _ _ _ b hb⟩
        exact ⟨counter1, _, by rw [h, body_update_update]⟩
      · rw [body_write_eq _ _ _ b hb]
        simp only []
        obtain ⟨counter1, f, h⟩ := ih (i + 1) (counter + 1)
          (body_update bodies p2 body_remove) (by omega)
          ⟨_, body_deref_update_same _ _ _ b hb⟩
        exact ⟨counter1, _, by rw [h, body_update_update]⟩
    · exact ih (i + 1) counter bodies (by omega) ⟨b, hb⟩

/-- From an index on from which no entry equals the colour, the loop changes nothing. -/
theorem apply_color_increment_loop_skip (color_list : List (rgb_color_t K))
    (c : rgb_color_t K) (p2 : Nat) (left : Nat) :
    ∀ (i counter : Nat) (bodies : bodies_t K), i + left = color_list.length →
      (∀ j, i ≤ j → list_get color_list j ≠ some c) →
      apply_color_increment_loop color_list c p2 left i counter bodies =
        some (counter, bodies) := by
  induction left with
  | zero =>
    intro i counter bodies _ _
    rfl
  | succ left ih =>
    intro i counter bodies hlen hno
    have hi : i < color_list.length := by omega
    have hne : ¬ (c.b = color_list[i].b ∧ c.g = color_list[i].g ∧ c.r = color_list[i].r) := by
      rw [color_match_iff]
      intro h
      exact hno i (le_refl i) (by rw [list_get_lt _ _ hi, h])
    rw [apply_color_increment_loop, list_get_lt _ _ hi]
    simp only []
    rw [if_neg hne]
    exact ih (i + 1) counter bodies (by omega) (fun j hj => hno j (by omega))

/-- Up to the first index whose entry equals the colour, the loop changes nothing. -/
theorem apply_color_increment_loop_to (color_list : List (rgb_color_t K))
    (c : rgb_color_t K) (p2 : Nat) (k : Nat) (hk : k < color_list.length) (left : Nat) :
    ∀ (i counter : Nat) (bodies : bodies_t K), i + left = color_list.length → i ≤ k →
      (∀ j, i ≤ j → j < k → list_get color_list j ≠ some c) →
      apply_color_increment_loop color_list c p2 left i counter bodies =
        apply_color_increment_loop color_list c p2 (color_list.length - k) k counter bodies := by
  induction left with
  | zero =>
    intro i counter bodies hlen hik _
    omega
  | succ left ih =>
    intro i counter bodies hlen hik hno
    rcases Nat.eq_or_lt_of_le hik with heq | hlt
    · subst heq
      congr 1
      omega
    · have hi : i < color_list.length := by omega
      have hne : ¬ (c.b = color_list[i].b ∧ c.g = color_list[i].g ∧
          c.r = color_list[i].r) := by
        rw [color_match_iff]
        intro h
        exact hno i (le_refl i) hlt (by rw [list_get_lt _ _ hi, h])
      rw [apply_color_increment_loop, list_get_lt _ _ hi]
      simp only []
      rw [if_neg hne]
      exact ih (i + 1) counter bodies (by omega) (by omega)
        (fun j hj hjk => hno j (by omega) hjk)

/-- When the entry at `k`, not the last, is the only one equal to the colour, the loop
counts one match and sets the colour of body2 to the entry after it. -/
theorem apply_color_increment_loop_next (color_list : List (rgb_color_t K))
    (c : rgb_color_t K) (p2 : Nat) (k : Nat) (hk : k + 1 < color_list.length)
    (hc : list_get color_list k = some c)
    (huniq : ∀ j, list_get color_list j = some c → j = k)
    (bodies : bodies_t K) (b : body K) (hb : body_deref bodies p2 = some b) :
    apply_color_increment_loop color_list c p2 color_list.length 0 0 bodies =
      some (1, body_update bodies p2 (fun b => body_set_color b color_list[k + 1])) := by
  have hk0 : k < color_list.length := by omega
  have hck : color_list[k] = c := by
    rw [list_get_lt _ _ hk0] at hc
    exact Option.some.inj hc
  rw [apply_color_increment_loop_to color_list c p2 k hk0 color_list.length 0 0 bodies
    (by omega) (Nat.zero_le k) (fun j _ hjk h => by have := huniq j h; omega)]
  obtain ⟨left, hleft⟩ : ∃ left, color_list.length - k = left + 1 :=
    ⟨color_list.length - k - 1, by omega⟩
  rw [hleft, apply_color_increment_loop, list_get_lt _ _ hk0]
  simp only []
  rw [if_pos ((color_match_iff _ _).mpr hck), if_pos (by omega), list_get_lt _ _ hk]
  simp only []
  rw [body_write_eq _ _ _ b hb]
  simp only []
  exact apply_color_increment_loop_skip color_list c p2 left (k + 1) 1 _ (by omega)
    (fun j hj h => by have := huniq j h; omega)

/-- When the last entry is the only one equal to the colour, the loop counts one match and
flags body2 removed. -/
theorem apply_color_increment_loop_last (color_list : List (rgb_color_t K))
    (c : rgb_color_t K) (p2 : Nat) (k : Nat) (hk : k + 1 = color_list.length)
    (hc : list_get color_list k = some c)
    (huniq : ∀ j, list_get color_list j = some c → j = k)
    (bodies : bodies_t K) (b : body K) (hb : body_deref bodies p2 = some b) :
    apply_color_increment_loop color_list c p2 color_list.length 0 0 bodies =
      some (1, body_update bodies p2 body_remove) := by
  have hk0 : k < color_list.length := by omega
  have hck : color_list[k] = c := by
    rw [list_get_lt _ _ hk0] at hc
    exact Option.some.inj hc
  rw [apply_color_increment_loop_to color_list c p2 k hk0 color_list.length 0 0 bodies
    (by omega) (Nat.zero_le k) (fun j _ hjk h => by have := huniq j h; omega)]
  obtain ⟨left, hleft⟩ : ∃ left, color_list.length - k = left + 1 :=
    ⟨color_list.length - k - 1, by omega⟩
  rw [hleft, apply_color_increment_loop, list_get_lt _ _ hk0]
  simp only []
  rw [if_pos ((color_match_iff _ _).mpr hck), if_neg (by omega)]
  rw [body_write_eq _ _ _ b hb]
  simp only []
  exact apply_color_increment_loop_skip color_list c p2 left (k + 1) 1 _ (by omega)
    (fun j hj h => by have := huniq j h; omega)

/-- C24 (as amended): for every palette and two different bodies,
`apply_color_increment_collision` returns, flags body1 removed and leaves every body other
than body1 and body2 as it was.  If exactly one palette entry equals the colour of body2 and
it is not the last entry, body2 is left as it was except for its colour, which becomes the
entry after that one.  If no entry other than the last equals the colour of body2 (the last
entry only, or no entry), body2 is flagged removed and otherwise left as it was. -/
theorem apply_color_increment_collision_unique (p1 p2 : Nat) (axis : vector_t K)
    (aux : const_body_aux_t K) (bodies : bodies_t K) (palette : List (rgb_color_t K))
    (h12 : p1 ≠ p2) (hpal : aux.extra_var = some palette) (b1 b2 : body K)
    (h1 : body_deref bodies p1 = some b1) (h2 : body_deref bodies p2 = some b2) :
    ∃ bodies1,
      apply_color_increment_collision p1 p2 axis aux bodies =
        some (⟨aux.consts, aux.bodies, none⟩, bodies1) ∧
      body_deref bodies1 p1 = some (body_remove b1) ∧
      (∀ q, q ≠ p1 → q ≠ p2 → body_deref bodies1 q = body_deref bodies q) ∧
      (∀ i next, i + 1 < palette.length → list_get palette i = some (body_get_color b2) →
        (∀ j, list_get palette j = some (body_get_color b2) → j = i) →
        list_get palette (i + 1) = some next →
        body_deref bodies1 p2 = some (body_set_color b2 next)) ∧
      ((∀ j, list_get palette j = some (body_get_color b2) → j + 1 = palette.length) →
        body_deref bodies1 p2 = some (body_remove b2)) := by
  have h3 : body_deref (body_update bodies p1 body_remove) p2 = some b2 := by
    rw [body_deref_update_other _ _ _ _ (Ne.symm h12), h2]
  have h4 : body_deref (body_update bodies p1 body_remove) p1 = some (body_remove b1) :=
    body_deref_update_same _ _ _ _ h1
  obtain ⟨counter1, f, hloop⟩ := apply_color_increment_loop_returns palette
    (body_get_color b2) p2 palette.length 0 0 (body_update bodies p1 body_remove) (by omega)
    ⟨b2, h3⟩
  have h5 : body_deref (body_update (body_update bodies p1 body_remove) p2 f) p2 =
      some (f b2) := body_deref_update_same _ _ _ _ h3
  by_cases hcount : counter1 = 0
  · refine ⟨body_update (body_update (body_update bodies p1 body_remove) p2 f) p2 body_remove,
      ?_, ?_, ?_, ?_, ?_⟩
    · unfold apply_color_increment_collision
      rw [body_write_eq _ _ _ b1 h1]
      simp only [hpal, h3, hloop, hcount, if_true]
      rw [body_write_eq _ _ _ _ h5]
    · rw [body_deref_update_other _ _ _ _ h12, body_deref_update_other _ _ _ _ h12, h4]
    · intro q hq1 hq2
      rw [body_deref_update_other _ _ _ _ hq2, body_deref_update_other _ _ _ _ hq2,
        body_deref_update_other _ _ _ _ hq1]
    · intro i next hi hci huniq _
      rw [apply_color_increment_loop_next palette _ p2 i hi hci huniq _ b2 h3] at hloop
      have := (Prod.mk.inj (Option.some.inj hloop)).1
      omega
    · intro hlast
      by_cases hex : ∃ k, list_get palette k = some (body_get_color b2)
      · obtain ⟨k, hk⟩ := hex
        rw [apply_color_increment_loop_last palette _ p2 k (hlast k hk) hk
          (fun j hj => by have := hlast j hj; have := hlast k hk; omega) _ b2 h3] at hloop
        have := (Prod.mk.inj (Option.some.inj hloop)).1
        omega
      · rw [apply_color_increment_loop_skip palette _ p2 palette.length 0 0 _ (by omega)
          (fun j _ h => hex ⟨j, h⟩)] at hloop
        have hb := (Prod.mk.inj (Option.some.inj hloop)).2
        rw [← hb, body_deref_update_same _ _ _ _ h3]
  · refine ⟨body_update (body_update bodies p1 body_remove) p2 f, ?_, ?_, ?_, ?_, ?_⟩
    · unfold apply_color_increment_collision
      rw [body_write_eq _ _ _ b1 h1]
      simp only [hpal, h3, hloop, hcount, if_false]
    · rw [body_deref_update_other _ _ _ _ h12, h4]
    · intro q hq1 hq2
      rw [body_deref_update_other _ _ _ _ hq2, body_deref_update_other _ _ _ _ hq1]
    · intro i next hi hci huniq hnext
      rw [apply_color_increment_loop_next palette _ p2 i hi hci huniq _ b2 h3] at hloop
      have hb := (Prod.mk.inj (Option.some.inj hloop)).2
      rw [← hb, body_deref_update_same _ _ _ _ h3]
      rw [list_get_lt _ _ hi] at hnext
      rw [Option.some.inj hnext]
    · intro hlast
      by_cases hex : ∃ k, list_get palette k = some (body_get_color b2)
      · obtain ⟨k, hk⟩ := hex
        rw [apply_color_increment_loop_last palette _ p2 k (hlast k hk) hk
          (fun j hj => by have := hlast j hj; have := hlast k hk; omega) _ b2 h3] at hloop
        have hb := (Prod.mk.inj (Option.some.inj hloop)).2
        rw [← hb, body_deref_update_same _ _ _ _ h3]
      · rw [apply_color_increment_loop_skip palette _ p2 palette.length 0 0 _ (by omega)
          (fun j _ h => hex ⟨j, h⟩)] at hloop
        have := (Prod.mk.inj (Option.some.inj hloop)).1
        omega

theorem apply_color_increment_collision_unique_witness :
    ∃ bodies1,
      apply_color_increment_collision 1 2 ⟨1, 0⟩
          ⟨[], [1, 2], some [⟨1, 0, 0⟩, ⟨0, 1, 0⟩, ⟨0, 0, 1⟩]⟩
          [(1, square_body ⟨0, 0⟩ (mass_t.finite (1 : ℝ)) ⟨1, 0⟩),
            (2, square_body ⟨1, 0⟩ (mass_t.finite 1) ⟨0, 0⟩)] =
        some (⟨[], [1, 2], none⟩, bodies1) ∧
      body_deref bodies1 1 =
        some (body_remove (square_body ⟨0, 0⟩ (mass_t.finite (1 : ℝ)) ⟨1, 0⟩)) ∧
      body_deref bodies1 2 =
        some (body_set_color (square_body ⟨1, 0⟩ (mass_t.finite (1 : ℝ)) ⟨0, 0⟩)
          ⟨0, 1, 0⟩) := by
  obtain ⟨bodies1, h0, h1, _, h2, _⟩ :=
    apply_color_increment_collision_unique 1 2 (⟨1, 0⟩ : vector_t ℝ)
      ⟨[], [1, 2], some [⟨1, 0, 0⟩, ⟨0, 1, 0⟩, ⟨0, 0, 1⟩]⟩
      [(1, square_body ⟨0, 0⟩ (mass_t.finite (1 : ℝ)) ⟨1, 0⟩),
        (2, square_body ⟨1, 0⟩ (mass_t.finite 1) ⟨0, 0⟩)]
      [⟨1, 0, 0⟩, ⟨0, 1, 0⟩, ⟨0, 0, 1⟩] (by decide) rfl
      (square_body ⟨0, 0⟩ (mass_t.finite 1) ⟨1, 0⟩)
      (square_body ⟨1, 0⟩ (mass_t.finite 1) ⟨0, 0⟩) rfl rfl
  refine ⟨bodies1, h0, h1, h2 0 ⟨0, 1, 0⟩ (by simp) rfl ?_ rfl⟩
  intro j hj
  have hcol : body_get_color (square_body (⟨1, 0⟩ : vector_t ℝ) (mass_t.finite 1) ⟨0, 0⟩) =
      ⟨1, 0, 0⟩ := rfl
  rw [hcol] at hj
  rcases j with _ | _ | _ | j
  · rfl
  · simp [list_get] at hj
  · simp [list_get] at hj
  · simp [list_get] at hj

/-- C24 (as stated, refuted): with the palette red, green, red and a red body2, whose
colour equals the first entry, which is not the last, `apply_color_increment_collision`
leaves body2 green and flagged removed: the loop goes on after the first match and compares
the last entry with the colour body2 had before the loop. -/
theorem color_increment_repeated_entry :
    list_get ([⟨1, 0, 0⟩, ⟨0, 1, 0⟩, ⟨1, 0, 0⟩] : List (rgb_color_t ℝ)) 0 =
        some (body_get_color (square_body ⟨1, 0⟩ (mass_t.finite (1 : ℝ)) ⟨0, 0⟩)) ∧
      apply_color_increment_collision 1 2 ⟨1, 0⟩
          ⟨[], [1, 2], some [⟨1, 0, 0⟩, ⟨0, 1, 0⟩, ⟨1, 0, 0⟩]⟩
          [(1, square_body ⟨0, 0⟩ (mass_t.finite (1 : ℝ)) ⟨1, 0⟩),
            (2, square_body ⟨1, 0⟩ (mass_t.finite 1) ⟨0, 0⟩)] =
        some (⟨[], [1, 2], none⟩,
          [(1, body_remove (square_body ⟨0, 0⟩ (mass_t.finite (1 : ℝ)) ⟨1, 0⟩)),
            (2, body_remove (body_set_color
              (square_body ⟨1, 0⟩ (mass_t.finite (1 : ℝ)) ⟨0, 0⟩) ⟨0, 1, 0⟩))]) ∧
      body_is_removed (body_remove (body_set_color
        (square_body ⟨1, 0⟩ (mass_t.finite (1 : ℝ)) ⟨0, 0⟩) ⟨0, 1, 0⟩)) = true := by
  have hcol : body_get_color (square_body (⟨1, 0⟩ : vector_t ℝ) (mass_t.finite 1) ⟨0, 0⟩) =
      ⟨1, 0, 0⟩ := rfl
  refine ⟨rfl, ?_, rfl⟩
  simp [apply_color_increment_collision, apply_color_increment_loop, body_write, body_deref,
    body_update, list_get, hcol]

/-! ### polygon.c: `polygon_area` and the shoelace sum -/

theorem cyc_area_eq_shoelace (x y : Nat → K) (n : Nat) :
    cyc_area x y n =
      ∑ i ∈ Finset.range n, (x i * y ((i + 1) % n) - x ((i + 1) % n) * y i) := by
  have h := sum_cyc_telescope (fun i => x i * y i) n
  simp only [cyc_area]
  have h2 : ∑ i ∈ Finset.range n, (x i - x ((i + 1) % n)) * (y i + y ((i + 1) % n)) =
      ∑ i ∈ Finset.range n, (x i * y ((i + 1) % n) - x ((i + 1) % n) * y i) -
        ∑ i ∈ Finset.range n, (x ((i + 1) % n) * y ((i + 1) % n) - x i * y i) := by
    rw [← Finset.sum_sub_distrib]
    apply Finset.sum_congr rfl
    intro i _
    ring
  rw [h2, h, sub_zero]

theorem polygon_area_eq_shoelace (p : List (vector_t K)) :
    polygon_area p = shoelace_area p := by
  rw [polygon_area_eq, cyc_area_eq_shoelace, shoelace_area]
  ring

/-- A cyclic sum over `m + 1` indices: the terms that do not wrap, then the one that does. -/
theorem sum_cyc_split (F : Nat → Nat → K) (m : Nat) :
    ∑ i ∈ Finset.range (m + 1), F i ((i + 1) % (m + 1)) =
      ∑ i ∈ Finset.range m, F i (i + 1) + F m 0 := by
  rw [Finset.sum_range_succ, Nat.mod_self]
  congr 1
  apply Finset.sum_congr rfl
  intro i hi
  rw [Finset.mem_range] at hi
  rw [Nat.mod_eq_of_lt (by omega)]

theorem vertex_reverse (p : List (vector_t K)) (i : Nat) (hi : i < p.length) :
    vertex p.reverse i = vertex p (p.length - 1 - i) := by
  unfold vertex
  rw [List.getD_eq_getElem _ _ (by simpa using hi), List.getD_eq_getElem _ _ (by omega)]
  simp

theorem shoelace_area_reverse (p : List (vector_t K)) :
    shoelace_area p.reverse = - shoelace_area p := by
  unfold shoelace_area
  rcases Nat.eq_zero_or_pos p.length with h0 | hpos
  · simp [h0]
  · obtain ⟨m, hm⟩ : ∃ m, p.length = m + 1 := ⟨p.length - 1, by omega⟩
    rw [List.length_reverse, hm]
    rw [sum_cyc_split (fun i j => (vertex p.reverse i).x * (vertex p.reverse j).y -
        (vertex p.reverse j).x * (vertex p.reverse i).y) m,
      sum_cyc_split (fun i j => (vertex p i).x * (vertex p j).y -
        (vertex p j).x * (vertex p i).y) m]
    have hrev : ∀ i, i ≤ m → vertex p.reverse i = vertex p (m - i) := by
      intro i hi
      rw [vertex_reverse p i (by omega), hm]
      congr 1
    have h1 : ∑ i ∈ Finset.range m, ((vertex p.reverse i).x * (vertex p.reverse (i + 1)).y -
        (vertex p.reverse (i + 1)).x * (vertex p.reverse i).y) =
        ∑ i ∈ Finset.range m, ((vertex p (m - 1 - i + 1)).x * (vertex p (m - 1 - i)).y -
          (vertex p (m - 1 - i)).x * (vertex p (m - 1 - i + 1)).y) := by
      apply Finset.sum_congr rfl
      intro i hi
      rw [Finset.mem_range] at hi
      rw [hrev i (by omega), hrev (i + 1) (by omega)]
      rw [show m - i = m - 1 - i + 1 by omega, show m - (i + 1) = m - 1 - i by omega]
    rw [h1, Finset.sum_range_reflect (fun j => (vertex p (j + 1)).x * (vertex p j).y -
      (vertex p j).x * (vertex p (j + 1)).y) m]
    rw [hrev m (le_refl m), hrev 0 (Nat.zero_le m), Nat.sub_self, Nat.sub_zero]
    have h2 : ∑ j ∈ Finset.range m, ((vertex p (j + 1)).x * (vertex p j).y -
        (vertex p j).x * (vertex p (j + 1)).y) =
        - ∑ j ∈ Finset.range m, ((vertex p j).x * (vertex p (j + 1)).y -
          (vertex p (j + 1)).x * (vertex p j).y) := by
      rw [← Finset.sum_neg_distrib]
      apply Finset.sum_congr rfl
      intro j _
      ring
    rw [h2]
    ring

theorem polygon_area_pos_of_convex_ccw (p : List (vector_t K)) (hc : convex_ccw p)
    (hne : p ≠ []) : 0 < polygon_area p := by
  have hn : 0 < p.length := List.length_pos.mpr hne
  rw [polygon_area_eq,
    ← cyc_area_translate (fun i => (vertex p i).x) (fun i => (vertex p i).y) p.length
      (-(vertex p 0).x) (-(vertex p 0).y),
    cyc_area_eq_shoelace]
  apply mul_pos _ (by norm_num)
  apply Finset.sum_pos'
  · intro i hi
    have h := hc.1 i (Finset.mem_range.mp hi) 0 hn
    simp only [vec_cross, vec_subtract] at h
    have e : ((vertex p i).x + -(vertex p 0).x) *
        ((vertex p ((i + 1) % p.length)).y + -(vertex p 0).y) -
        ((vertex p ((i + 1) % p.length)).x + -(vertex p 0).x) *
          ((vertex p i).y + -(vertex p 0).y) =
        ((vertex p ((i + 1) % p.length)).x - (vertex p i).x) *
          ((vertex p 0).y - (vertex p i).y) -
        ((vertex p ((i + 1) % p.length)).y - (vertex p i).y) *
          ((vertex p 0).x - (vertex p i).x) := by ring
    rw [e]
    exact h
  · refine ⟨1 % p.length, Finset.mem_range.mpr (Nat.mod_lt _ hn), ?_⟩
    have h := hc.2 0 hn
    simp only [Nat.zero_add, vec_cross, vec_subtract] at h
    rw [Nat.mod_add_mod]
    have e : ((vertex p (1 % p.length)).x + -(vertex p 0).x) *
        ((vertex p ((1 + 1) % p.length)).y + -(vertex p 0).y) -
        ((vertex p ((1 + 1) % p.length)).x + -(vertex p 0).x) *
          ((vertex p (1 % p.length)).y + -(vertex p 0).y) =
        ((vertex p (1 % p.length)).x - (vertex p 0).x) *
          ((vertex p (2 % p.length)).y - (vertex p (1 % p.length)).y) -
        ((vertex p (1 % p.length)).y - (vertex p 0).y) *
          ((vertex p (2 % p.length)).x - (vertex p (1 % p.length)).x) := by ring
    rw [e]
    exact h

/-- C30: for every vertex list, `polygon_area` is the shoelace sum, half the cyclic sum of
`x_i * y_(i+1) - x_(i+1) * y_i`; it is positive for a non-empty convex polygon given
counter-clockwise; the square `(0,0)`, `(1,0)`, `(1,1)`, `(0,1)` has area 1; and the reversed
vertex list has the negated area. -/
theorem polygon_area_shoelace (polygon : List (vector_t K)) :
    polygon_area polygon = shoelace_area polygon ∧
      (convex_ccw polygon → polygon ≠ [] → 0 < polygon_area polygon) ∧
      polygon_area ([⟨0, 0⟩, ⟨1, 0⟩, ⟨1, 1⟩, ⟨0, 1⟩] : List (vector_t K)) = 1 ∧
      polygon_area polygon.reverse = - polygon_area polygon := by
  refine ⟨polygon_area_eq_shoelace polygon, polygon_area_pos_of_convex_ccw polygon, ?_, ?_⟩
  · simp [polygon_area, vertex, List.range_succ]
    norm_num
  · rw [polygon_area_eq_shoelace, polygon_area_eq_shoelace, shoelace_area_reverse]

theorem polygon_area_shoelace_witness :
    convex_ccw ([⟨0, 0⟩, ⟨1, 0⟩, ⟨1, 1⟩, ⟨0, 1⟩] : List (vector_t ℝ)) ∧
      0 < polygon_area ([⟨0, 0⟩, ⟨1, 0⟩, ⟨1, 1⟩, ⟨0, 1⟩] : List (vector_t ℝ)) ∧
      polygon_area ([⟨0, 1⟩, ⟨1, 1⟩, ⟨1, 0⟩, ⟨0, 0⟩] : List (vector_t ℝ)) = -1 := by
  have hc : convex_ccw ([⟨0, 0⟩, ⟨1, 0⟩, ⟨1, 1⟩, ⟨0, 1⟩] : List (vector_t ℝ)) := by
    constructor
    · intro i hi k hk
      simp only [List.length_cons, List.length_nil] at hi hk
      interval_cases i <;> interval_cases k <;> norm_num [vertex, vec_cross, vec_subtract]
    · intro i hi
      simp only [List.length_cons, List.length_nil] at hi
      interval_cases i <;> norm_num [vertex, vec_cross, vec_subtract]
  have h := polygon_area_shoelace ([⟨0, 0⟩, ⟨1, 0⟩, ⟨1, 1⟩, ⟨0, 1⟩] : List (vector_t ℝ))
  refine ⟨hc, h.2.1 hc (by simp), ?_⟩
  have h4 := h.2.2.2
  rw [h.2.2.1] at h4
  exact h4

/-! ### Several bodies, each with its drag effect -/

omit [LinearOrderedField K] in
theorem body_deref_of_not_mem (bodies : bodies_t K) (p : Nat)
    (h : p ∉ bodies.map Prod.fst) : body_deref bodies p = none := by
  induction bodies with
  | nil => rfl
  | cons e bodies ih =>
    obtain ⟨a, b⟩ := e
    simp only [List.map_cons, List.mem_cons, not_or] at h
    rw [body_deref_cons, if_neg (Ne.symm h.1)]
    exact ih h.2

/-- C33, at the failing input: for the colour `(1, 0, 1)` (`COLOR_FUCHSIA`), whose red and
blue components are equal and greater than the green one, `color_val` returns the green
component 0, not the maximum 1; so it does for every colour with `r = b > g`. -/
theorem color_val_red_blue_tie :
    color_val (⟨1, 0, 1⟩ : rgb_color_t ℝ) = 0 ∧
      max (1 : ℝ) (max 0 1) = 1 ∧
      ∀ c : rgb_color_t ℝ, c.r = c.b → c.g < c.r → color_val c = c.g := by
  refine ⟨?_, by norm_num, ?_⟩
  · simp [color_val]
  · intro c h1 h2
    simp [color_val, h1]

/-- C32, at the failing input: for the hue `5π/3` (300 degrees) with saturation 1 and value
1, `color_from_hsv` returns the colour `(1, 0, 1)` and `color_hue` of it is 0, not `5π/3`:
`color_val` returns the green component for a colour with `r = b > g`, so `delta` is 0. -/
theorem color_hue_from_hsv_300 :
    0 < 5 * Real.pi / 3 ∧ 5 * Real.pi / 3 < 2 * Real.pi ∧
      color_from_hsv 2 Real.pi (5 * Real.pi / 3) 1 1 = some ⟨1, 0, 1⟩ ∧
      color_hue Real.pi ⟨1, 0, 1⟩ = 0 ∧
      (0 : ℝ) ≠ 5 * Real.pi / 3 := by
  have hpi := Real.pi_pos
  have hdeg : 5 * Real.pi / 3 * (180 / Real.pi) = 300 := by
    field_simp
    ring
  refine ⟨by positivity, by linarith, ?_, ?_, by positivity⟩
  · simp only [color_from_hsv, hdeg]
    norm_num [color_from_hsv_loop]
  · simp [color_hue, color_val]

/-! ### polygon.c: `polygon_proj` -/

theorem vec_scalar_proj_false (sqrt : K → K) (axis v : vector_t K) :
    vec_scalar_proj sqrt axis v false = vec_dot v axis := by
  unfold vec_scalar_proj
  split
  · next h => simp [vec_dot, h.1, h.2]
  · simp

/-- The loop of `polygon_proj` from a finite range: the range it leaves is finite, contains
the old range and the projection of every vertex, and each end is the old end or the
projection of a vertex. -/
theorem polygon_proj_fold_spec (sqrt : K → K) (ax : vector_t K) (l : List (vector_t K)) :
    ∀ m M : K, ∃ m2 M2 : K,
      l.foldl (fun (proj_range : range_t K) vert =>
        let vert_proj := vec_scalar_proj sqrt ax vert false
        let proj_range : range_t K :=
          if xdouble.lt (.fin vert_proj) proj_range.min then
            { proj_range with min := .fin vert_proj }
          else proj_range
        if xdouble.gt (.fin vert_proj) proj_range.max then
          { proj_range with max := .fin vert_proj }
        else proj_range) ⟨.fin m, .fin M⟩ = ⟨.fin m2, .fin M2⟩ ∧
      m2 ≤ m ∧ M ≤ M2 ∧
      (∀ v ∈ l, m2 ≤ vec_dot v ax ∧ vec_dot v ax ≤ M2) ∧
      (m2 = m ∨ ∃ v ∈ l, vec_dot v ax = m2) ∧ (M2 = M ∨ ∃ v ∈ l, vec_dot v ax = M2) := by
  induction l with
  | nil => intro m M; exact ⟨m, M, rfl, le_refl _, le_refl _, by simp, Or.inl rfl, Or.inl rfl⟩
  | cons v l ih =>
    intro m M
    obtain ⟨m2, M2, h1, h2, h3, h4, h5, h6⟩ := ih (min (vec_dot v ax) m) (max (vec_dot v ax) M)
    refine ⟨m2, M2, ?_, le_trans h2 (min_le_right _ _), le_trans (le_max_right _ _) h3, ?_,
      ?_, ?_⟩
    · rw [List.foldl_cons, ← h1]
      congr 1
      rw [vec_scalar_proj_false]
      by_cases c1 : vec_dot v ax < m <;>
        by_cases c2 : M < vec_dot v ax <;>
        simp [xdouble.lt, xdouble.gt, c1, c2, min_eq_left, min_eq_right, max_eq_left,
          max_eq_right, le_of_lt, le_of_not_lt]
    · intro u hu
      rcases List.mem_cons.mp hu with rfl | hu
      · exact ⟨le_trans h2 (min_le_left _ _), le_trans (le_max_left _ _) h3⟩
      · exact h4 u hu
    · rcases h5 with h5 | ⟨u, hu, h5⟩
      · rcases min_choice (vec_dot v ax) m with hc | hc
        · exact Or.inr ⟨v, List.mem_cons_self _ _, by rw [h5, hc]⟩
        · exact Or.inl (by rw [h5, hc])
      · exact Or.inr ⟨u, List.mem_cons_of_mem _ hu, h5⟩
    · rcases h6 with h6 | ⟨u, hu, h6⟩
      · rcases max_choice (vec_dot v ax) M with hc | hc
        · exact Or.inr ⟨v, List.mem_cons_self _ _, by rw [h6, hc]⟩
        · exact Or.inl (by rw [h6, hc])
      · exact Or.inr ⟨u, List.mem_cons_of_mem _ hu, h6⟩

/-- The loop of `polygon_proj` on a polygon with a vertex, from the range
`{INFINITY, -INFINITY}`. -/
theorem polygon_proj_fold_init (sqrt : K → K) (ax : vector_t K) (p : List (vector_t K))
    (hp : p ≠ []) :
    ∃ lo hi : K,
      p.foldl (fun (proj_range : range_t K) vert =>
        let vert_proj := vec_scalar_proj sqrt ax vert false
        let proj_range : range_t K :=
          if xdouble.lt (.fin vert_proj) proj_range.min then
            { proj_range with min := .fin vert_proj }
          else proj_range
        if xdouble.gt (.fin vert_proj) proj_range.max then
          { proj_range with max := .fin vert_proj }
        else proj_range) ⟨.pinf, .ninf⟩ = ⟨.fin lo, .fin hi⟩ ∧
      lo ≤ hi ∧ (∀ v ∈ p, lo ≤ vec_dot v ax ∧ vec_dot v ax ≤ hi) ∧
      (∃ v ∈ p, vec_dot v ax = lo) ∧ (∃ v ∈ p, vec_dot v ax = hi) := by
  cases p with
  | nil => exact absurd rfl hp
  | cons v l =>
    obtain ⟨m2, M2, h1, h2, h3, h4, h5, h6⟩ :=
      polygon_proj_fold_spec sqrt ax l (vec_dot v ax) (vec_dot v ax)
    refine ⟨m2, M2, ?_, le_trans h2 h3, ?_, ?_, ?_⟩
    · rw [← h1, List.foldl_cons]
      congr 1
      rw [vec_scalar_proj_false]
      simp [xdouble.lt, xdouble.gt]
    · intro u hu
      rcases List.mem_cons.mp hu with rfl | hu
      · exact ⟨h2, h3⟩
      · exact h4 u hu
    · rcases h5 with h5 | ⟨u, hu, h5⟩
      · exact ⟨v, List.mem_cons_self _ _, h5.symm⟩
      · exact ⟨u, List.mem_cons_of_mem _ hu, h5⟩
    · rcases h6 with h6 | ⟨u, hu, h6⟩
      · exact ⟨v, List.mem_cons_self _ _, h6.symm⟩
      · exact ⟨u, List.mem_cons_of_mem _ hu, h6⟩

theorem vec_norm_pos (axis : vector_t ℝ) (hax : ¬ (axis.x = 0 ∧ axis.y = 0)) :
    0 < vec_norm Real.sqrt axis := by
  simp only [vec_norm, vec_dot]
  apply Real.sqrt_pos.mpr
  by_cases hx : axis.x = 0
  · have hy : axis.y ≠ 0 := fun hy => hax ⟨hx, hy⟩
    have := mul_self_pos.mpr hy
    nlinarith [mul_self_nonneg axis.x]
  · have := mul_self_pos.mpr hx
    nlinarith [mul_self_nonneg axis.y]

theorem vec_norm_vec_normalize (axis : vector_t ℝ) (hax : ¬ (axis.x = 0 ∧ axis.y = 0)) :
    vec_norm Real.sqrt (vec_normalize Real.sqrt axis) = 1 := by
  have hpos := vec_norm_pos axis hax
  have hsq : vec_norm Real.sqrt axis * vec_norm Real.sqrt axis =
      axis.x * axis.x + axis.y * axis.y := by
    simp only [vec_norm, vec_dot]
    exact Real.mul_self_sqrt (by nlinarith [mul_self_nonneg axis.x, mul_self_nonneg axis.y])
  rw [vec_normalize, if_neg hax]
  have h : vec_dot (vec_multiply (1 / vec_norm Real.sqrt axis) axis)
      (vec_multiply (1 / vec_norm Real.sqrt axis) axis) = 1 := by
    simp only [vec_dot, vec_multiply]
    have hne : vec_norm Real.sqrt axis ≠ 0 := ne_of_gt hpos
    field_simp
    rw [← hsq]
  rw [vec_norm, h, Real.sqrt_one]

/-- C31: over the reals, for a polygon with a vertex and an axis that is not the zero
vector, `polygon_proj` returns a finite range `[lo, hi]` with `lo ≤ hi` that contains the dot
product of every vertex with the axis and whose two ends are the dot products of vertices
with the axis; the axis is the given one when `normalize` is false and `vec_normalize` of it,
which is the given one divided by its norm and has norm 1, when `normalize` is true.  For
the zero axis `polygon_proj` returns the range `[0, 0]`. -/
theorem polygon_proj_range (polygon : List (vector_t ℝ)) (hp : polygon ≠ [])
    (axis : vector_t ℝ) (hax : axis ≠ VEC_ZERO) (normalize : Bool) :
    (∃ lo hi : ℝ,
      polygon_proj Real.sqrt polygon axis normalize = ⟨.fin lo, .fin hi⟩ ∧ lo ≤ hi ∧
      (∀ v ∈ polygon,
        lo ≤ vec_dot v (if normalize = true then vec_normalize Real.sqrt axis else axis) ∧
        vec_dot v (if normalize = true then vec_normalize Real.sqrt axis else axis) ≤ hi) ∧
      (∃ v ∈ polygon,
        vec_dot v (if normalize = true then vec_normalize Real.sqrt axis else axis) = lo) ∧
      (∃ v ∈ polygon,
        vec_dot v (if normalize = true then vec_normalize Real.sqrt axis else axis) = hi)) ∧
      vec_normalize Real.sqrt axis = vec_multiply (1 / vec_norm Real.sqrt axis) axis ∧
      0 < vec_norm Real.sqrt axis ∧
      vec_norm Real.sqrt (vec_normalize Real.sqrt axis) = 1 ∧
      polygon_proj Real.sqrt polygon VEC_ZERO normalize = ⟨.fin 0, .fin 0⟩ := by
  have h0 : ¬ (axis.x = 0 ∧ axis.y = 0) := by
    rintro ⟨hx, hy⟩
    apply hax
    ext
    · exact hx
    · exact hy
  refine ⟨?_, by rw [vec_normalize, if_neg h0], vec_norm_pos axis h0,
    vec_norm_vec_normalize axis h0, by simp [polygon_proj, VEC_ZERO]⟩
  obtain ⟨lo, hi, h1, h2, h3, h4, h5⟩ := polygon_proj_fold_init Real.sqrt
    (if normalize = true then vec_normalize Real.sqrt axis else axis) polygon hp
  refine ⟨lo, hi, ?_, h2, h3, h4, h5⟩
  rw [polygon_proj, if_neg h0]
  exact h1

theorem polygon_proj_range_witness :
    ∃ lo hi : ℝ,
      polygon_proj Real.sqrt COLLIDING_PAIR1_VERTS1 ⟨3, 4⟩ true = ⟨.fin lo, .fin hi⟩ ∧
      lo ≤ hi ∧
      (∀ v ∈ COLLIDING_PAIR1_VERTS1,
        lo ≤ vec_dot v (vec_normalize Real.sqrt ⟨3, 4⟩) ∧
        vec_dot v (vec_normalize Real.sqrt ⟨3, 4⟩) ≤ hi) ∧
      (∃ v ∈ COLLIDING_PAIR1_VERTS1, vec_dot v (vec_normalize Real.sqrt ⟨3, 4⟩) = lo) ∧
      (∃ v ∈ COLLIDING_PAIR1_VERTS1, vec_dot v (vec_normalize Real.sqrt ⟨3, 4⟩) = hi) :=
  (polygon_proj_range COLLIDING_PAIR1_VERTS1 (by simp [COLLIDING_PAIR1_VERTS1]) ⟨3, 4⟩
    (by simp [VEC_ZERO]) true).1

/-! ### collision.c: the candidate axes -/

theorem list_get_proj_axes (sqrt : K → K) (shape : List (vector_t K)) (i : Nat)
    (hi : i < shape.length) :
    list_get (get_normalized_proj_axes sqrt shape) i =
      some (vec_normalize sqrt (vec_rotate_90
        (vec_subtract (vertex shape ((i + 1) % shape.length)) (vertex shape i)) true)) := by
  unfold get_normalized_proj_axes
  rw [list_get_lt _ _ (by simpa using hi)]
  simp

/-- C34 (as amended): over the reals, for a convex polygon given counter-clockwise (its
edges are then not degenerate), the candidate axis `get_normalized_proj_axes` builds for the
edge from vertex `i` to the next vertex has norm 1, is perpendicular to the edge, and points
into the polygon: the two ends of the edge have the same projection onto it and no vertex
has a smaller one. -/
theorem proj_axes_point_inward (polygon : List (vector_t ℝ)) (hc : convex_ccw polygon)
    (i : Nat) (hi : i < polygon.length) :
    ∃ a, list_get (get_normalized_proj_axes Real.sqrt polygon) i = some a ∧
      vec_norm Real.sqrt a = 1 ∧
      vec_dot a (vec_subtract (vertex polygon ((i + 1) % polygon.length))
        (vertex polygon i)) = 0 ∧
      vec_dot (vertex polygon ((i + 1) % polygon.length)) a = vec_dot (vertex polygon i) a ∧
      ∀ k, k < polygon.length → vec_dot (vertex polygon i) a ≤ vec_dot (vertex polygon k) a := by
  have hturn := hc.2 i hi
  have hn0 : ¬ ((vec_rotate_90 (vec_subtract (vertex polygon ((i + 1) % polygon.length))
      (vertex polygon i)) true).x = 0 ∧
      (vec_rotate_90 (vec_subtract (vertex polygon ((i + 1) % polygon.length))
        (vertex polygon i)) true).y = 0) := by
    rintro ⟨hx, hy⟩
    simp only [vec_rotate_90, vec_subtract, if_true] at hx hy
    simp only [vec_cross, vec_subtract] at hturn
    have hy2 : (vertex polygon ((i + 1) % polygon.length)).y - (vertex polygon i).y = 0 := by
      linarith
    rw [hy, hy2] at hturn
    simp at hturn
  have hpos := vec_norm_pos _ hn0
  refine ⟨_, list_get_proj_axes Real.sqrt polygon i hi, vec_norm_vec_normalize _ hn0, ?_, ?_, ?_⟩
  · rw [vec_normalize, if_neg hn0]
    simp only [vec_dot, vec_multiply, vec_rotate_90, vec_subtract, if_true]
    ring
  · rw [vec_normalize, if_neg hn0]
    simp only [vec_dot, vec_multiply, vec_rotate_90, vec_subtract, if_true]
    ring
  · intro k hk
    have h := hc.1 i hi k hk
    simp only [vec_cross, vec_subtract] at h
    rw [vec_normalize, if_neg hn0]
    simp only [vec_dot, vec_multiply, vec_rotate_90, vec_subtract, if_true]
    have hinv : 0 < 1 / vec_norm Real.sqrt (vec_rotate_90 (vec_subtract
        (vertex polygon ((i + 1) % polygon.length)) (vertex polygon i)) true) :=
      one_div_pos.mpr hpos
    simp only [vec_rotate_90, vec_subtract, if_true] at hinv
    have hmul := mul_nonneg (le_of_lt hinv) h
    nlinarith [hmul]

theorem proj_axes_point_inward_witness :
    ∃ a, list_get (get_normalized_proj_axes Real.sqrt COLLIDING_PAIR1_VERTS1) 0 = some a ∧
      vec_norm Real.sqrt a = 1 ∧
      vec_dot a (vec_subtract (vertex COLLIDING_PAIR1_VERTS1
        ((0 + 1) % COLLIDING_PAIR1_VERTS1.length)) (vertex COLLIDING_PAIR1_VERTS1 0)) = 0 ∧
      vec_dot (vertex COLLIDING_PAIR1_VERTS1 ((0 + 1) % COLLIDING_PAIR1_VERTS1.length)) a =
        vec_dot (vertex COLLIDING_PAIR1_VERTS1 0) a ∧
      ∀ k, k < COLLIDING_PAIR1_VERTS1.length →
        vec_dot (vertex COLLIDING_PAIR1_VERTS1 0) a ≤ vec_dot (vertex COLLIDING_PAIR1_VERTS1 k) a :=
  proj_axes_point_inward COLLIDING_PAIR1_VERTS1
    (by
      constructor
      · intro i hi k hk
        simp only [COLLIDING_PAIR1_VERTS1, List.length_cons, List.length_nil] at hi hk
        interval_cases i <;> interval_cases k <;>
          norm_num [COLLIDING_PAIR1_VERTS1, vertex, vec_cross, vec_subtract]
      · intro i hi
        simp only [COLLIDING_PAIR1_VERTS1, List.length_cons, List.length_nil] at hi
        interval_cases i <;> norm_num [COLLIDING_PAIR1_VERTS1, vertex, vec_cross, vec_subtract])
    0 (by simp [COLLIDING_PAIR1_VERTS1])

/-- C34 (as stated, refuted): for the square `(1,1)`, `(3,1)`, `(3,2)`, `(1,2)` the axis
built for the edge from `(1,1)` to `(3,1)` is `(0, 1)`; the ends of the edge project to 1
onto it and the vertex `(3,2)` projects to 2, which is greater: the axis points into the
square. -/
theorem proj_axis_of_square_points_inward :
    list_get (get_normalized_proj_axes Real.sqrt COLLIDING_PAIR1_VERTS1) 0 = some ⟨0, 1⟩ ∧
      vec_dot (vertex COLLIDING_PAIR1_VERTS1 0) (⟨0, 1⟩ : vector_t ℝ) = 1 ∧
      vec_dot (vertex COLLIDING_PAIR1_VERTS1 1) (⟨0, 1⟩ : vector_t ℝ) = 1 ∧
      vec_dot (vertex COLLIDING_PAIR1_VERTS1 2) (⟨0, 1⟩ : vector_t ℝ) = 2 ∧
      ¬ vec_dot (vertex COLLIDING_PAIR1_VERTS1 2) (⟨0, 1⟩ : vector_t ℝ) ≤
        vec_dot (vertex COLLIDING_PAIR1_VERTS1 0) (⟨0, 1⟩ : vector_t ℝ) := by
  refine ⟨?_, ?_, ?_, ?_, ?_⟩
  · rw [axes_colliding_pair1.1]
    rfl
  · norm_num [COLLIDING_PAIR1_VERTS1, vertex, vec_dot]
  · norm_num [COLLIDING_PAIR1_VERTS1, vertex, vec_dot]
  · norm_num [COLLIDING_PAIR1_VERTS1, vertex, vec_dot]
  · norm_num [COLLIDING_PAIR1_VERTS1, vertex, vec_dot]

/-! ### collision.c: `shapes_are_separated` -/

/-- C35: when the projections of the two shapes onto the axis are the ranges
`[min1, max1]` and `[min2, max2]` with `min1 ≤ max1` and `min2 ≤ max2`,
`shapes_are_separated` reports separated exactly when `max1 < min2` or `max2 < min1`, and
when it does not, the overlap it stores is `min(max1, max2) - max(min1, min2)`, which is not
negative. -/
theorem shapes_are_separated_overlap (sqrt : K → K) (axis : vector_t K)
    (shape1 shape2 : List (vector_t K)) (min1 max1 min2 max2 : K)
    (hproj1 : polygon_proj sqrt shape1 axis false = ⟨.fin min1, .fin max1⟩)
    (hproj2 : polygon_proj sqrt shape2 axis false = ⟨.fin min2, .fin max2⟩)
    (h1 : min1 ≤ max1) (h2 : min2 ≤ max2) :
    ((shapes_are_separated sqrt axis shape1 shape2).seperated = true ↔
        (max1 < min2 ∨ max2 < min1)) ∧
      ((shapes_are_separated sqrt axis shape1 shape2).seperated = false →
        (shapes_are_separated sqrt axis shape1 shape2).overlap =
            .fin (min max1 max2 - max min1 min2) ∧
          0 ≤ min max1 max2 - max min1 min2) := by
  unfold shapes_are_separated
  rw [hproj1, hproj2]
  simp only [xdouble.lt, xdouble.le, xdouble.ge, xdouble.sub]
  by_cases hs1 : max1 < min2
  · simp [hs1]
  · by_cases hs2 : max2 < min1
    · simp [hs2]
    · have hs1' : min2 ≤ max1 := not_lt.mp hs1
      have hs2' : min1 ≤ max2 := not_lt.mp hs2
      simp only [hs1, hs2, decide_False, Bool.or_self, if_true, Bool.false_eq_true,
        false_or, iff_self, true_and, forall_true_left, or_self]
      by_cases c1 : min1 ≤ min2
      · by_cases c2 : max1 ≤ max2
        · simp [c1, c2, min_eq_left c2, max_eq_right c1, hs1']
        · have c2' : max2 ≤ max1 := le_of_lt (not_le.mp c2)
          simp [c1, c2, min_eq_right c2', max_eq_right c1, h2]
      · have c1' : min2 ≤ min1 := le_of_lt (not_le.mp c1)
        by_cases c2 : max2 ≤ max1
        · simp [c1, c2, min_eq_right c2, max_eq_left c1', hs2']
        · have c2' : max1 ≤ max2 := le_of_lt (not_le.mp c2)
          simp [c1, c2, min_eq_left c2', max_eq_left c1', h1]

theorem shapes_are_separated_overlap_witness :
    ((shapes_are_separated Real.sqrt ⟨1, 0⟩ COLLIDING_PAIR1_VERTS1
        COLLIDING_PAIR1_VERTS2).seperated = true ↔ ((3 : ℝ) < 2 ∨ (4 : ℝ) < 1)) ∧
      ((shapes_are_separated Real.sqrt ⟨1, 0⟩ COLLIDING_PAIR1_VERTS1
          COLLIDING_PAIR1_VERTS2).seperated = false →
        (shapes_are_separated Real.sqrt ⟨1, 0⟩ COLLIDING_PAIR1_VERTS1
            COLLIDING_PAIR1_VERTS2).overlap = .fin (min 3 4 - max 1 2) ∧
          (0 : ℝ) ≤ min 3 4 - max 1 2) :=
  shapes_are_separated_overlap Real.sqrt ⟨1, 0⟩ COLLIDING_PAIR1_VERTS1 COLLIDING_PAIR1_VERTS2
    1 3 2 4
    (by
      simp [polygon_proj, vec_scalar_proj, vec_dot, COLLIDING_PAIR1_VERTS1, xdouble.lt,
        xdouble.gt])
    (by
      simp [polygon_proj, vec_scalar_proj, vec_dot, COLLIDING_PAIR1_VERTS2, xdouble.lt,
        xdouble.gt]
      norm_num)
    (by norm_num) (by norm_num)

/-! ### collision.c: `find_collision` with shapes of different sizes -/

theorem find_collision_triangle_far :
    find_collision Real.sqrt triangle_6_8 quad_far = some ⟨true, some ⟨0, 1⟩⟩ := by
  unfold find_collision
  rw [axes_triangle_6_8, axes_quad_far]
  simp [find_collision_loop, list_get, sep_triangle_far_0, sep_triangle_far_1,
    sep_triangle_far_2, sep_triangle_far_3, sep_triangle_far_4, xdouble.lt, xdouble.gt]
  norm_num

theorem find_collision_far_triangle :
    find_collision Real.sqrt quad_far triangle_6_8 = some ⟨false, none⟩ := by
  unfold find_collision
  rw [axes_triangle_6_8, axes_quad_far]
  simp [find_collision_loop, list_get, sep_far_triangle_0, sep_far_triangle_1,
    sep_far_triangle_2, sep_far_triangle_3, xdouble.lt, xdouble.gt]

/-- C36, at the failing input: for the triangle `(0,0),(6,0),(0,8)` and the quadrilateral
`(2,7),(2,15),(-6,15),(-6,13)`, `find_collision(triangle, quadrilateral)` reports
`collided = true` and `find_collision(quadrilateral, triangle)` reports `collided = false`. -/
theorem find_collision_not_symmetric :
    ∃ info1 info2 : collision_info_t ℝ,
      find_collision Real.sqrt triangle_6_8 quad_far = some info1 ∧
      find_collision Real.sqrt quad_far triangle_6_8 = some info2 ∧
      info1.collided = true ∧ info2.collided = false ∧ info1.collided ≠ info2.collided :=
  ⟨_, _, find_collision_triangle_far, find_collision_far_triangle, rfl, rfl, by simp⟩

/-- C37, at the failing input: an empty first shape and a second shape of two vertices at
`(0, 0)`, whose axes are both the zero vector.  The first iteration sets `num_axes1` to 2 and
reads `axes2[0]`, onto which nothing separates; the second iteration, with `i = 1 < 2`, reads
the empty list `axes1` at index 1, where the assertion of `list_get` fails. -/
theorem find_collision_empty_first_shape :
    get_normalized_proj_axes Real.sqrt ([] : List (vector_t ℝ)) = [] ∧
      get_normalized_proj_axes Real.sqrt ([⟨0, 0⟩, ⟨0, 0⟩] : List (vector_t ℝ)) =
        [⟨0, 0⟩, ⟨0, 0⟩] ∧
      shapes_are_separated Real.sqrt ⟨0, 0⟩ ([] : List (vector_t ℝ)) [⟨0, 0⟩, ⟨0, 0⟩] =
        ⟨false, .fin 0⟩ ∧
      list_get ([] : List (vector_t ℝ)) (1 % 2) = none ∧
      find_collision Real.sqrt ([] : List (vector_t ℝ)) [⟨0, 0⟩, ⟨0, 0⟩] = none := by
  have hax : get_normalized_proj_axes Real.sqrt ([⟨0, 0⟩, ⟨0, 0⟩] : List (vector_t ℝ)) =
      [⟨0, 0⟩, ⟨0, 0⟩] := by
    simp [get_normalized_proj_axes, vertex, vec_subtract, vec_rotate_90, vec_normalize,
      VEC_ZERO, List.range_succ]
  have hsep : shapes_are_separated Real.sqrt ⟨0, 0⟩ ([] : List (vector_t ℝ))
      [⟨0, 0⟩, ⟨0, 0⟩] = ⟨false, .fin 0⟩ := by
    simp [shapes_are_separated, polygon_proj, xdouble.lt, xdouble.le, xdouble.sub]
  refine ⟨rfl, hax, hsep, rfl, ?_⟩
  unfold find_collision
  rw [hax]
  simp [get_normalized_proj_axes, find_collision_loop, list_get, hsep, xdouble.gt,
    xdouble.lt]

/-! ### forces.c: `apply_physics_collision` and momentum -/

/-- C38: for two different bodies of finite positive masses `m1` and `m2` with empty
accumulators, every restitution coefficient and every axis, `apply_physics_collision`
returns and adds an impulse `J` to body1 and `-1 * J` to body2, which sum to zero; after
`body_tick` of both bodies `m1 * v1 + m2 * v2` is what it was before the collision. -/
theorem physics_collision_momentum (p1 p2 : Nat) (hne : p1 ≠ p2) (axis : vector_t K)
    (aux : const_body_aux_t K) (bodies : bodies_t K) (e : K)
    (he : list_get aux.consts 0 = some e) (b1 b2 : body K)
    (h1 : body_deref bodies p1 = some b1) (h2 : body_deref bodies p2 = some b2) (m1 m2 : K)
    (hm1 : body_get_mass b1 = mass_t.finite m1) (hm2 : body_get_mass b2 = mass_t.finite m2)
    (hpos1 : 0 < m1) (hpos2 : 0 < m2)
    (hf1 : b1.force = VEC_ZERO) (hi1 : b1.impulse = VEC_ZERO)
    (hf2 : b2.force = VEC_ZERO) (hi2 : b2.impulse = VEC_ZERO) (dt : K) :
    ∃ (bodies1 : bodies_t K) (impulse_vec : vector_t K),
      apply_physics_collision p1 p2 axis aux bodies = some (aux, bodies1) ∧
      body_deref bodies1 p1 = some (body_add_impulse b1 impulse_vec) ∧
      body_deref bodies1 p2 = some (body_add_impulse b2 (vec_multiply (-1) impulse_vec)) ∧
      vec_add impulse_vec (vec_multiply (-1) impulse_vec) = VEC_ZERO ∧
      vec_add
          (vec_multiply m1 (body_get_velocity (body_tick (body_add_impulse b1 impulse_vec) dt)))
          (vec_multiply m2 (body_get_velocity
            (body_tick (body_add_impulse b2 (vec_multiply (-1) impulse_vec)) dt))) =
        vec_add (vec_multiply m1 (body_get_velocity b1))
          (vec_multiply m2 (body_get_velocity b2)) := by
  obtain ⟨bodies1, h0, hd1, hd2⟩ := apply_physics_collision_finite_bodies p1 p2 hne axis aux
    bodies e he b1 b2 h1 h2 m1 m2 hm1 hm2
  refine ⟨bodies1, _, h0, hd1, hd2, ?_, ?_⟩
  · ext <;> simp only [vec_add, vec_multiply, VEC_ZERO] <;> ring
  · have hne1 : m1 ≠ 0 := ne_of_gt hpos1
    have hne2 : m2 ≠ 0 := ne_of_gt hpos2
    simp only [body_get_mass] at hm1 hm2
    simp only [body_get_velocity, body_tick_velocity_eq, body_add_impulse, hm1, hm2, hf1, hi1,
      hf2, hi2, mass_t.one_div, VEC_ZERO]
    ext <;> simp only [vec_add, vec_multiply] <;> field_simp <;> ring

theorem physics_collision_momentum_witness :
    ∃ (bodies1 : bodies_t ℝ) (impulse_vec : vector_t ℝ),
      apply_physics_collision 1 2 ⟨3 / 5, 4 / 5⟩ (const_body_aux_init [1 / 2] [1, 2])
          [(1, square_body ⟨0, 0⟩ (mass_t.finite 2) ⟨3, 1⟩),
            (2, square_body ⟨1, 0⟩ (mass_t.finite 3) ⟨-1, 0⟩)] =
        some (const_body_aux_init [1 / 2] [1, 2], bodies1) ∧
      body_deref bodies1 1 =
        some (body_add_impulse (square_body ⟨0, 0⟩ (mass_t.finite 2) ⟨3, 1⟩) impulse_vec) ∧
      body_deref bodies1 2 =
        some (body_add_impulse (square_body ⟨1, 0⟩ (mass_t.finite 3) ⟨-1, 0⟩)
          (vec_multiply (-1) impulse_vec)) ∧
      vec_add impulse_vec (vec_multiply (-1) impulse_vec) = VEC_ZERO ∧
      vec_add
          (vec_multiply 2 (body_get_velocity (body_tick
            (body_add_impulse (square_body ⟨0, 0⟩ (mass_t.finite 2) ⟨3, 1⟩) impulse_vec) 1)))
          (vec_multiply 3 (body_get_velocity (body_tick
            (body_add_impulse (square_body ⟨1, 0⟩ (mass_t.finite 3) ⟨-1, 0⟩)
              (vec_multiply (-1) impulse_vec)) 1))) =
        vec_add (vec_multiply 2 (body_get_velocity
            (square_body ⟨0, 0⟩ (mass_t.finite (2 : ℝ)) ⟨3, 1⟩)))
          (vec_multiply 3 (body_get_velocity
            (square_body ⟨1, 0⟩ (mass_t.finite (3 : ℝ)) ⟨-1, 0⟩))) :=
  physics_collision_momentum 1 2 (by decide) (⟨3 / 5, 4 / 5⟩ : vector_t ℝ)
    (const_body_aux_init [1 / 2] [1, 2])
    [(1, square_body ⟨0, 0⟩ (mass_t.finite 2) ⟨3, 1⟩),
      (2, square_body ⟨1, 0⟩ (mass_t.finite 3) ⟨-1, 0⟩)] (1 / 2)
    (by simp [list_get, const_body_aux_init])
    (square_body ⟨0, 0⟩ (mass_t.finite 2) ⟨3, 1⟩)
    (square_body ⟨1, 0⟩ (mass_t.finite 3) ⟨-1, 0⟩)
    (by simp [body_deref]) (by simp [body_deref]) 2 3 rfl rfl (by norm_num) (by norm_num)
    rfl rfl rfl rfl 1

/-! ### body.c: a constant force -/

theorem constant_force_iterate (b : body K) (m dt : K) (force : vector_t K)
    (hm : body_get_mass b = mass_t.finite m) (hpos : 0 < m)
    (hf : b.force = VEC_ZERO) (hi : b.impulse = VEC_ZERO) (n : Nat) :
    body_get_mass ((fun c => body_tick (body_add_force c force) dt)^[n] b) = mass_t.finite m ∧
      ((fun c => body_tick (body_add_force c force) dt)^[n] b).force = VEC_ZERO ∧
      ((fun c => body_tick (body_add_force c force) dt)^[n] b).impulse = VEC_ZERO ∧
      body_get_velocity ((fun c => body_tick (body_add_force c force) dt)^[n] b) =
        vec_add (body_get_velocity b) (vec_multiply ((n : K) * dt / m) force) ∧
      body_get_centroid ((fun c => body_tick (body_add_force c force) dt)^[n] b) =
        vec_add (vec_add (body_get_centroid b)
            (vec_multiply ((n : K) * dt) (body_get_velocity b)))
          (vec_multiply (((n : K) * dt) ^ 2 / (2 * m)) force) := by
  have hne : m ≠ 0 := ne_of_gt hpos
  induction n with
  | zero =>
    refine ⟨hm, hf, hi, ?_, ?_⟩
    · ext <;> simp [vec_add, vec_multiply]
    · ext <;> simp [vec_add, vec_multiply]
  | succ n ih =>
    obtain ⟨h1, h2, h3, h4, h5⟩ := ih
    rw [Function.iterate_succ_apply']
    generalize (fun c => body_tick (body_add_force c force) dt)^[n] b = c at h1 h2 h3 h4 h5 ⊢
    simp only [body_get_mass, body_get_velocity, body_get_centroid] at h1 h4 h5 ⊢
    refine ⟨h1, rfl, rfl, ?_, ?_⟩
    · simp only [body_tick, body_set_velocity, body_set_centroid, body_add_force,
        body_get_velocity, body_get_mass, h1, h2, h3, h4, mass_t.one_div, VEC_ZERO]
      ext <;> simp only [vec_add, vec_multiply] <;> push_cast <;> field_simp <;> ring
    · simp only [body_tick, body_set_velocity, body_set_centroid, body_add_force,
        body_get_velocity, body_get_mass, h1, h2, h3, h4, h5, mass_t.one_div, VEC_ZERO]
      ext <;> simp only [vec_add, vec_multiply] <;> push_cast <;> field_simp <;> ring

/-- C39: for a body of finite positive mass `m` with empty accumulators, centroid `c0` and
velocity `v0`, after `n` rounds of `body_add_force` with the same force `F` followed by
`body_tick` with `dt`, the velocity is `v0 + (t / m) * F` and the centroid is
`c0 + t * v0 + (t ^ 2 / (2 * m)) * F` with `t = n * dt`. -/
theorem body_tick_constant_force (b : body K) (m dt : K) (force : vector_t K)
    (hm : body_get_mass b = mass_t.finite m) (hpos : 0 < m)
    (hf : b.force = VEC_ZERO) (hi : b.impulse = VEC_ZERO) (n : Nat) :
    body_get_velocity ((fun c => body_tick (body_add_force c force) dt)^[n] b) =
        vec_add (body_get_velocity b) (vec_multiply ((n : K) * dt / m) force) ∧
      body_get_centroid ((fun c => body_tick (body_add_force c force) dt)^[n] b) =
        vec_add (vec_add (body_get_centroid b)
            (vec_multiply ((n : K) * dt) (body_get_velocity b)))
          (vec_multiply (((n : K) * dt) ^ 2 / (2 * m)) force) :=
  (constant_force_iterate b m dt force hm hpos hf hi n).2.2.2

theorem body_tick_constant_force_witness :
    body_get_velocity ((fun c => body_tick (body_add_force c ⟨0, -10⟩) (1 / 2))^[4]
        (square_body ⟨0, 0⟩ (mass_t.finite (2 : ℝ)) ⟨3, 1⟩)) =
        vec_add (body_get_velocity (square_body ⟨0, 0⟩ (mass_t.finite (2 : ℝ)) ⟨3, 1⟩))
          (vec_multiply (((4 : Nat) : ℝ) * (1 / 2) / 2) ⟨0, -10⟩) ∧
      body_get_centroid ((fun c => body_tick (body_add_force c ⟨0, -10⟩) (1 / 2))^[4]
        (square_body ⟨0, 0⟩ (mass_t.finite (2 : ℝ)) ⟨3, 1⟩)) =
        vec_add (vec_add (body_get_centroid (square_body ⟨0, 0⟩ (mass_t.finite (2 : ℝ)) ⟨3, 1⟩))
            (vec_multiply (((4 : Nat) : ℝ) * (1 / 2))
              (body_get_velocity (square_body ⟨0, 0⟩ (mass_t.finite (2 : ℝ)) ⟨3, 1⟩))))
          (vec_multiply ((((4 : Nat) : ℝ) * (1 / 2)) ^ 2 / (2 * 2)) ⟨0, -10⟩) :=
  body_tick_constant_force (square_body ⟨0, 0⟩ (mass_t.finite (2 : ℝ)) ⟨3, 1⟩) 2 (1 / 2)
    ⟨0, -10⟩ rfl (by norm_num) rfl rfl 4

/-! ### polygon.c: the centroid of a triangle -/

/-- C40: for three vertices `a`, `b`, `c`, in either winding order, with `polygon_area` not
zero, `polygon_centroid` returns the arithmetic mean of the three vertices. -/
theorem polygon_centroid_triangle (a b c : vector_t K)
    (harea : polygon_area [a, b, c] ≠ 0) :
    polygon_centroid [a, b, c] = ⟨(a.x + b.x + c.x) / 3, (a.y + b.y + c.y) / 3⟩ := by
  have h6 : 6 * polygon_area [a, b, c] ≠ 0 := mul_ne_zero (by norm_num) harea
  have harea2 : polygon_area [a, b, c] =
      ((a.x - b.x) * (a.y + b.y) + (b.x - c.x) * (b.y + c.y) + (c.x - a.x) * (c.y + a.y)) *
        (1 / 2) := by
    simp [polygon_area, vertex, List.range_succ]
  unfold polygon_centroid
  simp only []
  ext
  · rw [div_eq_div_iff h6 (by norm_num)]
    rw [harea2]
    simp [vertex, List.range_succ]
    ring
  · rw [div_eq_div_iff h6 (by norm_num)]
    rw [harea2]
    simp [vertex, List.range_succ]
    ring

theorem polygon_centroid_triangle_witness :
    polygon_centroid ([⟨0, 0⟩, ⟨0, 8⟩, ⟨6, 0⟩] : List (vector_t ℝ)) =
      ⟨((0 : ℝ) + 0 + 6) / 3, ((0 : ℝ) + 8 + 0) / 3⟩ :=
  polygon_centroid_triangle (⟨0, 0⟩ : vector_t ℝ) ⟨0, 8⟩ ⟨6, 0⟩
    (by simp [polygon_area, vertex, List.range_succ])

end Theorems

end CS3
